import Mathlib

/-!
# Palette deploy tool: transaction confirmation, nonce allocation and event decoding

A shallow embedding of

* `pkg/eth/eth_invoker.go`: `EthInvoker.GetReceipt`, `DumpTx`, `waitTxConfirm`,
  `makeAuth`, `InitGenesisBlock` and the other operations that send a transaction;
* `core/sidechain.go`: `PLTRegisterSideChain`, `PLTApproveRegisterSideChain`,
  `PLTSyncPLTGenesis`, `PLTSyncPolyGenesis`;
* `pkg/sdk/wrapper.go`: `GetPaletteLockEvent`, `GetPaletteUnlockEvent`,
  `unpackLockEvent`, `unpackUnlockEvent`;
* `pkg/sdk/plt.go`: `Client.WaitTransaction`.

Conventions.  A Go `error` is `Option GoError` (`none` is `nil`); a Go pair
`(v, err)` is `Except GoError v`.  A call into the node or into a library hands back
`Except String v`, the string being the text of its error, and the caller sees that
error as `GoError.rpc` (node) or `GoError.abi` (ABI decoder, contract binding).  A `*big.Int` result is
`Option Int` (`none` is the nil pointer).  A run-time index-out-of-range failure and a
wait that never returns are the outer `none` of an `Option` result.  Calls into the node
(receipts, pending nonce, gas price, transaction lookup) and into the generated contract
bindings are fields of the `EthInvoker` / `Client` records.  The ABI decoding of log
data into the values of the inputs of an event is a field of `abi.Event`; the store of
those values in the fields of `LockEvent` / `UnlockEvent` follows the types: the inputs
as `pltProxyAbiJsonStr` declares them, the fields as the structs declare them.
-/

namespace PltDeploy

/-! ## Data model -/

/-- The 32-byte `common.Hash`, read as a big-endian number. -/
abbrev common.Hash := Nat

/-- The 20-byte `common.Address`, read as a big-endian number. -/
abbrev common.Address := Nat

/-- A Go byte slice. -/
abbrev Bytes := List Nat

/-- The all-zero hash `utils.EmptyHash`. -/
def utils.EmptyHash : common.Hash := 0

/-- The all-zero address `utils.EmptyAddress`. -/
def utils.EmptyAddress : common.Address := 0

deriving instance DecidableEq for Except

/-- The fields of `types.Log` that the tool reads. -/
structure Log where
  Address : common.Address
  Topics : List common.Hash
  Data : Bytes
deriving DecidableEq, Repr

/-- The fields of `types.Receipt` that the tool reads. -/
structure Receipt where
  Status : Nat
  BlockNumber : Nat
  Logs : List Log
deriving DecidableEq, Repr

/-- Error values, one constructor per place that creates one.  `rpc` and `abi` are the
errors handed back by the node client and by the ABI library. -/
inductive GoError where
  /-- An error returned by a call to the node. -/
  | rpc (msg : String)
  /-- An error returned by the ABI decoder or by a generated contract binding. -/
  | abi (msg : String)
  /-- The error "faild to get receipt %s" of `DumpTx`. -/
  | faildToGetReceipt (hash : common.Hash)
  /-- The error "receipt failed %s" of `DumpTx`. -/
  | receiptFailed (hash : common.Hash)
  /-- The error "invalid receipt %s, logs length expect 3, got %d". -/
  | logsLengthExpect3 (hash : common.Hash) (length : Nat)
  /-- The error "can not find proxy unlock event". -/
  | canNotFindProxyEvent
  /-- The error "expect proxy addr %s, got %s". -/
  | expectProxyAddr (proxyAddr got : common.Address)
  /-- The error "makeAuth, addr %s, err %v". -/
  | makeAuthNonce (fromAddress : common.Address) (cause : GoError)
  /-- The error "makeAuth, %v". -/
  | makeAuthGasPrice (cause : GoError)
  /-- The error "new EthCrossChainManager err: %s". -/
  | newEthCrossChainManager (cause : GoError)
  /-- The error "call eccm InitGenesisBlock err: %s". -/
  | callEccmInitGenesisBlock (cause : GoError)
  /-- The error "TransferECCDOwnership, err: %v". -/
  | transferECCDOwnership (cause : GoError)
  /-- The error "TransferECCMOwnership err: %v". -/
  | transferECCMOwnership (cause : GoError)
  /-- The error "mapping contract deployed name %s != %s". -/
  | mappingNameNotEqual (nameAfterDeploy name : String)
deriving DecidableEq, Repr

/-- The lines written with `log.Infof` / `log.Errorf`, one constructor per call site. -/
inductive LogLine where
  /-- The line "txhash %s, block height %d". -/
  | txhash (hash : common.Hash) (height : Nat)
  /-- The line "eventlog address %s". -/
  | eventlogAddress (a : common.Address)
  /-- The line "eventlog data %s": the data bytes read as one big-endian integer. -/
  | eventlogData (n : Nat)
  /-- The line "eventlog topic[%d] %s". -/
  | eventlogTopic (i : Nat) (topic : common.Hash)
  /-- The line "failed to call TransactionByHash: %v". -/
  | failedToCallTransactionByHash (e : GoError)
deriving DecidableEq, Repr

/-- The fields of `bind.TransactOpts` that `makeAuth` fills in. -/
structure TransactOpts where
  From : common.Address
  Nonce : Int
  Value : Int
  GasLimit : Nat
  GasPrice : Int
deriving DecidableEq, Repr

/-! ## `pkg/eth/eth_invoker.go` -/

/-- The package variable `DefaultGasLimit`. -/
def DefaultGasLimit : Nat := 100000

/-- The `EthInvoker` together with the node and the contract bindings it talks to.
`WaitTransactionConfirm h` tells whether the blocking wait of `ETHTools` for `h` comes
back; `eccmInitGenesisBlock` is the generated binding that signs and broadcasts the
call and hands back the hash of the transaction. -/
structure EthInvoker where
  Address : common.Address
  PendingNonceAt : common.Address → Except String Nat
  SuggestGasPrice : Except String Int
  TransactionReceipt : common.Hash → Except String Receipt
  WaitTransactionConfirm : common.Hash → Bool
  NewEthCrossChainManager : common.Address → Except String Unit
  eccmInitGenesisBlock :
    common.Address → TransactOpts → Bytes → Bytes → Except String common.Hash

/-- The Go conversion `int64(x)` of a `uint64`. -/
def int64OfUint64 (x : Nat) : Int :=
  if x % 2 ^ 64 < 2 ^ 63 then ((x % 2 ^ 64 : Nat) : Int)
  else ((x % 2 ^ 64 : Nat) : Int) - 2 ^ 64

/-- The value of `new(big.Int).SetBytes(b)`: the bytes as a big-endian number. -/
def bigIntSetBytes (b : Bytes) : Nat :=
  b.foldl (fun acc x => acc * 256 + x % 256) 0

/-- `EthInvoker.GetReceipt`. -/
def GetReceipt (i : EthInvoker) (hash : common.Hash) : Except GoError Receipt :=
  match i.TransactionReceipt hash with
  | .error err => .error (GoError.rpc err)
  | .ok tx => .ok tx

/-- The lines `DumpTx` logs for the topics of one event, from index `idx` on. -/
def dumpTopics : Nat → List common.Hash → List LogLine
  | _, [] => []
  | idx, topic :: rest => LogLine.eventlogTopic idx topic :: dumpTopics (idx + 1) rest

/-- The lines `DumpTx` logs for the events of a receipt. -/
def dumpEvents : List Log → List LogLine
  | [] => []
  | event :: rest =>
    LogLine.eventlogAddress event.Address
      :: LogLine.eventlogData (bigIntSetBytes event.Data)
      :: (dumpTopics 0 event.Topics ++ dumpEvents rest)

/-- `EthInvoker.DumpTx`: the lines logged and the error returned. -/
def DumpTx (i : EthInvoker) (hash : common.Hash) : List LogLine × Option GoError :=
  match GetReceipt i hash with
  | .error _ => ([], some (GoError.faildToGetReceipt hash))
  | .ok tx =>
    if tx.Status = 0 then
      ([], some (GoError.receiptFailed hash))
    else
      (LogLine.txhash hash (tx.BlockNumber % 2 ^ 64) :: dumpEvents tx.Logs, none)

/-- `EthInvoker.waitTxConfirm`: `none` when the wait for the transaction never comes
back, otherwise what `DumpTx` logs and returns. -/
def waitTxConfirm (i : EthInvoker) (hash : common.Hash) :
    Option (List LogLine × Option GoError) :=
  if i.WaitTransactionConfirm hash then
    match DumpTx i hash with
    | (lines, some err) => some (lines, some err)
    | (lines, none) => some (lines, none)
  else none

/-- `EthInvoker.makeAuth`. -/
def makeAuth (i : EthInvoker) : Except GoError TransactOpts :=
  let fromAddress := i.Address
  match i.PendingNonceAt fromAddress with
  | .error err => .error (GoError.makeAuthNonce fromAddress (GoError.rpc err))
  | .ok nonce =>
    match i.SuggestGasPrice with
    | .error err => .error (GoError.makeAuthGasPrice (GoError.rpc err))
    | .ok gasPrice =>
      .ok { From := i.Address
            Nonce := int64OfUint64 nonce
            Value := 0
            GasLimit := DefaultGasLimit % 2 ^ 64
            GasPrice := gasPrice * 1 }

/-- What an operation of the invoker did to the chain, in order. -/
inductive ChainEffect where
  /-- A signed transaction was handed to the node. -/
  | broadcast (tx : common.Hash)
  /-- The invoker waited for a transaction to leave the pending pool. -/
  | waitConfirm (tx : common.Hash)
deriving DecidableEq, Repr

/-- The outcome of an operation that returns `(common.Hash, error)`. -/
structure HashResult where
  hash : common.Hash
  err : Option GoError
  effects : List ChainEffect
  lines : List LogLine
deriving DecidableEq, Repr

/-- `EthInvoker.InitGenesisBlock`: `none` when the wait for the transaction never comes
back. -/
def InitGenesisBlock (i : EthInvoker) (eccmAddr : common.Address)
    (rawHdr publickeys : Bytes) : Option HashResult :=
  match i.NewEthCrossChainManager eccmAddr with
  | .error err =>
    some { hash := utils.EmptyHash,
           err := some (GoError.newEthCrossChainManager (GoError.abi err)),
           effects := [], lines := [] }
  | .ok _ =>
    match makeAuth i with
    | .error err => some { hash := utils.EmptyHash, err := some err, effects := [], lines := [] }
    | .ok auth =>
      match i.eccmInitGenesisBlock eccmAddr auth rawHdr publickeys with
      | .error err =>
        some { hash := utils.EmptyHash,
               err := some (GoError.callEccmInitGenesisBlock (GoError.abi err)),
               effects := [], lines := [] }
      | .ok tx =>
        match waitTxConfirm i tx with
        | none => none
        | some (lines, some err) =>
          some { hash := utils.EmptyHash, err := some err,
                 effects := [ChainEffect.broadcast tx, ChainEffect.waitConfirm tx],
                 lines := lines }
        | some (lines, none) =>
          some { hash := tx, err := none,
                 effects := [ChainEffect.broadcast tx, ChainEffect.waitConfirm tx],
                 lines := lines }

/-- The successive `makeAuth` calls of one invoker: the invoker itself keeps nothing
between calls, so call number `k` is described by the answers `calls[k]` the node gives
at that moment. -/
def makeAuthCalls (calls : List EthInvoker) : List (Except GoError TransactOpts) :=
  calls.map makeAuth

/-- The nonce carried by the result of `makeAuth`, if it produced transaction options. -/
def nonceOf : Except GoError TransactOpts → Option Int
  | .ok auth => some auth.Nonce
  | .error _ => none

/-! ### Several `makeAuth` calls in flight at once

`makeAuth` makes two calls to the node, one after the other, and touches no field of the
invoker in between.  A call in flight is therefore at one of three points. -/

/-- Where one `makeAuth` call stands. -/
inductive AuthCall where
  /-- Nothing has been asked yet. -/
  | start
  /-- `PendingNonceAt` has answered `nonce`; `SuggestGasPrice` has not been asked. -/
  | gotNonce (nonce : Nat)
  /-- The call has returned. -/
  | done (r : Except GoError TransactOpts)
deriving DecidableEq, Repr

/-- One atomic step of a `makeAuth` call: the next request to the node and the code up
to the following request (or to the return). -/
def AuthCall.step (i : EthInvoker) : AuthCall → AuthCall
  | .start =>
    match i.PendingNonceAt i.Address with
    | .error err => .done (.error (GoError.makeAuthNonce i.Address (GoError.rpc err)))
    | .ok nonce => .gotNonce nonce
  | .gotNonce nonce =>
    match i.SuggestGasPrice with
    | .error err => .done (.error (GoError.makeAuthGasPrice (GoError.rpc err)))
    | .ok gasPrice =>
      .done (.ok { From := i.Address
                   Nonce := int64OfUint64 nonce
                   Value := 0
                   GasLimit := DefaultGasLimit % 2 ^ 64
                   GasPrice := gasPrice * 1 })
  | .done r => .done r

/-- Let caller number `k` take one step. -/
def stepCaller (i : EthInvoker) : Nat → List AuthCall → List AuthCall
  | _, [] => []
  | 0, c :: cs => c.step i :: cs
  | k + 1, c :: cs => c :: stepCaller i k cs

/-- Run the callers under a schedule: the list names, step by step, the caller that
moves next. -/
def runSchedule (i : EthInvoker) : List Nat → List AuthCall → List AuthCall
  | [], cs => cs
  | k :: schedule, cs => runSchedule i schedule (stepCaller i k cs)

/-- The nonces of the callers that have returned transaction options. -/
def returnedNonces : List AuthCall → List Int
  | [] => []
  | .done (.ok auth) :: cs => auth.Nonce :: returnedNonces cs
  | _ :: cs => returnedNonces cs

/-! ## `pkg/sdk/wrapper.go` -/

/-- The struct `LockEvent`. -/
structure LockEvent where
  FromAssetHash : common.Address
  FromAddress : common.Address
  ToChainId : Nat
  ToAssetHash : common.Address
  ToAddress : common.Address
  Amount : Option Int
deriving DecidableEq, Repr

/-- The struct `UnlockEvent`. -/
structure UnlockEvent where
  ToAssetHash : common.Address
  ToAddress : common.Address
  Amount : Option Int
deriving DecidableEq, Repr

/-- A Go value handed back by the ABI decoder for one input, by the ABI type of the
input: `address` gives a `common.Address`, `uint64` a `uint64`, `bytes` a `[]uint8` and
`uint256` a `*big.Int`. -/
inductive abi.Value where
  | address (a : common.Address)
  | uint64 (n : Nat)
  | bytes (b : Bytes)
  | uint256 (n : Nat)
deriving DecidableEq, Repr

/-- The Go type of a decoded value, as `%v` prints it. -/
def abi.Value.goType : abi.Value → String
  | .address _ => "common.Address"
  | .uint64 _ => "uint64"
  | .bytes _ => "[]uint8"
  | .uint256 _ => "*big.Int"

/-- The step of `Inputs.Unpack` that stores a decoded value in a struct field of type
`common.Address`: only a value of a Go type assignable to the field is stored;
otherwise the unpacking stops with "abi: cannot unmarshal %v in to %v". -/
def abi.setAddress : abi.Value → Except String common.Address
  | .address a => .ok a
  | v => .error ("abi: cannot unmarshal " ++ v.goType ++ " in to common.Address")

/-- The same step for a struct field of type `uint64`. -/
def abi.setUint64 : abi.Value → Except String Nat
  | .uint64 n => .ok n
  | v => .error ("abi: cannot unmarshal " ++ v.goType ++ " in to uint64")

/-- The same step for a struct field of type `*big.Int`. -/
def abi.setBigInt : abi.Value → Except String (Option Int)
  | .uint256 n => .ok (some (n : Int))
  | v => .error ("abi: cannot unmarshal " ++ v.goType ++ " in to *big.Int")

/-- The values of the inputs of the `lock` event with the types `pltProxyAbiJsonStr`
declares for them: address, address, uint64, bytes, bytes, uint256. -/
structure LockInputs where
  fromAssetHash : common.Address
  fromAddress : common.Address
  toChainId : Nat
  toAssetHash : Bytes
  toAddress : Bytes
  amount : Nat
deriving DecidableEq, Repr

/-- The values of the inputs of the `unlock` event with the types `pltProxyAbiJsonStr`
declares for them: address, address, uint256. -/
structure UnlockInputs where
  toAssetHash : common.Address
  toAddress : common.Address
  amount : Nat
deriving DecidableEq, Repr

/-- What the tool uses of an `abi.Event` whose inputs have the types collected in `α`:
its signature hash `ID()` and the decoding `Inputs.UnpackValues` of log data into the
values of the inputs. -/
structure abi.Event (α : Type) where
  ID : common.Hash
  UnpackValues : Bytes → Except String α

/-- The call `ab.Inputs.Unpack(event, enc)` for `event = new(LockEvent)`: the data is
decoded into the values of the six inputs, which are then stored one after the other,
in the order of the inputs, in the field of `LockEvent` named after the input. -/
def abi.Event.UnpackLockEvent (ab : abi.Event LockInputs) (enc : Bytes) :
    Except String LockEvent :=
  match ab.UnpackValues enc with
  | .error err => .error err
  | .ok v => do
    let FromAssetHash ← abi.setAddress (abi.Value.address v.fromAssetHash)
    let FromAddress ← abi.setAddress (abi.Value.address v.fromAddress)
    let ToChainId ← abi.setUint64 (abi.Value.uint64 v.toChainId)
    let ToAssetHash ← abi.setAddress (abi.Value.bytes v.toAssetHash)
    let ToAddress ← abi.setAddress (abi.Value.bytes v.toAddress)
    let Amount ← abi.setBigInt (abi.Value.uint256 v.amount)
    pure { FromAssetHash := FromAssetHash, FromAddress := FromAddress,
           ToChainId := ToChainId, ToAssetHash := ToAssetHash, ToAddress := ToAddress,
           Amount := Amount }

/-- The call `ab.Inputs.Unpack(event, enc)` for `event = new(UnlockEvent)`. -/
def abi.Event.UnpackUnlockEvent (ab : abi.Event UnlockInputs) (enc : Bytes) :
    Except String UnlockEvent :=
  match ab.UnpackValues enc with
  | .error err => .error err
  | .ok v => do
    let ToAssetHash ← abi.setAddress (abi.Value.address v.toAssetHash)
    let ToAddress ← abi.setAddress (abi.Value.address v.toAddress)
    let Amount ← abi.setBigInt (abi.Value.uint256 v.amount)
    pure { ToAssetHash := ToAssetHash, ToAddress := ToAddress, Amount := Amount }

/-- One answer of the node to `TransactionByHash`. -/
structure PollResponse where
  isPending : Bool
  err : Option String
deriving DecidableEq, Repr

/-- The sdk `Client` together with the node it talks to and the package-level values it
reads: `TransactionByHash h n` is the answer to the poll number `n` for `h`,
`DumpEventLog` is the result of the client method of that name, `proxyAddr` is
`common.HexToAddress(native.PLTContractAddress)`, and `abiLockEvent`, `abiUnLockEvent`
are the two events read from the proxy ABI at start-up. -/
structure Client where
  TransactionReceipt : common.Hash → Except String Receipt
  TransactionByHash : common.Hash → Nat → PollResponse
  DumpEventLog : common.Hash → Option GoError
  proxyAddr : common.Address
  abiLockEvent : abi.Event LockInputs
  abiUnLockEvent : abi.Event UnlockInputs

/-- `unpackLockEvent`. -/
def unpackLockEvent (enc : Bytes) (ab : abi.Event LockInputs) : Except GoError LockEvent :=
  match ab.UnpackLockEvent enc with
  | .error err => .error (GoError.abi err)
  | .ok event => .ok event

/-- `unpackUnlockEvent`. -/
def unpackUnlockEvent (enc : Bytes) (ab : abi.Event UnlockInputs) :
    Except GoError UnlockEvent :=
  match ab.UnpackUnlockEvent enc with
  | .error err => .error (GoError.abi err)
  | .ok event => .ok event

/-- The named results of `GetPaletteLockEvent`. -/
structure LockResult where
  fromAsset : common.Address
  fromAddress : common.Address
  toAsset : common.Address
  toAddress : common.Address
  chainID : Nat
  amount : Option Int
  err : Option GoError
deriving DecidableEq, Repr

/-- The named results of `GetPaletteLockEvent` on entry: all zero. -/
def LockResult.zero : LockResult :=
  { fromAsset := 0, fromAddress := 0, toAsset := 0, toAddress := 0, chainID := 0,
    amount := none, err := none }

/-- The named results of `GetPaletteUnlockEvent`. -/
structure UnlockResult where
  toAddress : common.Address
  toAsset : common.Address
  amount : Option Int
  err : Option GoError
deriving DecidableEq, Repr

/-- The named results of `GetPaletteUnlockEvent` on entry: all zero. -/
def UnlockResult.zero : UnlockResult :=
  { toAddress := 0, toAsset := 0, amount := none, err := none }

/-- The loop `for _, e := range receipt.Logs` of both decoders: `event` is the log
remembered so far; the result is `none` when some `e.Topics[0]` is out of range. -/
def scanLogs (id : common.Hash) : List Log → Option Log → Option (Option Log)
  | [], event => some event
  | e :: rest, event =>
    match e.Topics with
    | [] => none
    | eid :: _ =>
      if eid ≠ id then scanLogs id rest event
      else scanLogs id rest (some e)

/-- `Client.GetPaletteLockEvent`; `none` is the index-out-of-range failure of the
scan. -/
def GetPaletteLockEvent (c : Client) (hash : common.Hash) : Option LockResult :=
  let r := LockResult.zero
  let proxyAddr := c.proxyAddr
  match c.TransactionReceipt hash with
  | .error err => some { r with err := some (GoError.rpc err) }
  | .ok receipt =>
    let r := { r with err := none }
    let r :=
      if receipt.Logs.length < 3 then
        { r with err := some (GoError.logsLengthExpect3 hash receipt.Logs.length) }
      else r
    match scanLogs c.abiLockEvent.ID receipt.Logs none with
    | none => none
    | some none => some { r with err := some GoError.canNotFindProxyEvent }
    | some (some event) =>
      let r :=
        if event.Address ≠ proxyAddr then
          { r with err := some (GoError.expectProxyAddr proxyAddr event.Address) }
        else r
      match unpackLockEvent event.Data c.abiLockEvent with
      | .error err => some { r with err := some err }
      | .ok lockEvent =>
        some { r with
          err := none
          fromAsset := lockEvent.FromAssetHash
          fromAddress := lockEvent.FromAddress
          toAsset := lockEvent.ToAssetHash
          toAddress := lockEvent.ToAddress
          chainID := lockEvent.ToChainId
          amount := lockEvent.Amount }

/-- `Client.GetPaletteUnlockEvent`; `none` is the index-out-of-range failure of the
scan. -/
def GetPaletteUnlockEvent (c : Client) (hash : common.Hash) : Option UnlockResult :=
  let r := UnlockResult.zero
  let proxyAddr := c.proxyAddr
  match c.TransactionReceipt hash with
  | .error err => some { r with err := some (GoError.rpc err) }
  | .ok receipt =>
    let r := { r with err := none }
    let r :=
      if receipt.Logs.length < 3 then
        { r with err := some (GoError.logsLengthExpect3 hash receipt.Logs.length) }
      else r
    match scanLogs c.abiUnLockEvent.ID receipt.Logs none with
    | none => none
    | some none => some { r with err := some GoError.canNotFindProxyEvent }
    | some (some event) =>
      let r :=
        if event.Address ≠ proxyAddr then
          { r with err := some (GoError.expectProxyAddr proxyAddr event.Address) }
        else r
      match unpackUnlockEvent event.Data c.abiUnLockEvent with
      | .error err => some { r with err := some err }
      | .ok unlockEvent =>
        some { r with
          err := none
          toAddress := unlockEvent.ToAddress
          toAsset := unlockEvent.ToAssetHash
          amount := unlockEvent.Amount }

/-! ## `pkg/sdk/plt.go` -/

/-- What `WaitTransaction` does, in order. -/
inductive WaitEvent where
  /-- The call `time.Sleep(time.Second * 1)`. -/
  | sleep
  /-- Poll number `n` of `TransactionByHash`. -/
  | poll (n : Nat)
  /-- A line written to the log. -/
  | log (line : LogLine)
  /-- The call of `DumpEventLog`. -/
  | dumpEventLog
deriving DecidableEq, Repr

/-- The loop of `Client.WaitTransaction`, from poll number `n` on, with at most `fuel`
rounds: `none` when the loop is still running after `fuel` rounds, otherwise what was
done from poll `n` on and the error returned. -/
def WaitTransactionFrom (c : Client) (hash : common.Hash) :
    Nat → Nat → Option (List WaitEvent × Option GoError)
  | 0, _ => none
  | fuel + 1, n =>
    let resp := c.TransactionByHash hash n
    match resp.err with
    | some err =>
      (WaitTransactionFrom c hash fuel (n + 1)).map fun out =>
        (WaitEvent.sleep :: WaitEvent.poll n
          :: WaitEvent.log (LogLine.failedToCallTransactionByHash (GoError.rpc err))
          :: out.1, out.2)
    | none =>
      if resp.isPending = true then
        (WaitTransactionFrom c hash fuel (n + 1)).map fun out =>
          (WaitEvent.sleep :: WaitEvent.poll n :: out.1, out.2)
      else
        match c.DumpEventLog hash with
        | some err => some ([WaitEvent.sleep, WaitEvent.poll n, WaitEvent.dumpEventLog], some err)
        | none => some ([WaitEvent.sleep, WaitEvent.poll n, WaitEvent.dumpEventLog], none)

/-- `Client.WaitTransaction`, run for at most `fuel` rounds of its loop. -/
def WaitTransaction (c : Client) (hash : common.Hash) (fuel : Nat) :
    Option (List WaitEvent × Option GoError) :=
  WaitTransactionFrom c hash fuel 0

/-- The number of polls in a run of `WaitTransaction`. -/
def pollCount : List WaitEvent → Nat
  | [] => 0
  | .poll _ :: es => pollCount es + 1
  | _ :: es => pollCount es

/-- The number of calls of `DumpEventLog` in a run of `WaitTransaction`. -/
def dumpCount : List WaitEvent → Nat
  | [] => 0
  | .dumpEventLog :: es => dumpCount es + 1
  | _ :: es => dumpCount es

/-- A response that ends the wait: no error and not pending. -/
def PollResponse.settled (resp : PollResponse) : Bool :=
  resp.err.isNone && !resp.isPending

/-! ## The decoding without the side checks -/

/-- The scan and the decode of the lock decoder on their own: find the log by its
signature, fail when there is none, unpack its data.  No count of the logs, no look at
the emitting address. -/
def scanAndDecodeLock (c : Client) (receipt : Receipt) : Option LockResult :=
  match scanLogs c.abiLockEvent.ID receipt.Logs none with
  | none => none
  | some none =>
    some { fromAsset := 0, fromAddress := 0, toAsset := 0, toAddress := 0, chainID := 0,
           amount := none, err := some GoError.canNotFindProxyEvent }
  | some (some event) =>
    match unpackLockEvent event.Data c.abiLockEvent with
    | .error err =>
      some { fromAsset := 0, fromAddress := 0, toAsset := 0, toAddress := 0, chainID := 0,
             amount := none, err := some err }
    | .ok ev =>
      some { fromAsset := ev.FromAssetHash, fromAddress := ev.FromAddress,
             toAsset := ev.ToAssetHash, toAddress := ev.ToAddress, chainID := ev.ToChainId,
             amount := ev.Amount, err := none }

/-- The scan and the decode of the unlock decoder on their own. -/
def scanAndDecodeUnlock (c : Client) (receipt : Receipt) : Option UnlockResult :=
  match scanLogs c.abiUnLockEvent.ID receipt.Logs none with
  | none => none
  | some none =>
    some { toAddress := 0, toAsset := 0, amount := none,
           err := some GoError.canNotFindProxyEvent }
  | some (some event) =>
    match unpackUnlockEvent event.Data c.abiUnLockEvent with
    | .error err =>
      some { toAddress := 0, toAsset := 0, amount := none, err := some err }
    | .ok ev =>
      some { toAddress := ev.ToAddress, toAsset := ev.ToAssetHash, amount := ev.Amount,
             err := none }

/-! ## Concrete nodes, receipts and decoders used in the examples -/

/-- The lock event with signature hash 11 and a stand-in for the decoding of the data
into the values of its inputs: one list entry per input, a `bytes` input being the one
byte of its entry. -/
def sampleLockAbi : abi.Event LockInputs :=
  { ID := 11
    UnpackValues := fun enc =>
      match enc with
      | [a, b, n, x, y, v] =>
        .ok { fromAssetHash := a, fromAddress := b, toChainId := n, toAssetHash := [x],
              toAddress := [y], amount := v }
      | _ => .error "abi: improperly formatted output" }

/-- The unlock event with signature hash 12 and a stand-in for the decoding of the data
into the values of its inputs: one list entry per input. -/
def sampleUnlockAbi : abi.Event UnlockInputs :=
  { ID := 12
    UnpackValues := fun enc =>
      match enc with
      | [x, y, v] => .ok { toAssetHash := x, toAddress := y, amount := v }
      | _ => .error "abi: improperly formatted output" }

/-- A client whose node answers every receipt request with `receipt`, reports a
transaction as pending for the first two polls, and whose proxy address is 259. -/
def sampleClient (receipt : Receipt) : Client :=
  { TransactionReceipt := fun _ => .ok receipt
    TransactionByHash := fun _ n => { isPending := decide (n < 2), err := none }
    DumpEventLog := fun _ => none
    proxyAddr := 259
    abiLockEvent := sampleLockAbi
    abiUnLockEvent := sampleUnlockAbi }

/-- A well-formed lock log from the proxy: amount 1000 to chain 7. -/
def lockLogFromProxy : Log :=
  { Address := 259, Topics := [11], Data := [1, 2, 7, 3, 4, 1000] }

/-- A lock log with the same fields emitted by address 666 instead of the proxy. -/
def lockLogFromStranger : Log :=
  { Address := 666, Topics := [11], Data := [5, 6, 9, 7, 8, 42] }

/-- A log with the lock signature whose data does not decode. -/
def lockLogUndecodable : Log :=
  { Address := 259, Topics := [11], Data := [] }

/-- An unlock log from the proxy: amount 500. -/
def unlockLogFromProxy : Log :=
  { Address := 259, Topics := [12], Data := [3, 4, 500] }

/-- An unlock log emitted by address 666 instead of the proxy. -/
def unlockLogFromStranger : Log :=
  { Address := 666, Topics := [12], Data := [7, 8, 42] }

/-- A log with the unlock signature whose data does not decode. -/
def unlockLogUndecodable : Log :=
  { Address := 259, Topics := [12], Data := [] }

/-- A log of some other event. -/
def otherLog : Log :=
  { Address := 259, Topics := [99, 1], Data := [0] }

/-- An invoker whose node reports pending nonce 5 and gas price 30, answers every
receipt request with `receipt`, and whose binding broadcasts as transaction 77. -/
def sampleInvoker (receipt : Receipt) : EthInvoker :=
  { Address := 4660
    PendingNonceAt := fun _ => .ok 5
    SuggestGasPrice := .ok 30
    TransactionReceipt := fun _ => .ok receipt
    WaitTransactionConfirm := fun _ => true
    NewEthCrossChainManager := fun _ => .ok ()
    eccmInitGenesisBlock := fun _ _ _ _ => .ok 77 }

/-! ## The other transaction operations of `pkg/eth/eth_invoker.go` -/

/-- The generated contract bindings the invoker calls, other than the two that are
fields of `EthInvoker`.  A `New...` function builds the binding for the contract at an
address; a method of a binding takes that address first, signs and broadcasts the call
with the given options and hands back the hash of the transaction; a `Deploy...`
function hands back the address of the new contract and the hash of the deployment
transaction; `NFTMapping_Name` is the read-only call `inst.Name(nil)`. -/
structure ContractBindings where
  NewLockProxy : common.Address → Except String Unit
  DeployLockProxy : TransactOpts → Except String (common.Address × common.Hash)
  LockProxy_SetManagerProxy :
    common.Address → TransactOpts → common.Address → Except String common.Hash
  LockProxy_BindAssetHash :
    common.Address → TransactOpts → common.Address → Nat → common.Address →
      Except String common.Hash
  LockProxy_BindProxyHash :
    common.Address → TransactOpts → Nat → common.Address → Except String common.Hash
  LockProxy_TransferOwnership :
    common.Address → TransactOpts → common.Address → Except String common.Hash
  NewPolyNFTLockProxy : common.Address → Except String Unit
  DeployPolyNFTLockProxy : TransactOpts → Except String (common.Address × common.Hash)
  NFTLockProxy_SetManagerProxy :
    common.Address → TransactOpts → common.Address → Except String common.Hash
  NFTLockProxy_BindAssetHash :
    common.Address → TransactOpts → common.Address → Nat → common.Address →
      Except String common.Hash
  NFTLockProxy_BindProxyHash :
    common.Address → TransactOpts → Nat → common.Address → Except String common.Hash
  NFTLockProxy_TransferOwnership :
    common.Address → TransactOpts → common.Address → Except String common.Hash
  DeployCrossChainNFTMapping :
    TransactOpts → String → String → Except String (common.Address × common.Hash)
  NFTMapping_Name : common.Address → Except String String
  NewEthCrossChainData : common.Address → Except String Unit
  ECCD_TransferOwnership :
    common.Address → TransactOpts → common.Address → Except String common.Hash
  ECCM_TransferOwnership :
    common.Address → TransactOpts → common.Address → Except String common.Hash
  NewEthCrossChainManagerProxy : common.Address → Except String Unit
  CCMP_TransferOwnership :
    common.Address → TransactOpts → common.Address → Except String common.Hash

/-- The outcome of an operation that returns `(common.Address, error)`. -/
structure AddressResult where
  address : common.Address
  err : Option GoError
  effects : List ChainEffect
  lines : List LogLine
deriving DecidableEq, Repr

/-- The return `utils.EmptyHash, err` of an operation that has broadcast nothing. -/
def HashResult.stopped (err : GoError) : HashResult :=
  { hash := utils.EmptyHash, err := some err, effects := [], lines := [] }

/-- The return `utils.EmptyAddress, err` of an operation that has broadcast nothing. -/
def AddressResult.stopped (err : GoError) : AddressResult :=
  { address := utils.EmptyAddress, err := some err, effects := [], lines := [] }

/-- The common ending of the operations that return a hash, once the binding has handed
back the transaction `tx`:
`if err := i.waitTxConfirm(tx.Hash()); err != nil { return utils.EmptyHash, err }`
followed by `return tx.Hash(), nil`. -/
def confirmHash (i : EthInvoker) (tx : common.Hash) : Option HashResult :=
  match waitTxConfirm i tx with
  | none => none
  | some (lines, some err) =>
    some { hash := utils.EmptyHash, err := some err,
           effects := [ChainEffect.broadcast tx, ChainEffect.waitConfirm tx],
           lines := lines }
  | some (lines, none) =>
    some { hash := tx, err := none,
           effects := [ChainEffect.broadcast tx, ChainEffect.waitConfirm tx],
           lines := lines }

/-- The common ending of the two lock-proxy deployments, once the binding has handed
back the address `contractAddr` and the transaction `tx`:
`if err := i.waitTxConfirm(tx.Hash()); err != nil { return utils.EmptyAddress, err }`
followed by `return contractAddr, nil`. -/
def confirmAddress (i : EthInvoker) (contractAddr : common.Address) (tx : common.Hash) :
    Option AddressResult :=
  match waitTxConfirm i tx with
  | none => none
  | some (lines, some err) =>
    some { address := utils.EmptyAddress, err := some err,
           effects := [ChainEffect.broadcast tx, ChainEffect.waitConfirm tx],
           lines := lines }
  | some (lines, none) =>
    some { address := contractAddr, err := none,
           effects := [ChainEffect.broadcast tx, ChainEffect.waitConfirm tx],
           lines := lines }

/-- `EthInvoker.DeployPLTLockProxy`. -/
def DeployPLTLockProxy (i : EthInvoker) (b : ContractBindings) : Option AddressResult :=
  match makeAuth i with
  | .error err => some (AddressResult.stopped err)
  | .ok auth =>
    match b.DeployLockProxy auth with
    | .error err => some (AddressResult.stopped (GoError.abi err))
    | .ok (contractAddr, tx) => confirmAddress i contractAddr tx

/-- `EthInvoker.DeployNFTLockProxy`. -/
def DeployNFTLockProxy (i : EthInvoker) (b : ContractBindings) : Option AddressResult :=
  match makeAuth i with
  | .error err => some (AddressResult.stopped err)
  | .ok auth =>
    match b.DeployPolyNFTLockProxy auth with
    | .error err => some (AddressResult.stopped (GoError.abi err))
    | .ok (contractAddr, tx) => confirmAddress i contractAddr tx

/-- `EthInvoker.SetPLTCCMP`. -/
def SetPLTCCMP (i : EthInvoker) (b : ContractBindings) (proxyAddr ccmpAddr : common.Address) :
    Option HashResult :=
  match b.NewLockProxy proxyAddr with
  | .error err => some (HashResult.stopped (GoError.abi err))
  | .ok _ =>
    match makeAuth i with
    | .error err => some (HashResult.stopped err)
    | .ok auth =>
      match b.LockProxy_SetManagerProxy proxyAddr auth ccmpAddr with
      | .error err => some (HashResult.stopped (GoError.abi err))
      | .ok tx => confirmHash i tx

/-- `EthInvoker.SetNFTCCMP`. -/
def SetNFTCCMP (i : EthInvoker) (b : ContractBindings) (proxyAddr ccmpAddr : common.Address) :
    Option HashResult :=
  match b.NewPolyNFTLockProxy proxyAddr with
  | .error err => some (HashResult.stopped (GoError.abi err))
  | .ok _ =>
    match makeAuth i with
    | .error err => some (HashResult.stopped err)
    | .ok auth =>
      match b.NFTLockProxy_SetManagerProxy proxyAddr auth ccmpAddr with
      | .error err => some (HashResult.stopped (GoError.abi err))
      | .ok tx => confirmHash i tx

/-- `EthInvoker.DeployNFT`. -/
def DeployNFT (i : EthInvoker) (b : ContractBindings) (name symbol : String) :
    Option AddressResult :=
  match makeAuth i with
  | .error err => some (AddressResult.stopped err)
  | .ok auth =>
    match b.DeployCrossChainNFTMapping auth name symbol with
    | .error err => some (AddressResult.stopped (GoError.abi err))
    | .ok (address, tx) =>
      match waitTxConfirm i tx with
      | none => none
      | some (lines, some err) =>
        some { address := utils.EmptyAddress, err := some err,
               effects := [ChainEffect.broadcast tx, ChainEffect.waitConfirm tx],
               lines := lines }
      | some (lines, none) =>
        match b.NFTMapping_Name address with
        | .error err =>
          some { address := utils.EmptyAddress, err := some (GoError.abi err),
                 effects := [ChainEffect.broadcast tx, ChainEffect.waitConfirm tx],
                 lines := lines }
        | .ok nameAfterDeploy =>
          if nameAfterDeploy ≠ name then
            some { address := utils.EmptyAddress,
                   err := some (GoError.mappingNameNotEqual nameAfterDeploy name),
                   effects := [ChainEffect.broadcast tx, ChainEffect.waitConfirm tx],
                   lines := lines }
          else
            some { address := address, err := none,
                   effects := [ChainEffect.broadcast tx, ChainEffect.waitConfirm tx],
                   lines := lines }

/-- `EthInvoker.BindPLTAsset`. -/
def BindPLTAsset (i : EthInvoker) (b : ContractBindings)
    (localLockProxyAddr fromAssetHash toAssetHash : common.Address) (toChainId : Nat) :
    Option HashResult :=
  match b.NewLockProxy localLockProxyAddr with
  | .error err => some (HashResult.stopped (GoError.abi err))
  | .ok _ =>
    match makeAuth i with
    | .error err => some (HashResult.stopped err)
    | .ok auth =>
      match b.LockProxy_BindAssetHash localLockProxyAddr auth fromAssetHash toChainId
          toAssetHash with
      | .error err => some (HashResult.stopped (GoError.abi err))
      | .ok tx => confirmHash i tx

/-- `EthInvoker.BindPLTProxy`. -/
def BindPLTProxy (i : EthInvoker) (b : ContractBindings)
    (localLockProxy targetLockProxy : common.Address) (targetSideChainID : Nat) :
    Option HashResult :=
  match b.NewLockProxy localLockProxy with
  | .error err => some (HashResult.stopped (GoError.abi err))
  | .ok _ =>
    match makeAuth i with
    | .error err => some (HashResult.stopped err)
    | .ok auth =>
      match b.LockProxy_BindProxyHash localLockProxy auth targetSideChainID
          targetLockProxy with
      | .error err => some (HashResult.stopped (GoError.abi err))
      | .ok tx => confirmHash i tx

/-- `EthInvoker.BindNFTAsset`. -/
def BindNFTAsset (i : EthInvoker) (b : ContractBindings)
    (lockProxyAddr fromAssetHash toAssetHash : common.Address) (targetSideChainId : Nat) :
    Option HashResult :=
  match b.NewPolyNFTLockProxy lockProxyAddr with
  | .error err => some (HashResult.stopped (GoError.abi err))
  | .ok _ =>
    match makeAuth i with
    | .error err => some (HashResult.stopped err)
    | .ok auth =>
      match b.NFTLockProxy_BindAssetHash lockProxyAddr auth fromAssetHash targetSideChainId
          toAssetHash with
      | .error err => some (HashResult.stopped (GoError.abi err))
      | .ok tx => confirmHash i tx

/-- `EthInvoker.BindNFTProxy`. -/
def BindNFTProxy (i : EthInvoker) (b : ContractBindings)
    (localLockProxy targetLockProxy : common.Address) (targetSideChainID : Nat) :
    Option HashResult :=
  match b.NewPolyNFTLockProxy localLockProxy with
  | .error err => some (HashResult.stopped (GoError.abi err))
  | .ok _ =>
    match makeAuth i with
    | .error err => some (HashResult.stopped err)
    | .ok auth =>
      match b.NFTLockProxy_BindProxyHash localLockProxy auth targetSideChainID
          targetLockProxy with
      | .error err => some (HashResult.stopped (GoError.abi err))
      | .ok tx => confirmHash i tx

/-- `EthInvoker.TransferECCDOwnership`. -/
def TransferECCDOwnership (i : EthInvoker) (b : ContractBindings)
    (eccd eccm : common.Address) : Option HashResult :=
  match b.NewEthCrossChainData eccd with
  | .error err => some (HashResult.stopped (GoError.transferECCDOwnership (GoError.abi err)))
  | .ok _ =>
    match makeAuth i with
    | .error err => some (HashResult.stopped err)
    | .ok auth =>
      match b.ECCD_TransferOwnership eccd auth eccm with
      | .error err =>
        some (HashResult.stopped (GoError.transferECCDOwnership (GoError.abi err)))
      | .ok tx => confirmHash i tx

/-- `EthInvoker.TransferECCMOwnership`. -/
def TransferECCMOwnership (i : EthInvoker) (b : ContractBindings)
    (eccm ccmp : common.Address) : Option HashResult :=
  match i.NewEthCrossChainManager eccm with
  | .error err => some (HashResult.stopped (GoError.transferECCMOwnership (GoError.abi err)))
  | .ok _ =>
    match makeAuth i with
    | .error err => some (HashResult.stopped err)
    | .ok auth =>
      match b.ECCM_TransferOwnership eccm auth ccmp with
      | .error err =>
        some (HashResult.stopped (GoError.transferECCMOwnership (GoError.abi err)))
      | .ok tx => confirmHash i tx

/-- `EthInvoker.TransferCCMPOwnership`. -/
def TransferCCMPOwnership (i : EthInvoker) (b : ContractBindings)
    (ccmpAddr newOwner : common.Address) : Option HashResult :=
  match b.NewEthCrossChainManagerProxy ccmpAddr with
  | .error err => some (HashResult.stopped (GoError.abi err))
  | .ok _ =>
    match makeAuth i with
    | .error err => some (HashResult.stopped err)
    | .ok auth =>
      match b.CCMP_TransferOwnership ccmpAddr auth newOwner with
      | .error err => some (HashResult.stopped (GoError.abi err))
      | .ok tx => confirmHash i tx

/-- `EthInvoker.TransferPLTAssetOwnership`: its body is commented out in the source and
it returns `utils.EmptyHash, nil` at once. -/
def TransferPLTAssetOwnership (_i : EthInvoker) (_asset _newOwner : common.Address) :
    Option HashResult :=
  some { hash := utils.EmptyHash, err := none, effects := [], lines := [] }

/-- `EthInvoker.TransferPLTProxyOwnership`. -/
def TransferPLTProxyOwnership (i : EthInvoker) (b : ContractBindings)
    (proxyAddr newOwner : common.Address) : Option HashResult :=
  match b.NewLockProxy proxyAddr with
  | .error err => some (HashResult.stopped (GoError.abi err))
  | .ok _ =>
    match makeAuth i with
    | .error err => some (HashResult.stopped err)
    | .ok auth =>
      match b.LockProxy_TransferOwnership proxyAddr auth newOwner with
      | .error err => some (HashResult.stopped (GoError.abi err))
      | .ok tx => confirmHash i tx

/-- `EthInvoker.TransferNFTProxyOwnership`. -/
def TransferNFTProxyOwnership (i : EthInvoker) (b : ContractBindings)
    (proxyAddr newOwner : common.Address) : Option HashResult :=
  match b.NewPolyNFTLockProxy proxyAddr with
  | .error err => some (HashResult.stopped (GoError.abi err))
  | .ok _ =>
    match makeAuth i with
    | .error err => some (HashResult.stopped err)
    | .ok auth =>
      match b.NFTLockProxy_TransferOwnership proxyAddr auth newOwner with
      | .error err => some (HashResult.stopped (GoError.abi err))
      | .ok tx => confirmHash i tx

/-! ## `core/sidechain.go` -/

/-- The values read from `config.Conf`; `PolyAccountList` is what
`LoadPolyAccountList()` hands back. -/
structure Config where
  PolyRPCUrl : String
  PolyAccountList : List String
  PaletteRPCUrl : String
  PaletteSideChainID : Nat
  PaletteSideChainName : String
  PaletteECCD : common.Address
  PaletteECCM : common.Address

/-- The relay chain, the side chain and the library calls the four phases go through,
for a palette header type `H`, a relay-chain block type `B` and a bookkeeper type `K`.
An error is given by its text, which is what `%s` and `%v` print.  `Hex` prints an
address or a hash, `hexutilEncode` is `hexutil.Encode`, `headerHashHex` and
`headerNumber` are `hdr.Hash().Hex()` and `hdr.Number.Uint64()`, `ToArray` and
`blockHeight` are `gB.Header.ToArray()` and `gB.Header.Height`. -/
structure CoreEnv (H B K : Type) where
  QUORUM_ROUTER : Nat
  NewPolyClient : String → Option (List String) → Except String Unit
  RegisterSideChain : Nat → common.Address → Nat → String → Option String
  ApproveRegisterSideChain : Nat → Option String
  SyncGenesisBlock : Nat → Bytes → Option String
  GetBlockByHeight : Nat → Except String B
  GetBookeeper : B → Except String K
  AssembleNoCompressBookeeper : K → Bytes
  ToArray : B → Bytes
  blockHeight : B → Nat
  GetCurrentBlockHeader : String → Except String (Nat × H)
  MarshalJSON : H → Except String Bytes
  headerHashHex : H → String
  headerNumber : H → Nat
  getPaletteCli : Except String Unit
  InitGenesisBlock : common.Address → Bytes → Bytes → Except String common.Hash
  Hex : Nat → String
  hexutilEncode : Bytes → String

/-- What a phase does, in order: the calls that leave the process, with the arguments
the claims speak about, and the lines it logs. -/
inductive CoreEvent where
  /-- The call `poly.NewPolyClient(polyRPC, polyValidators)`. -/
  | NewPolyClient (polyRPC : String) (polyValidators : Option (List String))
  /-- The call `polyCli.RegisterSideChain(crossChainID, eccd, router, name)`. -/
  | RegisterSideChain (crossChainID : Nat) (eccd : common.Address) (router : Nat)
      (name : String)
  /-- The call `polyCli.ApproveRegisterSideChain(crossChainID)`. -/
  | ApproveRegisterSideChain (crossChainID : Nat)
  /-- The call `logsplit()`. -/
  | logsplit
  /-- The call `sdk.NewSender(url, nil)`. -/
  | NewSender (url : String)
  /-- The call `cli.GetCurrentBlockHeader()`. -/
  | GetCurrentBlockHeader
  /-- The call `hdr.MarshalJSON()`. -/
  | MarshalJSON
  /-- The call `polyCli.SyncGenesisBlock(crossChainID, pltHeaderEnc)`. -/
  | SyncGenesisBlock (crossChainID : Nat) (pltHeaderEnc : Bytes)
  /-- The call `polyCli.GetBlockByHeight(height)`. -/
  | GetBlockByHeight (height : Nat)
  /-- The call `poly.GetBookeeper(gB)`. -/
  | GetBookeeper
  /-- The call `getPaletteCli()`. -/
  | getPaletteCli
  /-- The call `cli.InitGenesisBlock(eccm, headerEnc, bookeepersEnc)`. -/
  | InitGenesisBlock (eccm : common.Address) (headerEnc bookeepersEnc : Bytes)
  /-- A line written with `log.Errorf`. -/
  | Errorf (line : String)
  /-- A line written with `log.Infof`. -/
  | Infof (line : String)
deriving DecidableEq, Repr

/-- `PLTRegisterSideChain`: the returned `succeed` and what was done. -/
def PLTRegisterSideChain {H B K : Type} (conf : Config) (env : CoreEnv H B K) :
    Bool × List CoreEvent :=
  let polyRPC := conf.PolyRPCUrl
  let polyValidators := conf.PolyAccountList
  match env.NewPolyClient polyRPC (some polyValidators) with
  | .error err =>
    (false, [CoreEvent.NewPolyClient polyRPC (some polyValidators),
             CoreEvent.Errorf ("failed to generate poly client, err: " ++ err)])
  | .ok _ =>
    let crossChainID := conf.PaletteSideChainID
    let eccd := conf.PaletteECCD
    let router := env.QUORUM_ROUTER
    let name := conf.PaletteSideChainName
    match env.RegisterSideChain crossChainID eccd router name with
    | some err =>
      (false, [CoreEvent.NewPolyClient polyRPC (some polyValidators),
               CoreEvent.Infof "generate poly client success!",
               CoreEvent.RegisterSideChain crossChainID eccd router name,
               CoreEvent.Errorf ("failed to register side chain, err: " ++ err)])
    | none =>
      (true, [CoreEvent.NewPolyClient polyRPC (some polyValidators),
              CoreEvent.Infof "generate poly client success!",
              CoreEvent.RegisterSideChain crossChainID eccd router name,
              CoreEvent.Infof ("register side chain " ++ toString crossChainID ++ " eccd "
                ++ env.Hex eccd ++ " success")])

/-- `PLTApproveRegisterSideChain`: the returned `succeed` and what was done. -/
def PLTApproveRegisterSideChain {H B K : Type} (conf : Config) (env : CoreEnv H B K) :
    Bool × List CoreEvent :=
  let polyRPC := conf.PolyRPCUrl
  let polyValidators := conf.PolyAccountList
  match env.NewPolyClient polyRPC (some polyValidators) with
  | .error err =>
    (false, [CoreEvent.NewPolyClient polyRPC (some polyValidators),
             CoreEvent.Errorf ("failed to generate poly client, err: " ++ err)])
  | .ok _ =>
    let crossChainID := conf.PaletteSideChainID
    match env.ApproveRegisterSideChain crossChainID with
    | some err =>
      (false, [CoreEvent.NewPolyClient polyRPC (some polyValidators),
               CoreEvent.Infof "generate poly client success!",
               CoreEvent.ApproveRegisterSideChain crossChainID,
               CoreEvent.Errorf ("failed to approve register side chain, err: " ++ err)])
    | none =>
      (true, [CoreEvent.NewPolyClient polyRPC (some polyValidators),
              CoreEvent.Infof "generate poly client success!",
              CoreEvent.ApproveRegisterSideChain crossChainID,
              CoreEvent.Infof ("approve register side chain " ++ toString crossChainID
                ++ " success")])

/-- `PLTSyncPLTGenesis`: the returned `succeed` and what was done. -/
def PLTSyncPLTGenesis {H B K : Type} (conf : Config) (env : CoreEnv H B K) :
    Bool × List CoreEvent :=
  let polyRPC := conf.PolyRPCUrl
  let polyValidators := conf.PolyAccountList
  match env.NewPolyClient polyRPC (some polyValidators) with
  | .error err =>
    (false, [CoreEvent.NewPolyClient polyRPC (some polyValidators),
             CoreEvent.Errorf ("failed to generate poly client, err: " ++ err)])
  | .ok _ =>
    let done₁ := [CoreEvent.NewPolyClient polyRPC (some polyValidators),
                  CoreEvent.Infof "generate poly client success!",
                  CoreEvent.logsplit,
                  CoreEvent.NewSender conf.PaletteRPCUrl,
                  CoreEvent.GetCurrentBlockHeader]
    match env.GetCurrentBlockHeader conf.PaletteRPCUrl with
    | .error err =>
      (false, done₁ ++ [CoreEvent.Errorf ("failed to get block header, err: " ++ err)])
    | .ok (curr, hdr) =>
      match env.MarshalJSON hdr with
      | .error err =>
        (false, done₁ ++ [CoreEvent.MarshalJSON,
                          CoreEvent.Errorf ("marshal header failed, err: " ++ err)])
      | .ok pltHeaderEnc =>
        let done₂ := done₁ ++ [CoreEvent.MarshalJSON,
          CoreEvent.Infof ("get palette block header with current height " ++ toString curr
            ++ ", header " ++ env.hexutilEncode pltHeaderEnc),
          CoreEvent.logsplit]
        let crossChainID := conf.PaletteSideChainID
        match env.SyncGenesisBlock crossChainID pltHeaderEnc with
        | some err =>
          (false, done₂ ++ [CoreEvent.SyncGenesisBlock crossChainID pltHeaderEnc,
                            CoreEvent.Errorf ("SyncEthGenesisHeader failed: " ++ err)])
        | none =>
          (true, done₂ ++ [CoreEvent.SyncGenesisBlock crossChainID pltHeaderEnc,
            CoreEvent.Infof ("sync palette genesis header to poly success, txhash "
              ++ env.headerHashHex hdr ++ ", block number "
              ++ toString (env.headerNumber hdr % 2 ^ 64))])

/-- `PLTSyncPolyGenesis`: the returned `succeed` and what was done. -/
def PLTSyncPolyGenesis {H B K : Type} (conf : Config) (env : CoreEnv H B K) :
    Bool × List CoreEvent :=
  let polyRPC := conf.PolyRPCUrl
  match env.NewPolyClient polyRPC none with
  | .error err =>
    (false, [CoreEvent.NewPolyClient polyRPC none,
             CoreEvent.Errorf ("failed to generate poly client, err: " ++ err)])
  | .ok _ =>
    let hasValidatorsBlockNumber : Nat := 0
    let done₁ := [CoreEvent.NewPolyClient polyRPC none,
                  CoreEvent.Infof "generate poly client success!",
                  CoreEvent.GetBlockByHeight hasValidatorsBlockNumber]
    match env.GetBlockByHeight hasValidatorsBlockNumber with
    | .error err =>
      (false, done₁ ++ [CoreEvent.Errorf ("failed to get block, err: " ++ err)])
    | .ok gB =>
      match env.GetBookeeper gB with
      | .error err =>
        (false, done₁ ++ [CoreEvent.GetBookeeper,
                          CoreEvent.Errorf ("failed to get bookeepers, err: " ++ err)])
      | .ok bookeepers =>
        let bookeepersEnc := env.AssembleNoCompressBookeeper bookeepers
        let headerEnc := env.ToArray gB
        match env.getPaletteCli with
        | .error _ =>
          (false, done₁ ++ [CoreEvent.GetBookeeper, CoreEvent.getPaletteCli,
                            CoreEvent.Errorf "get palette cross chain admin client failed"])
        | .ok _ =>
          let eccm := conf.PaletteECCM
          match env.InitGenesisBlock eccm headerEnc bookeepersEnc with
          | .error err =>
            (false, done₁ ++ [CoreEvent.GetBookeeper, CoreEvent.getPaletteCli,
                              CoreEvent.InitGenesisBlock eccm headerEnc bookeepersEnc,
                              CoreEvent.Errorf ("failed to initGenesisBlock, err: " ++ err)])
          | .ok txhash =>
            (true, done₁ ++ [CoreEvent.GetBookeeper, CoreEvent.getPaletteCli,
              CoreEvent.InitGenesisBlock eccm headerEnc bookeepersEnc,
              CoreEvent.Infof ("sync poly genesis header to palette success, txhash "
                ++ env.Hex txhash ++ ", block number " ++ toString (env.blockHeight gB))])

/-- The calls of `SyncGenesisBlock` in a run, with their arguments. -/
def syncGenesisBlockCalls : List CoreEvent → List (Nat × Bytes)
  | [] => []
  | .SyncGenesisBlock crossChainID pltHeaderEnc :: es =>
    (crossChainID, pltHeaderEnc) :: syncGenesisBlockCalls es
  | _ :: es => syncGenesisBlockCalls es

/-- The calls of `InitGenesisBlock` in a run, with their arguments. -/
def initGenesisBlockCalls : List CoreEvent → List (common.Address × Bytes × Bytes)
  | [] => []
  | .InitGenesisBlock eccm headerEnc bookeepersEnc :: es =>
    (eccm, headerEnc, bookeepersEnc) :: initGenesisBlockCalls es
  | _ :: es => initGenesisBlockCalls es

/-- The lines a run wrote with `log.Errorf`. -/
def errorLines : List CoreEvent → List String
  | [] => []
  | .Errorf line :: es => line :: errorLines es
  | _ :: es => errorLines es

/-- The text `e` occurs in the line `line`. -/
def containsText (line e : String) : Prop :=
  List.IsInfix e.toList line.toList

/-! ## More concrete values used in the examples -/

/-- An invoker whose node fails the pending-nonce query. -/
def invokerWithoutNonce : EthInvoker :=
  { sampleInvoker ⟨1, 1, []⟩ with PendingNonceAt := fun _ => .error "connection refused" }

/-- An invoker whose node fails the gas-price query. -/
def invokerWithoutGasPrice : EthInvoker :=
  { sampleInvoker ⟨1, 1, []⟩ with SuggestGasPrice := .error "connection refused" }

/-- Bindings that always work: every call is broadcast as transaction 77, every
deployment lands at address 4096, and the NFT mapping at any address reports the name
`nameOnChain`. -/
def sampleBindings (nameOnChain : String) : ContractBindings :=
  { NewLockProxy := fun _ => .ok ()
    DeployLockProxy := fun _ => .ok (4096, 77)
    LockProxy_SetManagerProxy := fun _ _ _ => .ok 77
    LockProxy_BindAssetHash := fun _ _ _ _ _ => .ok 77
    LockProxy_BindProxyHash := fun _ _ _ _ => .ok 77
    LockProxy_TransferOwnership := fun _ _ _ => .ok 77
    NewPolyNFTLockProxy := fun _ => .ok ()
    DeployPolyNFTLockProxy := fun _ => .ok (4096, 77)
    NFTLockProxy_SetManagerProxy := fun _ _ _ => .ok 77
    NFTLockProxy_BindAssetHash := fun _ _ _ _ _ => .ok 77
    NFTLockProxy_BindProxyHash := fun _ _ _ _ => .ok 77
    NFTLockProxy_TransferOwnership := fun _ _ _ => .ok 77
    DeployCrossChainNFTMapping := fun _ _ _ => .ok (4096, 77)
    NFTMapping_Name := fun _ => .ok nameOnChain
    NewEthCrossChainData := fun _ => .ok ()
    ECCD_TransferOwnership := fun _ _ _ => .ok 77
    ECCM_TransferOwnership := fun _ _ _ => .ok 77
    NewEthCrossChainManagerProxy := fun _ => .ok ()
    CCMP_TransferOwnership := fun _ _ _ => .ok 77 }

/-- A configuration: side chain 201, ECCD at 43981, ECCM at 48879. -/
def sampleConfig : Config :=
  { PolyRPCUrl := "http://poly"
    PolyAccountList := ["v1", "v2"]
    PaletteRPCUrl := "http://palette"
    PaletteSideChainID := 201
    PaletteSideChainName := "palette-test"
    PaletteECCD := 43981
    PaletteECCM := 48879 }

/-- An environment in which every step works.  Headers, blocks and bookkeepers are
byte lists: the current palette header is `[1, 2, 3]` at height 9 and serializes to
itself with a leading 123; the relay-chain block at height `h` is `[h, 5]`, its header
serializes to `[h, 5, 0]`, its bookkeepers are `[8, 9]` and assemble to `[2, 8, 9]`;
the side chain accepts a genesis whose header bytes end in 0 and whose bookkeeper bytes
start with 2, as transaction 77. -/
def sampleEnv : CoreEnv Bytes Bytes Bytes :=
  { QUORUM_ROUTER := 8
    NewPolyClient := fun _ _ => .ok ()
    RegisterSideChain := fun _ _ _ _ => none
    ApproveRegisterSideChain := fun _ => none
    SyncGenesisBlock := fun _ _ => none
    GetBlockByHeight := fun h => .ok [h, 5]
    GetBookeeper := fun _ => .ok [8, 9]
    AssembleNoCompressBookeeper := fun k => 2 :: k
    ToArray := fun b => b ++ [0]
    blockHeight := fun b => b.headD 0
    GetCurrentBlockHeader := fun _ => .ok (9, [1, 2, 3])
    MarshalJSON := fun h => .ok (123 :: h)
    headerHashHex := fun _ => "0xabc"
    headerNumber := fun _ => 9
    getPaletteCli := .ok ()
    InitGenesisBlock := fun _ headerEnc bookeepersEnc =>
      if headerEnc.getLast? = some 0 ∧ bookeepersEnc.head? = some 2 then .ok 77
      else .error "genesis header or bookkeepers not in the required encoding"
    Hex := fun _ => "0x4d"
    hexutilEncode := fun _ => "0x7b"
  }

/-! ## Confirmation through `DumpTx` -/

theorem DumpTx_err_eq_none_iff (i : EthInvoker) (hash : common.Hash) :
    (DumpTx i hash).2 = none ↔
      ∃ tx, i.TransactionReceipt hash = .ok tx ∧ tx.Status ≠ 0 := by
  unfold DumpTx GetReceipt
  cases h : i.TransactionReceipt hash with
  | error e => simp
  | ok tx =>
    by_cases hs : tx.Status = 0
    · simp [hs]
    · simp [hs]

theorem waitTxConfirm_eq_DumpTx (i : EthInvoker) (hash : common.Hash)
    (out : List LogLine × Option GoError) (h : waitTxConfirm i hash = some out) :
    out = DumpTx i hash := by
  unfold waitTxConfirm at h
  split at h
  · split at h
    · next lines err hd => simp only [Option.some.injEq] at h; rw [hd, h]
    · next lines hd => simp only [Option.some.injEq] at h; rw [hd, h]
  · simp at h

theorem DumpTx_waitTxConfirm_InitGenesisBlock (i : EthInvoker) (hash : common.Hash) :
    (∀ tx, i.TransactionReceipt hash = .ok tx → tx.Status = 0 →
        (DumpTx i hash).2 = some (GoError.receiptFailed hash)) ∧
    ((DumpTx i hash).2 = none →
        ∃ tx, i.TransactionReceipt hash = .ok tx ∧ tx.Status ≠ 0) ∧
    (∀ out, waitTxConfirm i hash = some out →
        (∀ tx, i.TransactionReceipt hash = .ok tx → tx.Status = 0 → out.2 ≠ none) ∧
        (out.2 = none → ∃ tx, i.TransactionReceipt hash = .ok tx ∧ tx.Status ≠ 0)) ∧
    (∀ eccmAddr rawHdr publickeys res,
        InitGenesisBlock i eccmAddr rawHdr publickeys = some res →
        (res.err ≠ none → res.hash = utils.EmptyHash) ∧
        (res.err = none → ∃ auth tx,
            makeAuth i = .ok auth ∧
            i.eccmInitGenesisBlock eccmAddr auth rawHdr publickeys = .ok tx ∧
            res.hash = tx ∧ ∃ r, i.TransactionReceipt tx = .ok r ∧ r.Status ≠ 0)) ∧
    (∀ eccmAddr rawHdr publickeys auth tx r,
        i.NewEthCrossChainManager eccmAddr = .ok () → makeAuth i = .ok auth →
        i.eccmInitGenesisBlock eccmAddr auth rawHdr publickeys = .ok tx →
        i.WaitTransactionConfirm tx = true →
        i.TransactionReceipt tx = .ok r → r.Status = 0 →
        ∃ res, InitGenesisBlock i eccmAddr rawHdr publickeys = some res ∧
          res.hash = utils.EmptyHash ∧ res.err = some (GoError.receiptFailed tx)) := by
  refine ⟨?_, (DumpTx_err_eq_none_iff i hash).1, ?_, ?_, ?_⟩
  · intro tx htx hs
    simp [DumpTx, GetReceipt, htx, hs]
  · intro out hout
    have ho := waitTxConfirm_eq_DumpTx i hash out hout
    subst ho
    refine ⟨?_, (DumpTx_err_eq_none_iff i hash).1⟩
    intro tx htx hs
    simp [DumpTx, GetReceipt, htx, hs]
  · intro eccmAddr rawHdr publickeys res hres
    unfold InitGenesisBlock at hres
    cases hn : i.NewEthCrossChainManager eccmAddr with
    | error e =>
      simp only [hn, Option.some.injEq] at hres
      subst hres
      simp
    | ok u =>
      simp only [hn] at hres
      cases ha : makeAuth i with
      | error e =>
        simp only [ha, Option.some.injEq] at hres
        subst hres
        simp
      | ok auth =>
        simp only [ha] at hres
        cases hb : i.eccmInitGenesisBlock eccmAddr auth rawHdr publickeys with
        | error e =>
          simp only [hb, Option.some.injEq] at hres
          subst hres
          simp
        | ok tx =>
          simp only [hb] at hres
          cases hw : waitTxConfirm i tx with
          | none => simp [hw] at hres
          | some out =>
            obtain ⟨lines, oerr⟩ := out
            have hd := waitTxConfirm_eq_DumpTx i tx _ hw
            cases oerr with
            | some e =>
              simp only [hw, Option.some.injEq] at hres
              subst hres
              simp
            | none =>
              simp only [hw, Option.some.injEq] at hres
              subst hres
              refine ⟨fun h => absurd rfl h, fun _ => ⟨auth, tx, rfl, hb, rfl, ?_⟩⟩
              apply (DumpTx_err_eq_none_iff i tx).1
              rw [← hd]
  · intro eccmAddr rawHdr publickeys auth tx r hn ha hb hw hr hs
    have hd : DumpTx i tx = ([], some (GoError.receiptFailed tx)) := by
      simp [DumpTx, GetReceipt, hr, hs]
    have hwt : waitTxConfirm i tx = some ([], some (GoError.receiptFailed tx)) := by
      simp [waitTxConfirm, hw, hd]
    refine ⟨{ hash := utils.EmptyHash, err := some (GoError.receiptFailed tx),
              effects := [ChainEffect.broadcast tx, ChainEffect.waitConfirm tx],
              lines := [] }, ?_, rfl, rfl⟩
    simp [InitGenesisBlock, hn, ha, hb, hwt]

theorem waitTxConfirm_failed (i : EthInvoker) (tx : common.Hash) (r : Receipt)
    (hw : i.WaitTransactionConfirm tx = true) (hr : i.TransactionReceipt tx = .ok r)
    (hs : r.Status = 0) :
    waitTxConfirm i tx = some ([], some (GoError.receiptFailed tx)) := by
  have hd : DumpTx i tx = ([], some (GoError.receiptFailed tx)) := by
    simp [DumpTx, GetReceipt, hr, hs]
  simp [waitTxConfirm, hw, hd]

theorem waitTxConfirm_nil_error (i : EthInvoker) (tx : common.Hash) (lines : List LogLine)
    (h : waitTxConfirm i tx = some (lines, none)) :
    ∃ r, i.TransactionReceipt tx = .ok r ∧ r.Status ≠ 0 := by
  have hd := waitTxConfirm_eq_DumpTx i tx _ h
  apply (DumpTx_err_eq_none_iff i tx).1
  rw [← hd]

theorem confirmHash_returns (i : EthInvoker) (tx : common.Hash) (res : HashResult)
    (h : confirmHash i tx = some res) :
    (res.err ≠ none → res.hash = utils.EmptyHash) ∧
    (res.err = none →
      res.hash = tx ∧ ∃ r, i.TransactionReceipt tx = .ok r ∧ r.Status ≠ 0) := by
  unfold confirmHash at h
  cases hw : waitTxConfirm i tx with
  | none => simp [hw] at h
  | some out =>
    obtain ⟨lines, oerr⟩ := out
    cases oerr with
    | some e =>
      simp only [hw, Option.some.injEq] at h
      subst h
      simp
    | none =>
      simp only [hw, Option.some.injEq] at h
      subst h
      exact ⟨fun hne => absurd rfl hne, fun _ => ⟨rfl, waitTxConfirm_nil_error i tx lines hw⟩⟩

theorem confirmHash_failed (i : EthInvoker) (tx : common.Hash) (r : Receipt)
    (hw : i.WaitTransactionConfirm tx = true) (hr : i.TransactionReceipt tx = .ok r)
    (hs : r.Status = 0) :
    confirmHash i tx =
      some { hash := utils.EmptyHash, err := some (GoError.receiptFailed tx),
             effects := [ChainEffect.broadcast tx, ChainEffect.waitConfirm tx],
             lines := [] } := by
  simp only [confirmHash, waitTxConfirm_failed i tx r hw hr hs]

theorem confirmAddress_returns (i : EthInvoker) (contractAddr : common.Address)
    (tx : common.Hash) (res : AddressResult)
    (h : confirmAddress i contractAddr tx = some res) :
    (res.err ≠ none → res.address = utils.EmptyAddress) ∧
    (res.err = none →
      res.address = contractAddr ∧
      ∃ r, i.TransactionReceipt tx = .ok r ∧ r.Status ≠ 0) := by
  unfold confirmAddress at h
  cases hw : waitTxConfirm i tx with
  | none => simp [hw] at h
  | some out =>
    obtain ⟨lines, oerr⟩ := out
    cases oerr with
    | some e =>
      simp only [hw, Option.some.injEq] at h
      subst h
      simp
    | none =>
      simp only [hw, Option.some.injEq] at h
      subst h
      exact ⟨fun hne => absurd rfl hne, fun _ => ⟨rfl, waitTxConfirm_nil_error i tx lines hw⟩⟩

theorem confirmAddress_failed (i : EthInvoker) (contractAddr : common.Address)
    (tx : common.Hash) (r : Receipt)
    (hw : i.WaitTransactionConfirm tx = true) (hr : i.TransactionReceipt tx = .ok r)
    (hs : r.Status = 0) :
    confirmAddress i contractAddr tx =
      some { address := utils.EmptyAddress, err := some (GoError.receiptFailed tx),
             effects := [ChainEffect.broadcast tx, ChainEffect.waitConfirm tx],
             lines := [] } := by
  simp only [confirmAddress, waitTxConfirm_failed i tx r hw hr hs]

theorem DeployNFT_returns (i : EthInvoker) (b : ContractBindings) (name symbol : String)
    (res : AddressResult) (hres : DeployNFT i b name symbol = some res) :
    (res.err ≠ none → res.address = utils.EmptyAddress) ∧
    (res.err = none → ∃ auth tx,
      makeAuth i = .ok auth ∧
      b.DeployCrossChainNFTMapping auth name symbol = .ok (res.address, tx) ∧
      ∃ r, i.TransactionReceipt tx = .ok r ∧ r.Status ≠ 0) := by
  unfold DeployNFT at hres
  cases ha : makeAuth i with
  | error e =>
    simp only [ha, Option.some.injEq] at hres
    subst hres
    simp [AddressResult.stopped]
  | ok auth =>
    simp only [ha] at hres
    cases hd : b.DeployCrossChainNFTMapping auth name symbol with
    | error e =>
      simp only [hd, Option.some.injEq] at hres
      subst hres
      simp [AddressResult.stopped]
    | ok at' =>
      obtain ⟨address, tx⟩ := at'
      simp only [hd] at hres
      cases hw : waitTxConfirm i tx with
      | none => simp [hw] at hres
      | some out =>
        obtain ⟨lines, oerr⟩ := out
        cases oerr with
        | some e =>
          simp only [hw, Option.some.injEq] at hres
          subst hres
          simp
        | none =>
          simp only [hw] at hres
          have hrec := waitTxConfirm_nil_error i tx lines hw
          cases hn : b.NFTMapping_Name address with
          | error e =>
            simp only [hn, Option.some.injEq] at hres
            subst hres
            simp
          | ok nameAfterDeploy =>
            simp only [hn] at hres
            by_cases hne : nameAfterDeploy = name
            · simp only [ne_eq, hne, not_true_eq_false, if_false, Option.some.injEq] at hres
              subst hres
              exact ⟨fun h => absurd rfl h, fun _ => ⟨auth, tx, rfl, hd, hrec⟩⟩
            · simp only [ne_eq, hne, not_false_eq_true, if_true, Option.some.injEq] at hres
              subst hres
              simp

/-- C1: `DumpTx` returns a non-nil error whenever the receipt it fetched has Status 0,
and returns nil only if the receipt was fetched without error and its Status is
non-zero; `waitTxConfirm`, when it returns, returns what `DumpTx` returns; and every
operation of the invoker that confirms through `waitTxConfirm`, `InitGenesisBlock` and
the fourteen others, returns the zero hash (the zero address for the three
deployments) with every non-nil error, in particular with the error "receipt failed"
when the receipt of the transaction it broadcast has Status 0, and returns the hash of
the transaction (the address of the contract) only with a nil error and a fetched
receipt of non-zero Status for the transaction its binding handed back. -/
theorem DumpTx_rejects_failed_receipt (i : EthInvoker) (b : ContractBindings)
    (hash : common.Hash) :
    (∀ tx, i.TransactionReceipt hash = .ok tx → tx.Status = 0 →
        (DumpTx i hash).2 = some (GoError.receiptFailed hash)) ∧
    ((DumpTx i hash).2 = none →
        ∃ tx, i.TransactionReceipt hash = .ok tx ∧ tx.Status ≠ 0) ∧
    (∀ out, waitTxConfirm i hash = some out →
        (∀ tx, i.TransactionReceipt hash = .ok tx → tx.Status = 0 → out.2 ≠ none) ∧
        (out.2 = none → ∃ tx, i.TransactionReceipt hash = .ok tx ∧ tx.Status ≠ 0)) ∧
    (∀ eccmAddr rawHdr publickeys res,
        InitGenesisBlock i eccmAddr rawHdr publickeys = some res →
        (res.err ≠ none → res.hash = utils.EmptyHash) ∧
        (res.err = none → ∃ auth tx,
            makeAuth i = .ok auth ∧
            i.eccmInitGenesisBlock eccmAddr auth rawHdr publickeys = .ok tx ∧
            res.hash = tx ∧ ∃ r, i.TransactionReceipt tx = .ok r ∧ r.Status ≠ 0)) ∧
    (∀ eccmAddr rawHdr publickeys auth tx r,
        i.NewEthCrossChainManager eccmAddr = .ok () → makeAuth i = .ok auth →
        i.eccmInitGenesisBlock eccmAddr auth rawHdr publickeys = .ok tx →
        i.WaitTransactionConfirm tx = true →
        i.TransactionReceipt tx = .ok r → r.Status = 0 →
        ∃ res, InitGenesisBlock i eccmAddr rawHdr publickeys = some res ∧
          res.hash = utils.EmptyHash ∧ res.err = some (GoError.receiptFailed tx)) ∧
    (∀ proxyAddr ccmpAddr res, SetPLTCCMP i b proxyAddr ccmpAddr = some res →
        (res.err ≠ none → res.hash = utils.EmptyHash) ∧
        (res.err = none → ∃ auth,
            makeAuth i = .ok auth ∧ b.LockProxy_SetManagerProxy proxyAddr auth ccmpAddr = .ok res.hash ∧
            ∃ r, i.TransactionReceipt res.hash = .ok r ∧ r.Status ≠ 0)) ∧
    (∀ proxyAddr ccmpAddr auth tx r,
        b.NewLockProxy proxyAddr = .ok () → makeAuth i = .ok auth →
        b.LockProxy_SetManagerProxy proxyAddr auth ccmpAddr = .ok tx →
        i.WaitTransactionConfirm tx = true →
        i.TransactionReceipt tx = .ok r → r.Status = 0 →
        ∃ res, SetPLTCCMP i b proxyAddr ccmpAddr = some res ∧
          res.hash = utils.EmptyHash ∧ res.err = some (GoError.receiptFailed tx)) ∧
    (∀ proxyAddr ccmpAddr res, SetNFTCCMP i b proxyAddr ccmpAddr = some res →
        (res.err ≠ none → res.hash = utils.EmptyHash) ∧
        (res.err = none → ∃ auth,
            makeAuth i = .ok auth ∧ b.NFTLockProxy_SetManagerProxy proxyAddr auth ccmpAddr = .ok res.hash ∧
            ∃ r, i.TransactionReceipt res.hash = .ok r ∧ r.Status ≠ 0)) ∧
    (∀ proxyAddr ccmpAddr auth tx r,
        b.NewPolyNFTLockProxy proxyAddr = .ok () → makeAuth i = .ok auth →
        b.NFTLockProxy_SetManagerProxy proxyAddr auth ccmpAddr = .ok tx →
        i.WaitTransactionConfirm tx = true →
        i.TransactionReceipt tx = .ok r → r.Status = 0 →
        ∃ res, SetNFTCCMP i b proxyAddr ccmpAddr = some res ∧
          res.hash = utils.EmptyHash ∧ res.err = some (GoError.receiptFailed tx)) ∧
    (∀ localLockProxyAddr fromAssetHash toAssetHash toChainId res, BindPLTAsset i b localLockProxyAddr fromAssetHash toAssetHash toChainId = some res →
        (res.err ≠ none → res.hash = utils.EmptyHash) ∧
        (res.err = none → ∃ auth,
            makeAuth i = .ok auth ∧ b.LockProxy_BindAssetHash localLockProxyAddr auth fromAssetHash toChainId toAssetHash = .ok res.hash ∧
            ∃ r, i.TransactionReceipt res.hash = .ok r ∧ r.Status ≠ 0)) ∧
    (∀ localLockProxyAddr fromAssetHash toAssetHash toChainId auth tx r,
        b.NewLockProxy localLockProxyAddr = .ok () → makeAuth i = .ok auth →
        b.LockProxy_BindAssetHash localLockProxyAddr auth fromAssetHash toChainId toAssetHash = .ok tx →
        i.WaitTransactionConfirm tx = true →
        i.TransactionReceipt tx = .ok r → r.Status = 0 →
        ∃ res, BindPLTAsset i b localLockProxyAddr fromAssetHash toAssetHash toChainId = some res ∧
          res.hash = utils.EmptyHash ∧ res.err = some (GoError.receiptFailed tx)) ∧
    (∀ localLockProxy targetLockProxy targetSideChainID res, BindPLTProxy i b localLockProxy targetLockProxy targetSideChainID = some res →
        (res.err ≠ none → res.hash = utils.EmptyHash) ∧
        (res.err = none → ∃ auth,
            makeAuth i = .ok auth ∧ b.LockProxy_BindProxyHash localLockProxy auth targetSideChainID targetLockProxy = .ok res.hash ∧
            ∃ r, i.TransactionReceipt res.hash = .ok r ∧ r.Status ≠ 0)) ∧
    (∀ localLockProxy targetLockProxy targetSideChainID auth tx r,
        b.NewLockProxy localLockProxy = .ok () → makeAuth i = .ok auth →
        b.LockProxy_BindProxyHash localLockProxy auth targetSideChainID targetLockProxy = .ok tx →
        i.WaitTransactionConfirm tx = true →
        i.TransactionReceipt tx = .ok r → r.Status = 0 →
        ∃ res, BindPLTProxy i b localLockProxy targetLockProxy targetSideChainID = some res ∧
          res.hash = utils.EmptyHash ∧ res.err = some (GoError.receiptFailed tx)) ∧
    (∀ lockProxyAddr fromAssetHash toAssetHash targetSideChainId res, BindNFTAsset i b lockProxyAddr fromAssetHash toAssetHash targetSideChainId = some res →
        (res.err ≠ none → res.hash = utils.EmptyHash) ∧
        (res.err = none → ∃ auth,
            makeAuth i = .ok auth ∧ b.NFTLockProxy_BindAssetHash lockProxyAddr auth fromAssetHash targetSideChainId toAssetHash = .ok res.hash ∧
            ∃ r, i.TransactionReceipt res.hash = .ok r ∧ r.Status ≠ 0)) ∧
    (∀ lockProxyAddr fromAssetHash toAssetHash targetSideChainId auth tx r,
        b.NewPolyNFTLockProxy lockProxyAddr = .ok () → makeAuth i = .ok auth →
        b.NFTLockProxy_BindAssetHash lockProxyAddr auth fromAssetHash targetSideChainId toAssetHash = .ok tx →
        i.WaitTransactionConfirm tx = true →
        i.TransactionReceipt tx = .ok r → r.Status = 0 →
        ∃ res, BindNFTAsset i b lockProxyAddr fromAssetHash toAssetHash targetSideChainId = some res ∧
          res.hash = utils.EmptyHash ∧ res.err = some (GoError.receiptFailed tx)) ∧
    (∀ localLockProxy targetLockProxy targetSideChainID res, BindNFTProxy i b localLockProxy targetLockProxy targetSideChainID = some res →
        (res.err ≠ none → res.hash = utils.EmptyHash) ∧
        (res.err = none → ∃ auth,
            makeAuth i = .ok auth ∧ b.NFTLockProxy_BindProxyHash localLockProxy auth targetSideChainID targetLockProxy = .ok res.hash ∧
            ∃ r, i.TransactionReceipt res.hash = .ok r ∧ r.Status ≠ 0)) ∧
    (∀ localLockProxy targetLockProxy targetSideChainID auth tx r,
        b.NewPolyNFTLockProxy localLockProxy = .ok () → makeAuth i = .ok auth →
        b.NFTLockProxy_BindProxyHash localLockProxy auth targetSideChainID targetLockProxy = .ok tx →
        i.WaitTransactionConfirm tx = true →
        i.TransactionReceipt tx = .ok r → r.Status = 0 →
        ∃ res, BindNFTProxy i b localLockProxy targetLockProxy targetSideChainID = some res ∧
          res.hash = utils.EmptyHash ∧ res.err = some (GoError.receiptFailed tx)) ∧
    (∀ eccd eccm res, TransferECCDOwnership i b eccd eccm = some res →
        (res.err ≠ none → res.hash = utils.EmptyHash) ∧
        (res.err = none → ∃ auth,
            makeAuth i = .ok auth ∧ b.ECCD_TransferOwnership eccd auth eccm = .ok res.hash ∧
            ∃ r, i.TransactionReceipt res.hash = .ok r ∧ r.Status ≠ 0)) ∧
    (∀ eccd eccm auth tx r,
        b.NewEthCrossChainData eccd = .ok () → makeAuth i = .ok auth →
        b.ECCD_TransferOwnership eccd auth eccm = .ok tx →
        i.WaitTransactionConfirm tx = true →
        i.TransactionReceipt tx = .ok r → r.Status = 0 →
        ∃ res, TransferECCDOwnership i b eccd eccm = some res ∧
          res.hash = utils.EmptyHash ∧ res.err = some (GoError.receiptFailed tx)) ∧
    (∀ eccm ccmp res, TransferECCMOwnership i b eccm ccmp = some res →
        (res.err ≠ none → res.hash = utils.EmptyHash) ∧
        (res.err = none → ∃ auth,
            makeAuth i = .ok auth ∧ b.ECCM_TransferOwnership eccm auth ccmp = .ok res.hash ∧
            ∃ r, i.TransactionReceipt res.hash = .ok r ∧ r.Status ≠ 0)) ∧
    (∀ eccm ccmp auth tx r,
        i.NewEthCrossChainManager eccm = .ok () → makeAuth i = .ok auth →
        b.ECCM_TransferOwnership eccm auth ccmp = .ok tx →
        i.WaitTransactionConfirm tx = true →
        i.TransactionReceipt tx = .ok r → r.Status = 0 →
        ∃ res, TransferECCMOwnership i b eccm ccmp = some res ∧
          res.hash = utils.EmptyHash ∧ res.err = some (GoError.receiptFailed tx)) ∧
    (∀ ccmpAddr newOwner res, TransferCCMPOwnership i b ccmpAddr newOwner = some res →
        (res.err ≠ none → res.hash = utils.EmptyHash) ∧
        (res.err = none → ∃ auth,
            makeAuth i = .ok auth ∧ b.CCMP_TransferOwnership ccmpAddr auth newOwner = .ok res.hash ∧
            ∃ r, i.TransactionReceipt res.hash = .ok r ∧ r.Status ≠ 0)) ∧
    (∀ ccmpAddr newOwner auth tx r,
        b.NewEthCrossChainManagerProxy ccmpAddr = .ok () → makeAuth i = .ok auth →
        b.CCMP_TransferOwnership ccmpAddr auth newOwner = .ok tx →
        i.WaitTransactionConfirm tx = true →
        i.TransactionReceipt tx = .ok r → r.Status = 0 →
        ∃ res, TransferCCMPOwnership i b ccmpAddr newOwner = some res ∧
          res.hash = utils.EmptyHash ∧ res.err = some (GoError.receiptFailed tx)) ∧
    (∀ proxyAddr newOwner res, TransferPLTProxyOwnership i b proxyAddr newOwner = some res →
        (res.err ≠ none → res.hash = utils.EmptyHash) ∧
        (res.err = none → ∃ auth,
            makeAuth i = .ok auth ∧ b.LockProxy_TransferOwnership proxyAddr auth newOwner = .ok res.hash ∧
            ∃ r, i.TransactionReceipt res.hash = .ok r ∧ r.Status ≠ 0)) ∧
    (∀ proxyAddr newOwner auth tx r,
        b.NewLockProxy proxyAddr = .ok () → makeAuth i = .ok auth →
        b.LockProxy_TransferOwnership proxyAddr auth newOwner = .ok tx →
        i.WaitTransactionConfirm tx = true →
        i.TransactionReceipt tx = .ok r → r.Status = 0 →
        ∃ res, TransferPLTProxyOwnership i b proxyAddr newOwner = some res ∧
          res.hash = utils.EmptyHash ∧ res.err = some (GoError.receiptFailed tx)) ∧
    (∀ proxyAddr newOwner res, TransferNFTProxyOwnership i b proxyAddr newOwner = some res →
        (res.err ≠ none → res.hash = utils.EmptyHash) ∧
        (res.err = none → ∃ auth,
            makeAuth i = .ok auth ∧ b.NFTLockProxy_TransferOwnership proxyAddr auth newOwner = .ok res.hash ∧
            ∃ r, i.TransactionReceipt res.hash = .ok r ∧ r.Status ≠ 0)) ∧
    (∀ proxyAddr newOwner auth tx r,
        b.NewPolyNFTLockProxy proxyAddr = .ok () → makeAuth i = .ok auth →
        b.NFTLockProxy_TransferOwnership proxyAddr auth newOwner = .ok tx →
        i.WaitTransactionConfirm tx = true →
        i.TransactionReceipt tx = .ok r → r.Status = 0 →
        ∃ res, TransferNFTProxyOwnership i b proxyAddr newOwner = some res ∧
          res.hash = utils.EmptyHash ∧ res.err = some (GoError.receiptFailed tx)) ∧
    (∀ res, DeployPLTLockProxy i b = some res →
        (res.err ≠ none → res.address = utils.EmptyAddress) ∧
        (res.err = none → ∃ auth tx,
            makeAuth i = .ok auth ∧ b.DeployLockProxy auth = .ok (res.address, tx) ∧
            ∃ r, i.TransactionReceipt tx = .ok r ∧ r.Status ≠ 0)) ∧
    (∀ auth contractAddr tx r,
        makeAuth i = .ok auth → b.DeployLockProxy auth = .ok (contractAddr, tx) →
        i.WaitTransactionConfirm tx = true →
        i.TransactionReceipt tx = .ok r → r.Status = 0 →
        ∃ res, DeployPLTLockProxy i b = some res ∧
          res.address = utils.EmptyAddress ∧ res.err = some (GoError.receiptFailed tx)) ∧
    (∀ res, DeployNFTLockProxy i b = some res →
        (res.err ≠ none → res.address = utils.EmptyAddress) ∧
        (res.err = none → ∃ auth tx,
            makeAuth i = .ok auth ∧ b.DeployPolyNFTLockProxy auth = .ok (res.address, tx) ∧
            ∃ r, i.TransactionReceipt tx = .ok r ∧ r.Status ≠ 0)) ∧
    (∀ auth contractAddr tx r,
        makeAuth i = .ok auth → b.DeployPolyNFTLockProxy auth = .ok (contractAddr, tx) →
        i.WaitTransactionConfirm tx = true →
        i.TransactionReceipt tx = .ok r → r.Status = 0 →
        ∃ res, DeployNFTLockProxy i b = some res ∧
          res.address = utils.EmptyAddress ∧ res.err = some (GoError.receiptFailed tx)) ∧
    (∀ name symbol res, DeployNFT i b name symbol = some res →
        (res.err ≠ none → res.address = utils.EmptyAddress) ∧
        (res.err = none → ∃ auth tx,
            makeAuth i = .ok auth ∧
            b.DeployCrossChainNFTMapping auth name symbol = .ok (res.address, tx) ∧
            ∃ r, i.TransactionReceipt tx = .ok r ∧ r.Status ≠ 0)) ∧
    (∀ name symbol auth address tx r,
        makeAuth i = .ok auth →
        b.DeployCrossChainNFTMapping auth name symbol = .ok (address, tx) →
        i.WaitTransactionConfirm tx = true →
        i.TransactionReceipt tx = .ok r → r.Status = 0 →
        ∃ res, DeployNFT i b name symbol = some res ∧
          res.address = utils.EmptyAddress ∧ res.err = some (GoError.receiptFailed tx)) := by
  obtain ⟨c1, c2, c3, c4, c5⟩ := DumpTx_waitTxConfirm_InitGenesisBlock i hash
  refine ⟨c1, c2, c3, c4, c5, ?_, ?_, ?_, ?_, ?_, ?_, ?_, ?_, ?_, ?_, ?_, ?_, ?_, ?_, ?_, ?_, ?_, ?_, ?_, ?_, ?_, ?_, ?_, ?_, ?_, ?_, ?_, ?_⟩
  · intro proxyAddr ccmpAddr res hres
    unfold SetPLTCCMP at hres
    cases hb : b.NewLockProxy proxyAddr with
    | error e =>
      simp only [hb, Option.some.injEq] at hres
      subst hres
      simp [HashResult.stopped]
    | ok u =>
      simp only [hb] at hres
      cases ha : makeAuth i with
      | error e =>
        simp only [ha, Option.some.injEq] at hres
        subst hres
        simp [HashResult.stopped]
      | ok auth =>
        simp only [ha] at hres
        cases ht : b.LockProxy_SetManagerProxy proxyAddr auth ccmpAddr with
        | error e =>
          simp only [ht, Option.some.injEq] at hres
          subst hres
          simp [HashResult.stopped]
        | ok tx =>
          simp only [ht] at hres
          obtain ⟨h1, h2⟩ := confirmHash_returns i tx res hres
          refine ⟨h1, fun hn => ?_⟩
          obtain ⟨hh, r, hr1, hr2⟩ := h2 hn
          subst hh
          exact ⟨auth, rfl, ht, r, hr1, hr2⟩
  · intro proxyAddr ccmpAddr auth tx r hb ha ht hw hr hs
    exact ⟨{ hash := utils.EmptyHash, err := some (GoError.receiptFailed tx),
             effects := [ChainEffect.broadcast tx, ChainEffect.waitConfirm tx],
             lines := [] },
      by simp only [SetPLTCCMP, hb, ha, ht, confirmHash_failed i tx r hw hr hs],
      rfl, rfl⟩
  · intro proxyAddr ccmpAddr res hres
    unfold SetNFTCCMP at hres
    cases hb : b.NewPolyNFTLockProxy proxyAddr with
    | error e =>
      simp only [hb, Option.some.injEq] at hres
      subst hres
      simp [HashResult.stopped]
    | ok u =>
      simp only [hb] at hres
      cases ha : makeAuth i with
      | error e =>
        simp only [ha, Option.some.injEq] at hres
        subst hres
        simp [HashResult.stopped]
      | ok auth =>
        simp only [ha] at hres
        cases ht : b.NFTLockProxy_SetManagerProxy proxyAddr auth ccmpAddr with
        | error e =>
          simp only [ht, Option.some.injEq] at hres
          subst hres
          simp [HashResult.stopped]
        | ok tx =>
          simp only [ht] at hres
          obtain ⟨h1, h2⟩ := confirmHash_returns i tx res hres
          refine ⟨h1, fun hn => ?_⟩
          obtain ⟨hh, r, hr1, hr2⟩ := h2 hn
          subst hh
          exact ⟨auth, rfl, ht, r, hr1, hr2⟩
  · intro proxyAddr ccmpAddr auth tx r hb ha ht hw hr hs
    exact ⟨{ hash := utils.EmptyHash, err := some (GoError.receiptFailed tx),
             effects := [ChainEffect.broadcast tx, ChainEffect.waitConfirm tx],
             lines := [] },
      by simp only [SetNFTCCMP, hb, ha, ht, confirmHash_failed i tx r hw hr hs],
      rfl, rfl⟩
  · intro localLockProxyAddr fromAssetHash toAssetHash toChainId res hres
    unfold BindPLTAsset at hres
    cases hb : b.NewLockProxy localLockProxyAddr with
    | error e =>
      simp only [hb, Option.some.injEq] at hres
      subst hres
      simp [HashResult.stopped]
    | ok u =>
      simp only [hb] at hres
      cases ha : makeAuth i with
      | error e =>
        simp only [ha, Option.some.injEq] at hres
        subst hres
        simp [HashResult.stopped]
      | ok auth =>
        simp only [ha] at hres
        cases ht : b.LockProxy_BindAssetHash localLockProxyAddr auth fromAssetHash toChainId toAssetHash with
        | error e =>
          simp only [ht, Option.some.injEq] at hres
          subst hres
          simp [HashResult.stopped]
        | ok tx =>
          simp only [ht] at hres
          obtain ⟨h1, h2⟩ := confirmHash_returns i tx res hres
          refine ⟨h1, fun hn => ?_⟩
          obtain ⟨hh, r, hr1, hr2⟩ := h2 hn
          subst hh
          exact ⟨auth, rfl, ht, r, hr1, hr2⟩
  · intro localLockProxyAddr fromAssetHash toAssetHash toChainId auth tx r hb ha ht hw hr hs
    exact ⟨{ hash := utils.EmptyHash, err := some (GoError.receiptFailed tx),
             effects := [ChainEffect.broadcast tx, ChainEffect.waitConfirm tx],
             lines := [] },
      by simp only [BindPLTAsset, hb, ha, ht, confirmHash_failed i tx r hw hr hs],
      rfl, rfl⟩
  · intro localLockProxy targetLockProxy targetSideChainID res hres
    unfold BindPLTProxy at hres
    cases hb : b.NewLockProxy localLockProxy with
    | error e =>
      simp only [hb, Option.some.injEq] at hres
      subst hres
      simp [HashResult.stopped]
    | ok u =>
      simp only [hb] at hres
      cases ha : makeAuth i with
      | error e =>
        simp only [ha, Option.some.injEq] at hres
        subst hres
        simp [HashResult.stopped]
      | ok auth =>
        simp only [ha] at hres
        cases ht : b.LockProxy_BindProxyHash localLockProxy auth targetSideChainID targetLockProxy with
        | error e =>
          simp only [ht, Option.some.injEq] at hres
          subst hres
          simp [HashResult.stopped]
        | ok tx =>
          simp only [ht] at hres
          obtain ⟨h1, h2⟩ := confirmHash_returns i tx res hres
          refine ⟨h1, fun hn => ?_⟩
          obtain ⟨hh, r, hr1, hr2⟩ := h2 hn
          subst hh
          exact ⟨auth, rfl, ht, r, hr1, hr2⟩
  · intro localLockProxy targetLockProxy targetSideChainID auth tx r hb ha ht hw hr hs
    exact ⟨{ hash := utils.EmptyHash, err := some (GoError.receiptFailed tx),
             effects := [ChainEffect.broadcast tx, ChainEffect.waitConfirm tx],
             lines := [] },
      by simp only [BindPLTProxy, hb, ha, ht, confirmHash_failed i tx r hw hr hs],
      rfl, rfl⟩
  · intro lockProxyAddr fromAssetHash toAssetHash targetSideChainId res hres
    unfold BindNFTAsset at hres
    cases hb : b.NewPolyNFTLockProxy lockProxyAddr with
    | error e =>
      simp only [hb, Option.some.injEq] at hres
      subst hres
      simp [HashResult.stopped]
    | ok u =>
      simp only [hb] at hres
      cases ha : makeAuth i with
      | error e =>
        simp only [ha, Option.some.injEq] at hres
        subst hres
        simp [HashResult.stopped]
      | ok auth =>
        simp only [ha] at hres
        cases ht : b.NFTLockProxy_BindAssetHash lockProxyAddr auth fromAssetHash targetSideChainId toAssetHash with
        | error e =>
          simp only [ht, Option.some.injEq] at hres
          subst hres
          simp [HashResult.stopped]
        | ok tx =>
          simp only [ht] at hres
          obtain ⟨h1, h2⟩ := confirmHash_returns i tx res hres
          refine ⟨h1, fun hn => ?_⟩
          obtain ⟨hh, r, hr1, hr2⟩ := h2 hn
          subst hh
          exact ⟨auth, rfl, ht, r, hr1, hr2⟩
  · intro lockProxyAddr fromAssetHash toAssetHash targetSideChainId auth tx r hb ha ht hw hr hs
    exact ⟨{ hash := utils.EmptyHash, err := some (GoError.receiptFailed tx),
             effects := [ChainEffect.broadcast tx, ChainEffect.waitConfirm tx],
             lines := [] },
      by simp only [BindNFTAsset, hb, ha, ht, confirmHash_failed i tx r hw hr hs],
      rfl, rfl⟩
  · intro localLockProxy targetLockProxy targetSideChainID res hres
    unfold BindNFTProxy at hres
    cases hb : b.NewPolyNFTLockProxy localLockProxy with
    | error e =>
      simp only [hb, Option.some.injEq] at hres
      subst hres
      simp [HashResult.stopped]
    | ok u =>
      simp only [hb] at hres
      cases ha : makeAuth i with
      | error e =>
        simp only [ha, Option.some.injEq] at hres
        subst hres
        simp [HashResult.stopped]
      | ok auth =>
        simp only [ha] at hres
        cases ht : b.NFTLockProxy_BindProxyHash localLockProxy auth targetSideChainID targetLockProxy with
        | error e =>
          simp only [ht, Option.some.injEq] at hres
          subst hres
          simp [HashResult.stopped]
        | ok tx =>
          simp only [ht] at hres
          obtain ⟨h1, h2⟩ := confirmHash_returns i tx res hres
          refine ⟨h1, fun hn => ?_⟩
          obtain ⟨hh, r, hr1, hr2⟩ := h2 hn
          subst hh
          exact ⟨auth, rfl, ht, r, hr1, hr2⟩
  · intro localLockProxy targetLockProxy targetSideChainID auth tx r hb ha ht hw hr hs
    exact ⟨{ hash := utils.EmptyHash, err := some (GoError.receiptFailed tx),
             effects := [ChainEffect.broadcast tx, ChainEffect.waitConfirm tx],
             lines := [] },
      by simp only [BindNFTProxy, hb, ha, ht, confirmHash_failed i tx r hw hr hs],
      rfl, rfl⟩
  · intro eccd eccm res hres
    unfold TransferECCDOwnership at hres
    cases hb : b.NewEthCrossChainData eccd with
    | error e =>
      simp only [hb, Option.some.injEq] at hres
      subst hres
      simp [HashResult.stopped]
    | ok u =>
      simp only [hb] at hres
      cases ha : makeAuth i with
      | error e =>
        simp only [ha, Option.some.injEq] at hres
        subst hres
        simp [HashResult.stopped]
      | ok auth =>
        simp only [ha] at hres
        cases ht : b.ECCD_TransferOwnership eccd auth eccm with
        | error e =>
          simp only [ht, Option.some.injEq] at hres
          subst hres
          simp [HashResult.stopped]
        | ok tx =>
          simp only [ht] at hres
          obtain ⟨h1, h2⟩ := confirmHash_returns i tx res hres
          refine ⟨h1, fun hn => ?_⟩
          obtain ⟨hh, r, hr1, hr2⟩ := h2 hn
          subst hh
          exact ⟨auth, rfl, ht, r, hr1, hr2⟩
  · intro eccd eccm auth tx r hb ha ht hw hr hs
    exact ⟨{ hash := utils.EmptyHash, err := some (GoError.receiptFailed tx),
             effects := [ChainEffect.broadcast tx, ChainEffect.waitConfirm tx],
             lines := [] },
      by simp only [TransferECCDOwnership, hb, ha, ht, confirmHash_failed i tx r hw hr hs],
      rfl, rfl⟩
  · intro eccm ccmp res hres
    unfold TransferECCMOwnership at hres
    cases hb : i.NewEthCrossChainManager eccm with
    | error e =>
      simp only [hb, Option.some.injEq] at hres
      subst hres
      simp [HashResult.stopped]
    | ok u =>
      simp only [hb] at hres
      cases ha : makeAuth i with
      | error e =>
        simp only [ha, Option.some.injEq] at hres
        subst hres
        simp [HashResult.stopped]
      | ok auth =>
        simp only [ha] at hres
        cases ht : b.ECCM_TransferOwnership eccm auth ccmp with
        | error e =>
          simp only [ht, Option.some.injEq] at hres
          subst hres
          simp [HashResult.stopped]
        | ok tx =>
          simp only [ht] at hres
          obtain ⟨h1, h2⟩ := confirmHash_returns i tx res hres
          refine ⟨h1, fun hn => ?_⟩
          obtain ⟨hh, r, hr1, hr2⟩ := h2 hn
          subst hh
          exact ⟨auth, rfl, ht, r, hr1, hr2⟩
  · intro eccm ccmp auth tx r hb ha ht hw hr hs
    exact ⟨{ hash := utils.EmptyHash, err := some (GoError.receiptFailed tx),
             effects := [ChainEffect.broadcast tx, ChainEffect.waitConfirm tx],
             lines := [] },
      by simp only [TransferECCMOwnership, hb, ha, ht, confirmHash_failed i tx r hw hr hs],
      rfl, rfl⟩
  · intro ccmpAddr newOwner res hres
    unfold TransferCCMPOwnership at hres
    cases hb : b.NewEthCrossChainManagerProxy ccmpAddr with
    | error e =>
      simp only [hb, Option.some.injEq] at hres
      subst hres
      simp [HashResult.stopped]
    | ok u =>
      simp only [hb] at hres
      cases ha : makeAuth i with
      | error e =>
        simp only [ha, Option.some.injEq] at hres
        subst hres
        simp [HashResult.stopped]
      | ok auth =>
        simp only [ha] at hres
        cases ht : b.CCMP_TransferOwnership ccmpAddr auth newOwner with
        | error e =>
          simp only [ht, Option.some.injEq] at hres
          subst hres
          simp [HashResult.stopped]
        | ok tx =>
          simp only [ht] at hres
          obtain ⟨h1, h2⟩ := confirmHash_returns i tx res hres
          refine ⟨h1, fun hn => ?_⟩
          obtain ⟨hh, r, hr1, hr2⟩ := h2 hn
          subst hh
          exact ⟨auth, rfl, ht, r, hr1, hr2⟩
  · intro ccmpAddr newOwner auth tx r hb ha ht hw hr hs
    exact ⟨{ hash := utils.EmptyHash, err := some (GoError.receiptFailed tx),
             effects := [ChainEffect.broadcast tx, ChainEffect.waitConfirm tx],
             lines := [] },
      by simp only [TransferCCMPOwnership, hb, ha, ht, confirmHash_failed i tx r hw hr hs],
      rfl, rfl⟩
  · intro proxyAddr newOwner res hres
    unfold TransferPLTProxyOwnership at hres
    cases hb : b.NewLockProxy proxyAddr with
    | error e =>
      simp only [hb, Option.some.injEq] at hres
      subst hres
      simp [HashResult.stopped]
    | ok u =>
      simp only [hb] at hres
      cases ha : makeAuth i with
      | error e =>
        simp only [ha, Option.some.injEq] at hres
        subst hres
        simp [HashResult.stopped]
      | ok auth =>
        simp only [ha] at hres
        cases ht : b.LockProxy_TransferOwnership proxyAddr auth newOwner with
        | error e =>
          simp only [ht, Option.some.injEq] at hres
          subst hres
          simp [HashResult.stopped]
        | ok tx =>
          simp only [ht] at hres
          obtain ⟨h1, h2⟩ := confirmHash_returns i tx res hres
          refine ⟨h1, fun hn => ?_⟩
          obtain ⟨hh, r, hr1, hr2⟩ := h2 hn
          subst hh
          exact ⟨auth, rfl, ht, r, hr1, hr2⟩
  · intro proxyAddr newOwner auth tx r hb ha ht hw hr hs
    exact ⟨{ hash := utils.EmptyHash, err := some (GoError.receiptFailed tx),
             effects := [ChainEffect.broadcast tx, ChainEffect.waitConfirm tx],
             lines := [] },
      by simp only [TransferPLTProxyOwnership, hb, ha, ht, confirmHash_failed i tx r hw hr hs],
      rfl, rfl⟩
  · intro proxyAddr newOwner res hres
    unfold TransferNFTProxyOwnership at hres
    cases hb : b.NewPolyNFTLockProxy proxyAddr with
    | error e =>
      simp only [hb, Option.some.injEq] at hres
      subst hres
      simp [HashResult.stopped]
    | ok u =>
      simp only [hb] at hres
      cases ha : makeAuth i with
      | error e =>
        simp only [ha, Option.some.injEq] at hres
        subst hres
        simp [HashResult.stopped]
      | ok auth =>
        simp only [ha] at hres
        cases ht : b.NFTLockProxy_TransferOwnership proxyAddr auth newOwner with
        | error e =>
          simp only [ht, Option.some.injEq] at hres
          subst hres
          simp [HashResult.stopped]
        | ok tx =>
          simp only [ht] at hres
          obtain ⟨h1, h2⟩ := confirmHash_returns i tx res hres
          refine ⟨h1, fun hn => ?_⟩
          obtain ⟨hh, r, hr1, hr2⟩ := h2 hn
          subst hh
          exact ⟨auth, rfl, ht, r, hr1, hr2⟩
  · intro proxyAddr newOwner auth tx r hb ha ht hw hr hs
    exact ⟨{ hash := utils.EmptyHash, err := some (GoError.receiptFailed tx),
             effects := [ChainEffect.broadcast tx, ChainEffect.waitConfirm tx],
             lines := [] },
      by simp only [TransferNFTProxyOwnership, hb, ha, ht, confirmHash_failed i tx r hw hr hs],
      rfl, rfl⟩
  · intro res hres
    unfold DeployPLTLockProxy at hres
    cases ha : makeAuth i with
    | error e =>
      simp only [ha, Option.some.injEq] at hres
      subst hres
      simp [AddressResult.stopped]
    | ok auth =>
      simp only [ha] at hres
      cases ht : b.DeployLockProxy auth with
      | error e =>
        simp only [ht, Option.some.injEq] at hres
        subst hres
        simp [AddressResult.stopped]
      | ok at' =>
        obtain ⟨contractAddr, tx⟩ := at'
        simp only [ht] at hres
        obtain ⟨h1, h2⟩ := confirmAddress_returns i contractAddr tx res hres
        refine ⟨h1, fun hn => ?_⟩
        obtain ⟨hh, r, hr1, hr2⟩ := h2 hn
        subst hh
        exact ⟨auth, tx, rfl, ht, r, hr1, hr2⟩
  · intro auth contractAddr tx r ha ht hw hr hs
    exact ⟨{ address := utils.EmptyAddress, err := some (GoError.receiptFailed tx),
             effects := [ChainEffect.broadcast tx, ChainEffect.waitConfirm tx],
             lines := [] },
      by simp only [DeployPLTLockProxy, ha, ht, confirmAddress_failed i contractAddr tx r hw hr hs],
      rfl, rfl⟩
  · intro res hres
    unfold DeployNFTLockProxy at hres
    cases ha : makeAuth i with
    | error e =>
      simp only [ha, Option.some.injEq] at hres
      subst hres
      simp [AddressResult.stopped]
    | ok auth =>
      simp only [ha] at hres
      cases ht : b.DeployPolyNFTLockProxy auth with
      | error e =>
        simp only [ht, Option.some.injEq] at hres
        subst hres
        simp [AddressResult.stopped]
      | ok at' =>
        obtain ⟨contractAddr, tx⟩ := at'
        simp only [ht] at hres
        obtain ⟨h1, h2⟩ := confirmAddress_returns i contractAddr tx res hres
        refine ⟨h1, fun hn => ?_⟩
        obtain ⟨hh, r, hr1, hr2⟩ := h2 hn
        subst hh
        exact ⟨auth, tx, rfl, ht, r, hr1, hr2⟩
  · intro auth contractAddr tx r ha ht hw hr hs
    exact ⟨{ address := utils.EmptyAddress, err := some (GoError.receiptFailed tx),
             effects := [ChainEffect.broadcast tx, ChainEffect.waitConfirm tx],
             lines := [] },
      by simp only [DeployNFTLockProxy, ha, ht, confirmAddress_failed i contractAddr tx r hw hr hs],
      rfl, rfl⟩
  · intro name symbol res hres
    exact DeployNFT_returns i b name symbol res hres
  · intro name symbol auth address tx r ha ht hw hr hs
    exact ⟨{ address := utils.EmptyAddress, err := some (GoError.receiptFailed tx),
             effects := [ChainEffect.broadcast tx, ChainEffect.waitConfirm tx],
             lines := [] },
      by simp only [DeployNFT, ha, ht, waitTxConfirm_failed i tx r hw hr hs],
      rfl, rfl⟩

/-- A witness for C1: transaction 77 is confirmed with a receipt of Status 0, so
`DumpTx` reports the failed receipt, and `InitGenesisBlock`, `BindPLTAsset` and
`DeployPLTLockProxy` return the zero hash or address with that error. -/
theorem DumpTx_rejects_failed_receipt_witness :
    (DumpTx (sampleInvoker ⟨0, 1, []⟩) 77).2 = some (GoError.receiptFailed 77) ∧
    (∃ res, InitGenesisBlock (sampleInvoker ⟨0, 1, []⟩) 1 [] [] = some res ∧
      res.hash = utils.EmptyHash ∧ res.err = some (GoError.receiptFailed 77)) ∧
    (∃ res, BindPLTAsset (sampleInvoker ⟨0, 1, []⟩) (sampleBindings "Art") 1 2 3 4
        = some res ∧
      res.hash = utils.EmptyHash ∧ res.err = some (GoError.receiptFailed 77)) ∧
    (∃ res, DeployPLTLockProxy (sampleInvoker ⟨0, 1, []⟩) (sampleBindings "Art") = some res ∧
      res.address = utils.EmptyAddress ∧ res.err = some (GoError.receiptFailed 77)) := by
  have h := DumpTx_rejects_failed_receipt (sampleInvoker ⟨0, 1, []⟩) (sampleBindings "Art") 77
  obtain ⟨c1, _, _, _, c5, _, _, _, _, _, cBind, rest⟩ := h
  refine ⟨c1 ⟨0, 1, []⟩ rfl rfl, ?_, ?_, ?_⟩
  · exact c5 1 [] []
      { From := 4660, Nonce := 5, Value := 0, GasLimit := 100000, GasPrice := 30 }
      77 ⟨0, 1, []⟩ rfl (by decide) rfl rfl rfl rfl
  · exact cBind 1 2 3 4
      { From := 4660, Nonce := 5, Value := 0, GasLimit := 100000, GasPrice := 30 }
      77 ⟨0, 1, []⟩ rfl (by decide) rfl rfl rfl rfl
  · obtain ⟨_, _, _, _, _, _, _, _, _, _, _, _, _, _, _, _, _, cDep, _⟩ := rest
    exact cDep
      { From := 4660, Nonce := 5, Value := 0, GasLimit := 100000, GasPrice := 30 }
      4096 77 ⟨0, 1, []⟩ (by decide) rfl rfl rfl rfl

/-! ## The log scan -/

theorem scanLogs_no_match (id : common.Hash) :
    ∀ (logs : List Log) (event : Option Log),
      (∀ e ∈ logs, e.Topics ≠ []) → (∀ e ∈ logs, e.Topics.head? ≠ some id) →
      scanLogs id logs event = some event
  | [], _, _, _ => rfl
  | e :: rest, event, htop, hno => by
    have h1 := htop e (List.mem_cons_self _ _)
    have h2 := hno e (List.mem_cons_self _ _)
    cases ht : e.Topics with
    | nil => exact absurd ht h1
    | cons eid tl =>
      rw [ht] at h2
      simp only [List.head?_cons, ne_eq, Option.some.injEq] at h2
      simp only [scanLogs, ht, ne_eq, h2, not_false_eq_true, if_true]
      exact scanLogs_no_match id rest event
        (fun x hx => htop x (List.mem_cons_of_mem _ hx))
        (fun x hx => hno x (List.mem_cons_of_mem _ hx))

theorem scanLogs_last_match (id : common.Hash) (e : Log) (post : List Log)
    (hsig : e.Topics.head? = some id)
    (htop : ∀ l ∈ post, l.Topics ≠ [])
    (hpost : ∀ l ∈ post, l.Topics.head? ≠ some id) :
    ∀ (pre : List Log) (event : Option Log), (∀ l ∈ pre, l.Topics ≠ []) →
      scanLogs id (pre ++ e :: post) event = some (some e)
  | [], event, _ => by
    cases ht : e.Topics with
    | nil => rw [ht] at hsig; simp at hsig
    | cons eid tl =>
      rw [ht] at hsig
      simp only [List.head?_cons, Option.some.injEq] at hsig
      simp only [List.nil_append, scanLogs, ht, ne_eq, hsig, not_true_eq_false, if_false]
      exact scanLogs_no_match id post (some e) htop hpost
  | p :: pre, event, hpre => by
    have h1 := hpre p (List.mem_cons_self _ _)
    have ih := fun ev => scanLogs_last_match id e post hsig htop hpost pre ev
      (fun x hx => hpre x (List.mem_cons_of_mem _ hx))
    cases ht : p.Topics with
    | nil => exact absurd ht h1
    | cons eid tl =>
      simp only [List.cons_append, scanLogs, ht, ne_eq]
      split
      · exact ih event
      · exact ih (some p)

/-! ## Unpacking the data of a log -/

theorem abi.Event.UnpackLockEvent_of_values (ab : abi.Event LockInputs) (enc : Bytes)
    (v : LockInputs) (h : ab.UnpackValues enc = .ok v) :
    ab.UnpackLockEvent enc = .error "abi: cannot unmarshal []uint8 in to common.Address" := by
  unfold abi.Event.UnpackLockEvent
  rw [h]
  rfl

theorem abi.Event.UnpackLockEvent_of_error (ab : abi.Event LockInputs) (enc : Bytes)
    (msg : String) (h : ab.UnpackValues enc = .error msg) :
    ab.UnpackLockEvent enc = .error msg := by
  unfold abi.Event.UnpackLockEvent
  rw [h]

theorem abi.Event.UnpackUnlockEvent_of_values (ab : abi.Event UnlockInputs) (enc : Bytes)
    (v : UnlockInputs) (h : ab.UnpackValues enc = .ok v) :
    ab.UnpackUnlockEvent enc =
      .ok { ToAssetHash := v.toAssetHash, ToAddress := v.toAddress,
            Amount := some (v.amount : Int) } := by
  unfold abi.Event.UnpackUnlockEvent
  rw [h]
  rfl

theorem abi.Event.UnpackUnlockEvent_of_error (ab : abi.Event UnlockInputs) (enc : Bytes)
    (msg : String) (h : ab.UnpackValues enc = .error msg) :
    ab.UnpackUnlockEvent enc = .error msg := by
  unfold abi.Event.UnpackUnlockEvent
  rw [h]

theorem unpackLockEvent_of_values (ab : abi.Event LockInputs) (enc : Bytes)
    (v : LockInputs) (h : ab.UnpackValues enc = .ok v) :
    unpackLockEvent enc ab =
      .error (GoError.abi "abi: cannot unmarshal []uint8 in to common.Address") := by
  simp only [unpackLockEvent, abi.Event.UnpackLockEvent_of_values ab enc v h]

theorem unpackLockEvent_of_error (ab : abi.Event LockInputs) (enc : Bytes)
    (msg : String) (h : ab.UnpackValues enc = .error msg) :
    unpackLockEvent enc ab = .error (GoError.abi msg) := by
  simp only [unpackLockEvent, abi.Event.UnpackLockEvent_of_error ab enc msg h]

theorem unpackLockEvent_is_abi_error (ab : abi.Event LockInputs) (enc : Bytes) :
    ∃ msg, unpackLockEvent enc ab = .error (GoError.abi msg) := by
  cases h : ab.UnpackValues enc with
  | error msg => exact ⟨msg, unpackLockEvent_of_error ab enc msg h⟩
  | ok v => exact ⟨_, unpackLockEvent_of_values ab enc v h⟩

theorem unpackUnlockEvent_of_values (ab : abi.Event UnlockInputs) (enc : Bytes)
    (v : UnlockInputs) (h : ab.UnpackValues enc = .ok v) :
    unpackUnlockEvent enc ab =
      .ok { ToAssetHash := v.toAssetHash, ToAddress := v.toAddress,
            Amount := some (v.amount : Int) } := by
  simp only [unpackUnlockEvent, abi.Event.UnpackUnlockEvent_of_values ab enc v h]

theorem unpackUnlockEvent_of_error (ab : abi.Event UnlockInputs) (enc : Bytes)
    (msg : String) (h : ab.UnpackValues enc = .error msg) :
    unpackUnlockEvent enc ab = .error (GoError.abi msg) := by
  simp only [unpackUnlockEvent, abi.Event.UnpackUnlockEvent_of_error ab enc msg h]

theorem unpackUnlockEvent_error_is_abi (ab : abi.Event UnlockInputs) (enc : Bytes)
    (err : GoError) (h : unpackUnlockEvent enc ab = .error err) :
    ∃ msg, err = GoError.abi msg := by
  cases hv : ab.UnpackValues enc with
  | error msg =>
    rw [unpackUnlockEvent_of_error ab enc msg hv] at h
    exact ⟨msg, (Except.error.inj h).symm⟩
  | ok v =>
    rw [unpackUnlockEvent_of_values ab enc v hv] at h
    cases h

/-! ## The decoders, reduced to scan and decode -/

theorem GetPaletteLockEvent_eq_scanAndDecodeLock (c : Client) (hash : common.Hash)
    (receipt : Receipt) (hr : c.TransactionReceipt hash = .ok receipt) :
    GetPaletteLockEvent c hash = scanAndDecodeLock c receipt := by
  unfold GetPaletteLockEvent scanAndDecodeLock
  simp only [hr]
  cases hs : scanLogs c.abiLockEvent.ID receipt.Logs none with
  | none => rfl
  | some found =>
    cases found with
    | none => by_cases hl : receipt.Logs.length < 3 <;> simp [hl, LockResult.zero]
    | some event =>
      cases hu : unpackLockEvent event.Data c.abiLockEvent <;>
        by_cases hl : receipt.Logs.length < 3 <;>
        by_cases ha : event.Address = c.proxyAddr <;>
        simp [hl, ha, LockResult.zero]

theorem GetPaletteUnlockEvent_eq_scanAndDecodeUnlock (c : Client) (hash : common.Hash)
    (receipt : Receipt) (hr : c.TransactionReceipt hash = .ok receipt) :
    GetPaletteUnlockEvent c hash = scanAndDecodeUnlock c receipt := by
  unfold GetPaletteUnlockEvent scanAndDecodeUnlock
  simp only [hr]
  cases hs : scanLogs c.abiUnLockEvent.ID receipt.Logs none with
  | none => rfl
  | some found =>
    cases found with
    | none => by_cases hl : receipt.Logs.length < 3 <;> simp [hl, UnlockResult.zero]
    | some event =>
      cases hu : unpackUnlockEvent event.Data c.abiUnLockEvent <;>
        by_cases hl : receipt.Logs.length < 3 <;>
        by_cases ha : event.Address = c.proxyAddr <;>
        simp [hl, ha, UnlockResult.zero]

theorem scanLogs_isSome (id : common.Hash) :
    ∀ (logs : List Log) (event : Option Log), (∀ e ∈ logs, e.Topics ≠ []) →
      ∃ found, scanLogs id logs event = some found
  | [], event, _ => ⟨event, rfl⟩
  | e :: rest, event, htop => by
    have h1 := htop e (List.mem_cons_self _ _)
    have ih := fun ev => scanLogs_isSome id rest ev
      (fun x hx => htop x (List.mem_cons_of_mem _ hx))
    cases ht : e.Topics with
    | nil => exact absurd ht h1
    | cons eid tl =>
      simp only [scanLogs, ht, ne_eq]
      split
      · exact ih event
      · exact ih (some e)

theorem scanLogs_found_mem (id : common.Hash) (x : Log) :
    ∀ (logs : List Log) (event : Option Log), scanLogs id logs event = some (some x) →
      event = some x ∨ (x ∈ logs ∧ x.Topics.head? = some id)
  | [], event, h => by
    simp only [scanLogs, Option.some.injEq] at h
    exact Or.inl h
  | e :: rest, event, h => by
    cases ht : e.Topics with
    | nil => simp [scanLogs, ht] at h
    | cons eid tl =>
      simp only [scanLogs, ht, ne_eq] at h
      split at h
      · rcases scanLogs_found_mem id x rest event h with h' | ⟨hm, hh⟩
        · exact Or.inl h'
        · exact Or.inr ⟨List.mem_cons_of_mem _ hm, hh⟩
      · next hid =>
        have hid' : eid = id := not_not.mp hid
        rcases scanLogs_found_mem id x rest (some e) h with h' | ⟨hm, hh⟩
        · simp only [Option.some.injEq] at h'
          subst h'
          exact Or.inr ⟨List.mem_cons_self _ _, by rw [ht, hid']; rfl⟩
        · exact Or.inr ⟨List.mem_cons_of_mem _ hm, hh⟩

theorem scanLogs_last_match_in_receipt (id : common.Hash) (receipt : Receipt)
    (pre : List Log) (e : Log) (post : List Log)
    (hlogs : receipt.Logs = pre ++ e :: post)
    (htop : ∀ l ∈ receipt.Logs, l.Topics ≠ [])
    (hsig : e.Topics.head? = some id)
    (hpost : ∀ l ∈ post, l.Topics.head? ≠ some id) :
    scanLogs id receipt.Logs none = some (some e) := by
  rw [hlogs]
  apply scanLogs_last_match _ _ _ hsig _ hpost
  · intro l hl
    exact htop l (by rw [hlogs]; simp [hl])
  · intro l hl
    exact htop l (by rw [hlogs]; simp [hl])

theorem scanAndDecodeLock_last_match (c : Client) (receipt : Receipt)
    (pre : List Log) (e : Log) (post : List Log)
    (hlogs : receipt.Logs = pre ++ e :: post)
    (htop : ∀ l ∈ receipt.Logs, l.Topics ≠ [])
    (hsig : e.Topics.head? = some c.abiLockEvent.ID)
    (hpost : ∀ l ∈ post, l.Topics.head? ≠ some c.abiLockEvent.ID) :
    scanAndDecodeLock c receipt =
      match unpackLockEvent e.Data c.abiLockEvent with
      | .error err =>
        some { fromAsset := 0, fromAddress := 0, toAsset := 0, toAddress := 0,
               chainID := 0, amount := none, err := some err }
      | .ok ev =>
        some { fromAsset := ev.FromAssetHash, fromAddress := ev.FromAddress,
               toAsset := ev.ToAssetHash, toAddress := ev.ToAddress,
               chainID := ev.ToChainId, amount := ev.Amount, err := none } := by
  have hscan := scanLogs_last_match_in_receipt _ receipt pre e post hlogs htop hsig hpost
  simp only [scanAndDecodeLock, hscan]

theorem scanAndDecodeUnlock_last_match (c : Client) (receipt : Receipt)
    (pre : List Log) (e : Log) (post : List Log)
    (hlogs : receipt.Logs = pre ++ e :: post)
    (htop : ∀ l ∈ receipt.Logs, l.Topics ≠ [])
    (hsig : e.Topics.head? = some c.abiUnLockEvent.ID)
    (hpost : ∀ l ∈ post, l.Topics.head? ≠ some c.abiUnLockEvent.ID) :
    scanAndDecodeUnlock c receipt =
      match unpackUnlockEvent e.Data c.abiUnLockEvent with
      | .error err =>
        some { toAddress := 0, toAsset := 0, amount := none, err := some err }
      | .ok ev =>
        some { toAddress := ev.ToAddress, toAsset := ev.ToAssetHash, amount := ev.Amount,
               err := none } := by
  have hscan := scanLogs_last_match_in_receipt _ receipt pre e post hlogs htop hsig hpost
  simp only [scanAndDecodeUnlock, hscan]

/-! ## The emitter check -/

/-- C2, evaluated on the code: a receipt of three logs whose only unlock log is emitted
by address 666, not by the proxy 259, and whose data decodes, is decoded with a nil
error: the emitter error is assigned and then overwritten by the result of the
unpacking.  For the same receipt with a lock log the error returned is the one of the
unpacking, again not the emitter error. -/
theorem foreign_emitter_is_decoded_without_error :
    lockLogFromStranger.Address ≠ (sampleClient ⟨1, 10, []⟩).proxyAddr ∧
    GetPaletteLockEvent (sampleClient ⟨1, 10, [otherLog, lockLogFromStranger, otherLog]⟩) 1
      = some { fromAsset := 0, fromAddress := 0, toAsset := 0, toAddress := 0,
               chainID := 0, amount := none,
               err := some (GoError.abi
                 "abi: cannot unmarshal []uint8 in to common.Address") } ∧
    unlockLogFromStranger.Address ≠ (sampleClient ⟨1, 10, []⟩).proxyAddr ∧
    GetPaletteUnlockEvent
        (sampleClient ⟨1, 10, [otherLog, unlockLogFromStranger, otherLog]⟩) 1
      = some { toAddress := 8, toAsset := 7, amount := some 42, err := none } := by
  decide

/-! ## No event in the receipt -/

/-- C3: for a fetched receipt whose logs all have a topic and none of which carries the
lock event ID as first topic, `GetPaletteLockEvent` returns the error "can not find
proxy unlock event" with zero addresses, chainID 0 and a nil amount; likewise
`GetPaletteUnlockEvent` with the unlock event ID; both hold for an empty log list. -/
theorem event_not_found_returns_zero_values (c : Client) (hash : common.Hash)
    (receipt : Receipt) (hr : c.TransactionReceipt hash = .ok receipt)
    (htop : ∀ e ∈ receipt.Logs, e.Topics ≠ []) :
    ((∀ e ∈ receipt.Logs, e.Topics.head? ≠ some c.abiLockEvent.ID) →
      GetPaletteLockEvent c hash =
        some { fromAsset := utils.EmptyAddress, fromAddress := utils.EmptyAddress,
               toAsset := utils.EmptyAddress, toAddress := utils.EmptyAddress,
               chainID := 0, amount := none,
               err := some GoError.canNotFindProxyEvent }) ∧
    ((∀ e ∈ receipt.Logs, e.Topics.head? ≠ some c.abiUnLockEvent.ID) →
      GetPaletteUnlockEvent c hash =
        some { toAddress := utils.EmptyAddress, toAsset := utils.EmptyAddress,
               amount := none, err := some GoError.canNotFindProxyEvent }) ∧
    (receipt.Logs = [] →
      GetPaletteLockEvent c hash =
        some { fromAsset := utils.EmptyAddress, fromAddress := utils.EmptyAddress,
               toAsset := utils.EmptyAddress, toAddress := utils.EmptyAddress,
               chainID := 0, amount := none,
               err := some GoError.canNotFindProxyEvent } ∧
      GetPaletteUnlockEvent c hash =
        some { toAddress := utils.EmptyAddress, toAsset := utils.EmptyAddress,
               amount := none, err := some GoError.canNotFindProxyEvent }) := by
  have hl : (∀ e ∈ receipt.Logs, e.Topics.head? ≠ some c.abiLockEvent.ID) →
      GetPaletteLockEvent c hash =
        some { fromAsset := utils.EmptyAddress, fromAddress := utils.EmptyAddress,
               toAsset := utils.EmptyAddress, toAddress := utils.EmptyAddress,
               chainID := 0, amount := none,
               err := some GoError.canNotFindProxyEvent } := by
    intro hno
    rw [GetPaletteLockEvent_eq_scanAndDecodeLock c hash receipt hr]
    simp [scanAndDecodeLock, scanLogs_no_match _ _ none htop hno, utils.EmptyAddress]
  have hu : (∀ e ∈ receipt.Logs, e.Topics.head? ≠ some c.abiUnLockEvent.ID) →
      GetPaletteUnlockEvent c hash =
        some { toAddress := utils.EmptyAddress, toAsset := utils.EmptyAddress,
               amount := none, err := some GoError.canNotFindProxyEvent } := by
    intro hno
    rw [GetPaletteUnlockEvent_eq_scanAndDecodeUnlock c hash receipt hr]
    simp [scanAndDecodeUnlock, scanLogs_no_match _ _ none htop hno, utils.EmptyAddress]
  refine ⟨hl, hu, fun hnil => ⟨hl ?_, hu ?_⟩⟩
  · intro e he; rw [hnil] at he; cases he
  · intro e he; rw [hnil] at he; cases he

/-- A witness for C3: a receipt with a single log of another event, and the receipt
with no log at all. -/
theorem event_not_found_returns_zero_values_witness :
    GetPaletteLockEvent (sampleClient ⟨1, 10, [otherLog]⟩) 1 =
        some { fromAsset := utils.EmptyAddress, fromAddress := utils.EmptyAddress,
               toAsset := utils.EmptyAddress, toAddress := utils.EmptyAddress,
               chainID := 0, amount := none,
               err := some GoError.canNotFindProxyEvent } ∧
    GetPaletteUnlockEvent (sampleClient ⟨1, 10, [otherLog]⟩) 1 =
        some { toAddress := utils.EmptyAddress, toAsset := utils.EmptyAddress,
               amount := none, err := some GoError.canNotFindProxyEvent } :=
  ⟨(event_not_found_returns_zero_values (sampleClient ⟨1, 10, [otherLog]⟩) 1
      ⟨1, 10, [otherLog]⟩ rfl (by decide)).1 (by decide),
   (event_not_found_returns_zero_values (sampleClient ⟨1, 10, [otherLog]⟩) 1
      ⟨1, 10, [otherLog]⟩ rfl (by decide)).2.1 (by decide)⟩

/-! ## The receipt status -/

/-- C4 fails as stated: the receipt below has Status 0 and carries an unlock log from
the proxy, and `GetPaletteUnlockEvent` returns a nil error together with the decoded
event.  (On the same receipt with a lock log `GetPaletteLockEvent` returns the error of
the unpacking, as it does for a receipt of Status 1.) -/
theorem failed_receipt_is_decoded :
    (⟨0, 10, [otherLog, unlockLogFromProxy, otherLog]⟩ : Receipt).Status = 0 ∧
    GetPaletteUnlockEvent
        (sampleClient ⟨0, 10, [otherLog, unlockLogFromProxy, otherLog]⟩) 1
      = some { toAddress := 4, toAsset := 3, amount := some 500, err := none } ∧
    GetPaletteLockEvent (sampleClient ⟨0, 10, [otherLog, lockLogFromProxy, otherLog]⟩) 1
      = GetPaletteLockEvent
          (sampleClient ⟨1, 10, [otherLog, lockLogFromProxy, otherLog]⟩) 1 := by
  decide

/-- C4, amended: the decoders never read the Status of the receipt.  Whatever the node
answers for other hashes, if it answers `hash` with a receipt that differs from
`receipt` in its Status only, both decoders return exactly what they return for
`receipt`; in particular a receipt of Status 0 is decoded like the same receipt with
Status 1. -/
theorem decoders_ignore_receipt_status (c : Client) (hash : common.Hash)
    (receipt : Receipt) (status : Nat)
    (node : common.Hash → Except String Receipt)
    (hr : c.TransactionReceipt hash = .ok receipt)
    (hnode : node hash = .ok { receipt with Status := status }) :
    GetPaletteLockEvent { c with TransactionReceipt := node } hash
      = GetPaletteLockEvent c hash ∧
    GetPaletteUnlockEvent { c with TransactionReceipt := node } hash
      = GetPaletteUnlockEvent c hash := by
  constructor
  · rw [GetPaletteLockEvent_eq_scanAndDecodeLock c hash receipt hr,
      GetPaletteLockEvent_eq_scanAndDecodeLock { c with TransactionReceipt := node } hash
        { receipt with Status := status } hnode]
    rfl
  · rw [GetPaletteUnlockEvent_eq_scanAndDecodeUnlock c hash receipt hr,
      GetPaletteUnlockEvent_eq_scanAndDecodeUnlock { c with TransactionReceipt := node }
        hash { receipt with Status := status } hnode]
    rfl

/-- A witness for the amended C4: the successful receipt with an unlock log from the proxy
and the same receipt with Status 0 are decoded alike. -/
theorem decoders_ignore_receipt_status_witness :
    GetPaletteLockEvent
        { sampleClient ⟨1, 10, [unlockLogFromProxy]⟩ with
          TransactionReceipt := fun _ => .ok ⟨0, 10, [unlockLogFromProxy]⟩ } 1
      = GetPaletteLockEvent (sampleClient ⟨1, 10, [unlockLogFromProxy]⟩) 1 ∧
    GetPaletteUnlockEvent
        { sampleClient ⟨1, 10, [unlockLogFromProxy]⟩ with
          TransactionReceipt := fun _ => .ok ⟨0, 10, [unlockLogFromProxy]⟩ } 1
      = GetPaletteUnlockEvent (sampleClient ⟨1, 10, [unlockLogFromProxy]⟩) 1 :=
  decoders_ignore_receipt_status (sampleClient ⟨1, 10, [unlockLogFromProxy]⟩) 1
    ⟨1, 10, [unlockLogFromProxy]⟩ 0 (fun _ => .ok ⟨0, 10, [unlockLogFromProxy]⟩) rfl rfl

/-! ## Which log is decoded -/

/-- C5, evaluated on the code: every log of the receipt below has a topic, its only log
with the lock event ID is emitted by the proxy, and the data of that log decodes into
the values of the six inputs of the lock event; yet `GetPaletteLockEvent` fails, with
zero values and the ABI error, because the `bytes` values of toAssetHash and toAddress
cannot be stored in the `common.Address` fields of `LockEvent`. -/
theorem proxy_lock_log_is_not_decoded :
    (∀ e ∈ [otherLog, lockLogFromProxy, otherLog], e.Topics ≠ []) ∧
    lockLogFromProxy.Topics.head? = some (sampleClient ⟨1, 10, []⟩).abiLockEvent.ID ∧
    lockLogFromProxy.Address = (sampleClient ⟨1, 10, []⟩).proxyAddr ∧
    (sampleClient ⟨1, 10, []⟩).abiLockEvent.UnpackValues lockLogFromProxy.Data =
      .ok { fromAssetHash := 1, fromAddress := 2, toChainId := 7, toAssetHash := [3],
            toAddress := [4], amount := 1000 } ∧
    GetPaletteLockEvent (sampleClient ⟨1, 10, [otherLog, lockLogFromProxy, otherLog]⟩) 1
      = some { fromAsset := 0, fromAddress := 0, toAsset := 0, toAddress := 0,
               chainID := 0, amount := none,
               err := some (GoError.abi
                 "abi: cannot unmarshal []uint8 in to common.Address") } := by
  decide

/-! ## The returned fields -/

theorem GetPaletteLockEvent_err_ne_none (c : Client) (hash : common.Hash) (r : LockResult)
    (hres : GetPaletteLockEvent c hash = some r) : r.err ≠ none := by
  cases hr : c.TransactionReceipt hash with
  | error msg =>
    simp only [GetPaletteLockEvent, hr, Option.some.injEq] at hres
    subst hres
    simp
  | ok receipt =>
    rw [GetPaletteLockEvent_eq_scanAndDecodeLock c hash receipt hr] at hres
    unfold scanAndDecodeLock at hres
    cases hs : scanLogs c.abiLockEvent.ID receipt.Logs none with
    | none => simp [hs] at hres
    | some found =>
      cases found with
      | none =>
        simp only [hs, Option.some.injEq] at hres
        subst hres
        simp
      | some event =>
        obtain ⟨msg, hm⟩ := unpackLockEvent_is_abi_error c.abiLockEvent event.Data
        simp only [hs, hm, Option.some.injEq] at hres
        subst hres
        simp

theorem GetPaletteUnlockEvent_nil_error (c : Client) (hash : common.Hash)
    (r : UnlockResult) (hres : GetPaletteUnlockEvent c hash = some r)
    (herr : r.err = none) :
    ∃ receipt event v,
      c.TransactionReceipt hash = .ok receipt ∧
      scanLogs c.abiUnLockEvent.ID receipt.Logs none = some (some event) ∧
      event ∈ receipt.Logs ∧ event.Topics.head? = some c.abiUnLockEvent.ID ∧
      c.abiUnLockEvent.UnpackValues event.Data = .ok v ∧
      unpackUnlockEvent event.Data c.abiUnLockEvent =
        .ok { ToAssetHash := v.toAssetHash, ToAddress := v.toAddress,
              Amount := some (v.amount : Int) } ∧
      r.toAddress = v.toAddress ∧ r.toAsset = v.toAssetHash ∧
      r.amount = some (v.amount : Int) := by
  cases hr : c.TransactionReceipt hash with
  | error msg =>
    simp only [GetPaletteUnlockEvent, hr, Option.some.injEq] at hres
    subst hres
    simp at herr
  | ok receipt =>
    rw [GetPaletteUnlockEvent_eq_scanAndDecodeUnlock c hash receipt hr] at hres
    unfold scanAndDecodeUnlock at hres
    cases hs : scanLogs c.abiUnLockEvent.ID receipt.Logs none with
    | none => simp [hs] at hres
    | some found =>
      cases found with
      | none =>
        simp only [hs, Option.some.injEq] at hres
        subst hres
        simp at herr
      | some event =>
        have hmem : event ∈ receipt.Logs ∧
            event.Topics.head? = some c.abiUnLockEvent.ID := by
          rcases scanLogs_found_mem _ _ _ _ hs with h | h
          · simp at h
          · exact h
        cases hv : c.abiUnLockEvent.UnpackValues event.Data with
        | error msg =>
          simp only [hs, unpackUnlockEvent_of_error _ _ msg hv, Option.some.injEq] at hres
          subst hres
          simp at herr
        | ok v =>
          have hu := unpackUnlockEvent_of_values _ _ v hv
          simp only [hs, hu, Option.some.injEq] at hres
          subst hres
          exact ⟨receipt, event, v, rfl, hs, hmem.1, hmem.2, hv, hu, rfl, rfl, rfl⟩

/-- C6, evaluated on the code: the lock log encoding amount 1000 and toChainId 7 does
not come back as amount 1000 and chainID 7; `GetPaletteLockEvent` returns zero values,
a nil amount and the ABI error, and it never returns a nil error, whatever the client
and the receipt, because the unpacking into `LockEvent` always fails.  The unlock half
of the claim holds: whenever `GetPaletteUnlockEvent` returns a nil error, its results
are the values unpacked from the data of the selected log, toAddress = ToAddress,
toAsset = ToAssetHash, amount = Amount. -/
theorem lock_fields_are_never_returned (c : Client) (hash : common.Hash) :
    GetPaletteLockEvent (sampleClient ⟨1, 10, [otherLog, lockLogFromProxy, otherLog]⟩) 1
      = some { fromAsset := 0, fromAddress := 0, toAsset := 0, toAddress := 0,
               chainID := 0, amount := none,
               err := some (GoError.abi
                 "abi: cannot unmarshal []uint8 in to common.Address") } ∧
    (∀ r, GetPaletteLockEvent c hash = some r → r.err ≠ none) ∧
    (∀ r, GetPaletteUnlockEvent c hash = some r → r.err = none →
      ∃ receipt event v,
        c.TransactionReceipt hash = .ok receipt ∧
        scanLogs c.abiUnLockEvent.ID receipt.Logs none = some (some event) ∧
        event ∈ receipt.Logs ∧ event.Topics.head? = some c.abiUnLockEvent.ID ∧
        c.abiUnLockEvent.UnpackValues event.Data = .ok v ∧
        unpackUnlockEvent event.Data c.abiUnLockEvent =
          .ok { ToAssetHash := v.toAssetHash, ToAddress := v.toAddress,
                Amount := some (v.amount : Int) } ∧
        r.toAddress = v.toAddress ∧ r.toAsset = v.toAssetHash ∧
        r.amount = some (v.amount : Int)) :=
  ⟨by decide, GetPaletteLockEvent_err_ne_none c hash,
    GetPaletteUnlockEvent_nil_error c hash⟩

/-- A witness for the unlock half of C6: the unlock log encoding amount 500 comes back
as amount 500, with the addresses in their places. -/
theorem lock_fields_are_never_returned_witness :
    ∃ receipt event v,
      (sampleClient ⟨1, 10, [otherLog, unlockLogFromProxy, otherLog]⟩).TransactionReceipt 1
        = .ok receipt ∧
      scanLogs
        (sampleClient ⟨1, 10, [otherLog, unlockLogFromProxy, otherLog]⟩).abiUnLockEvent.ID
        receipt.Logs none = some (some event) ∧
      event ∈ receipt.Logs ∧
      event.Topics.head? = some
        (sampleClient ⟨1, 10, [otherLog, unlockLogFromProxy, otherLog]⟩).abiUnLockEvent.ID ∧
      (sampleClient ⟨1, 10, [otherLog, unlockLogFromProxy, otherLog]⟩).abiUnLockEvent.UnpackValues
        event.Data = .ok v ∧
      unpackUnlockEvent event.Data
        (sampleClient ⟨1, 10, [otherLog, unlockLogFromProxy, otherLog]⟩).abiUnLockEvent =
          .ok { ToAssetHash := v.toAssetHash, ToAddress := v.toAddress,
                Amount := some (v.amount : Int) } ∧
      (4 : Nat) = v.toAddress ∧ (3 : Nat) = v.toAssetHash ∧
      some (500 : Int) = some (v.amount : Int) :=
  (lock_fields_are_never_returned
      (sampleClient ⟨1, 10, [otherLog, unlockLogFromProxy, otherLog]⟩) 1).2.2
    { toAddress := 4, toAsset := 3, amount := some 500, err := none } (by decide) rfl

/-! ## The count of the logs -/

/-- C7 fails as stated in its last part: each receipt below has fewer than three logs,
each with a topic, and contains the well-formed lock log from the proxy, yet the lock
decoder returns an error.  In the first the log it selects is the later one with the
lock signature, whose data does not decode; in the second the proxy log is the only
log, and its unpacking into `LockEvent` fails. -/
theorem short_receipt_with_proxy_lock_log_fails :
    ([lockLogFromProxy, lockLogUndecodable] : List Log).length < 3 ∧
    (∀ e ∈ [lockLogFromProxy, lockLogUndecodable], e.Topics ≠ []) ∧
    lockLogFromProxy ∈ [lockLogFromProxy, lockLogUndecodable] ∧
    lockLogFromProxy.Topics.head? = some (sampleClient ⟨1, 10, []⟩).abiLockEvent.ID ∧
    lockLogFromProxy.Address = (sampleClient ⟨1, 10, []⟩).proxyAddr ∧
    sampleLockAbi.UnpackValues lockLogFromProxy.Data =
      .ok { fromAssetHash := 1, fromAddress := 2, toChainId := 7, toAssetHash := [3],
            toAddress := [4], amount := 1000 } ∧
    GetPaletteLockEvent (sampleClient ⟨1, 10, [lockLogFromProxy, lockLogUndecodable]⟩) 1
      = some { fromAsset := 0, fromAddress := 0, toAsset := 0, toAddress := 0,
               chainID := 0, amount := none,
               err := some (GoError.abi "abi: improperly formatted output") } ∧
    GetPaletteLockEvent (sampleClient ⟨1, 10, [lockLogFromProxy]⟩) 1
      = some { fromAsset := 0, fromAddress := 0, toAsset := 0, toAddress := 0,
               chainID := 0, amount := none,
               err := some (GoError.abi
                 "abi: cannot unmarshal []uint8 in to common.Address") } := by
  decide

/-- C7, amended: for a fetched receipt with fewer than three logs, each with a topic,
both decoders return a result, it is the result of the scan and the decode alone, and
its error is never the "logs length expect 3" error; in particular, when the last log
carrying the unlock event ID comes from the proxy and its data decodes, the unlock
decoder returns a nil error and the decoded values. -/
theorem log_count_check_is_soft (c : Client) (hash : common.Hash) (receipt : Receipt)
    (hr : c.TransactionReceipt hash = .ok receipt)
    (_hlen : receipt.Logs.length < 3)
    (htop : ∀ e ∈ receipt.Logs, e.Topics ≠ []) :
    (∃ r, GetPaletteLockEvent c hash = some r ∧ scanAndDecodeLock c receipt = some r ∧
        ∀ h n, r.err ≠ some (GoError.logsLengthExpect3 h n)) ∧
    (∃ r, GetPaletteUnlockEvent c hash = some r ∧ scanAndDecodeUnlock c receipt = some r ∧
        ∀ h n, r.err ≠ some (GoError.logsLengthExpect3 h n)) ∧
    (∀ pre e post v, receipt.Logs = pre ++ e :: post →
        e.Topics.head? = some c.abiUnLockEvent.ID →
        (∀ l ∈ post, l.Topics.head? ≠ some c.abiUnLockEvent.ID) →
        e.Address = c.proxyAddr → c.abiUnLockEvent.UnpackValues e.Data = .ok v →
        ∃ r, GetPaletteUnlockEvent c hash = some r ∧ r.err = none ∧
          r.toAddress = v.toAddress ∧ r.toAsset = v.toAssetHash ∧
          r.amount = some (v.amount : Int)) := by
  refine ⟨?_, ?_, ?_⟩
  · rw [GetPaletteLockEvent_eq_scanAndDecodeLock c hash receipt hr]
    obtain ⟨found, hf⟩ := scanLogs_isSome c.abiLockEvent.ID receipt.Logs none htop
    unfold scanAndDecodeLock
    cases found with
    | none => simp [hf]
    | some event =>
      obtain ⟨msg, hm⟩ := unpackLockEvent_is_abi_error c.abiLockEvent event.Data
      simp [hf, hm]
  · rw [GetPaletteUnlockEvent_eq_scanAndDecodeUnlock c hash receipt hr]
    obtain ⟨found, hf⟩ := scanLogs_isSome c.abiUnLockEvent.ID receipt.Logs none htop
    unfold scanAndDecodeUnlock
    cases found with
    | none => simp [hf]
    | some event =>
      cases hu : unpackUnlockEvent event.Data c.abiUnLockEvent with
      | error err =>
        obtain ⟨msg, rfl⟩ := unpackUnlockEvent_error_is_abi _ _ err hu
        simp [hf, hu]
      | ok ev => simp [hf, hu]
  · intro pre e post v hlogs hsig hpost _ hdec
    rw [GetPaletteUnlockEvent_eq_scanAndDecodeUnlock c hash receipt hr,
      scanAndDecodeUnlock_last_match c receipt pre e post hlogs htop hsig hpost,
      unpackUnlockEvent_of_values _ _ v hdec]
    exact ⟨_, rfl, rfl, rfl, rfl, rfl⟩

/-- A witness for the amended C7: a receipt of two logs, a log of another event and the
unlock log from the proxy, is decoded with a nil error. -/
theorem log_count_check_is_soft_witness :
    ∃ r, GetPaletteUnlockEvent (sampleClient ⟨1, 10, [otherLog, unlockLogFromProxy]⟩) 1
        = some r ∧
      r.err = none ∧ r.toAddress = 4 ∧ r.toAsset = 3 ∧ r.amount = some 500 :=
  (log_count_check_is_soft (sampleClient ⟨1, 10, [otherLog, unlockLogFromProxy]⟩) 1
      ⟨1, 10, [otherLog, unlockLogFromProxy]⟩ rfl (by decide) (by decide)).2.2
    [otherLog] unlockLogFromProxy [] { toAssetHash := 3, toAddress := 4, amount := 500 }
    rfl rfl (by decide) rfl rfl

/-! ## Waiting for a transaction -/

theorem WaitTransactionFrom_unsettled (c : Client) (hash : common.Hash) :
    ∀ (fuel n : Nat),
      (∀ j, n ≤ j → j < n + fuel → (c.TransactionByHash hash j).settled = false) →
      WaitTransactionFrom c hash fuel n = none
  | 0, _, _ => rfl
  | fuel + 1, n, h => by
    have hn := h n (Nat.le_refl n) (by omega)
    have ih := WaitTransactionFrom_unsettled c hash fuel (n + 1)
      (fun j h1 h2 => h j (by omega) (by omega))
    unfold WaitTransactionFrom
    simp only [ih, Option.map_none']
    cases he : (c.TransactionByHash hash n).err with
    | some err => rfl
    | none =>
      cases hp : (c.TransactionByHash hash n).isPending with
      | true => simp
      | false => simp [PollResponse.settled, he, hp] at hn

theorem WaitTransactionFrom_settled (c : Client) (hash : common.Hash) :
    ∀ (d n fuel : Nat),
      (c.TransactionByHash hash (n + d)).settled = true →
      (∀ j, n ≤ j → j < n + d → (c.TransactionByHash hash j).settled = false) →
      d + 1 ≤ fuel →
      ∃ events, WaitTransactionFrom c hash fuel n = some (events, c.DumpEventLog hash) ∧
        pollCount events = d + 1 ∧ dumpCount events = 1 ∧
        events.getLast? = some WaitEvent.dumpEventLog
  | 0, n, fuel, hs, _, hf => by
    obtain ⟨fuel, rfl⟩ : ∃ f, fuel = f + 1 := ⟨fuel - 1, by omega⟩
    simp only [PollResponse.settled, Nat.add_zero, Bool.and_eq_true, Option.isNone_iff_eq_none,
      Bool.not_eq_true'] at hs
    unfold WaitTransactionFrom
    simp only [hs.1, hs.2]
    cases hd : c.DumpEventLog hash <;> simp [pollCount, dumpCount]
  | d + 1, n, fuel, hs, hbefore, hf => by
    obtain ⟨fuel, rfl⟩ : ∃ f, fuel = f + 1 := ⟨fuel - 1, by omega⟩
    have hn := hbefore n (Nat.le_refl n) (by omega)
    have hs' : (c.TransactionByHash hash (n + 1 + d)).settled = true := by
      rw [show n + 1 + d = n + (d + 1) by omega]; exact hs
    obtain ⟨events, he, hp, hdc, hl⟩ := WaitTransactionFrom_settled c hash d (n + 1) fuel hs'
      (fun j h1 h2 => hbefore j (by omega) (by omega)) (by omega)
    have hne : events ≠ [] := by
      intro h0; rw [h0] at hl; simp at hl
    unfold WaitTransactionFrom
    simp only [he, Option.map_some']
    cases her : (c.TransactionByHash hash n).err with
    | some err =>
      refine ⟨_, rfl, ?_, ?_, ?_⟩
      · simp [pollCount, hp]
      · simp [dumpCount, hdc]
      · cases events with
        | nil => exact absurd rfl hne
        | cons x xs => simpa [List.getLast?_cons_cons] using hl
    | none =>
      cases hpe : (c.TransactionByHash hash n).isPending with
      | false => simp [PollResponse.settled, her, hpe] at hn
      | true =>
        refine ⟨WaitEvent.sleep :: WaitEvent.poll n :: events, by simp, ?_, ?_, ?_⟩
        · simp [pollCount, hp]
        · simp [dumpCount, hdc]
        · cases events with
          | nil => exact absurd rfl hne
          | cons x xs => simpa [List.getLast?_cons_cons] using hl

/-- C8: if the first answer of the node that is error-free and not pending is answer
number `k`, then `WaitTransaction` is still polling after `k` rounds and has returned
after `k + 1` rounds (and stays returned with more fuel), having polled `k + 1` times
and called `DumpEventLog` once, as its last action, and it returns the result of
`DumpEventLog`, so never the error of a poll.  If no answer is error-free and not
pending, `WaitTransaction` has not returned after any number of rounds. -/
theorem WaitTransaction_returns_at_first_settled_poll (c : Client) (hash : common.Hash) :
    (∀ k, (c.TransactionByHash hash k).settled = true →
      (∀ j, j < k → (c.TransactionByHash hash j).settled = false) →
      (∀ fuel, fuel ≤ k → WaitTransaction c hash fuel = none) ∧
      (∀ fuel, k + 1 ≤ fuel →
        ∃ events, WaitTransaction c hash fuel = some (events, c.DumpEventLog hash) ∧
          pollCount events = k + 1 ∧ dumpCount events = 1 ∧
          events.getLast? = some WaitEvent.dumpEventLog)) ∧
    ((∀ j, (c.TransactionByHash hash j).settled = false) →
      ∀ fuel, WaitTransaction c hash fuel = none) := by
  refine ⟨fun k hk hbefore => ⟨?_, ?_⟩, ?_⟩
  · intro fuel hf
    exact WaitTransactionFrom_unsettled c hash fuel 0
      (fun j _ h2 => hbefore j (by omega))
  · intro fuel hf
    exact WaitTransactionFrom_settled c hash k 0 fuel (by simpa using hk)
      (fun j _ h2 => hbefore j (by omega)) hf
  · intro hall fuel
    exact WaitTransactionFrom_unsettled c hash fuel 0 (fun j _ _ => hall j)

/-- A witness for C8: the node reports the transaction pending at polls 0 and 1 and
settled at poll 2; the wait is still running after two rounds and returns after
three. -/
theorem WaitTransaction_returns_at_first_settled_poll_witness :
    (∀ fuel, fuel ≤ 2 → WaitTransaction (sampleClient ⟨1, 10, []⟩) 1 fuel = none) ∧
    (∀ fuel, 2 + 1 ≤ fuel →
      ∃ events, WaitTransaction (sampleClient ⟨1, 10, []⟩) 1 fuel
          = some (events, (sampleClient ⟨1, 10, []⟩).DumpEventLog 1) ∧
        pollCount events = 2 + 1 ∧ dumpCount events = 1 ∧
        events.getLast? = some WaitEvent.dumpEventLog) :=
  (WaitTransaction_returns_at_first_settled_poll (sampleClient ⟨1, 10, []⟩) 1).1 2
    (by decide) (by decide)

/-! ## Nonce allocation -/

theorem makeAuth_nonce (i : EthInvoker) (n : Nat) (auth : TransactOpts)
    (hn : i.PendingNonceAt i.Address = .ok n) (ha : makeAuth i = .ok auth) :
    auth.Nonce = int64OfUint64 n := by
  unfold makeAuth at ha
  simp only [hn] at ha
  cases hg : i.SuggestGasPrice with
  | error e => simp [hg] at ha
  | ok g =>
    simp only [hg, Except.ok.injEq] at ha
    rw [← ha]

theorem int64OfUint64_small (n : Nat) (h : n < 2 ^ 63) : int64OfUint64 n = (n : Int) := by
  unfold int64OfUint64
  have h1 : n % 2 ^ 64 = n := Nat.mod_eq_of_lt (by omega)
  rw [h1, if_pos h]

/-- C9 fails as stated: two successive `makeAuth` calls of one invoker, between which
the node keeps reporting pending nonce 5 (for instance because the transaction sent
after the first call was reverted or is not yet seen by the node), both return
nonce 5. -/
theorem successive_makeAuth_repeats_nonce :
    (makeAuthCalls [sampleInvoker ⟨0, 1, []⟩, sampleInvoker ⟨0, 1, []⟩]).map nonceOf
      = [some 5, some 5] := by
  decide

/-- C9, amended: every `makeAuth` call asks the node for the pending nonce and returns
the value reported at that call (converted to int64).  So for two successive calls that
see pending nonces `n₁` and `n₂`: the nonces are equal when `n₁ = n₂`, and, for values
below 2^63, the second nonce is greater than the first exactly when `n₁ < n₂`. -/
theorem makeAuth_returns_reported_pending_nonce (i₁ i₂ : EthInvoker) (n₁ n₂ : Nat)
    (a₁ a₂ : TransactOpts)
    (h₁ : i₁.PendingNonceAt i₁.Address = .ok n₁)
    (h₂ : i₂.PendingNonceAt i₂.Address = .ok n₂)
    (hcalls : makeAuthCalls [i₁, i₂] = [.ok a₁, .ok a₂]) :
    a₁.Nonce = int64OfUint64 n₁ ∧ a₂.Nonce = int64OfUint64 n₂ ∧
    (n₁ = n₂ → a₁.Nonce = a₂.Nonce) ∧
    (n₁ < 2 ^ 63 → n₂ < 2 ^ 63 → (a₁.Nonce < a₂.Nonce ↔ n₁ < n₂)) := by
  simp only [makeAuthCalls, List.map_cons, List.map_nil, List.cons.injEq, and_true] at hcalls
  have e₁ := makeAuth_nonce i₁ n₁ a₁ h₁ hcalls.1
  have e₂ := makeAuth_nonce i₂ n₂ a₂ h₂ hcalls.2
  refine ⟨e₁, e₂, ?_, ?_⟩
  · intro h; rw [e₁, e₂, h]
  · intro b₁ b₂
    rw [e₁, e₂, int64OfUint64_small n₁ b₁, int64OfUint64_small n₂ b₂]
    exact Int.ofNat_lt

/-- A witness for the amended C9: the node reports pending nonce 5 at both calls. -/
theorem makeAuth_returns_reported_pending_nonce_witness :
    ((5 : Int) = int64OfUint64 5 ∧ (5 : Int) = int64OfUint64 5 ∧
      ((5 : Nat) = 5 → (5 : Int) = 5) ∧
      ((5 : Nat) < 2 ^ 63 → (5 : Nat) < 2 ^ 63 → ((5 : Int) < 5 ↔ (5 : Nat) < 5))) :=
  makeAuth_returns_reported_pending_nonce
    (sampleInvoker ⟨0, 1, []⟩) (sampleInvoker ⟨0, 1, []⟩) 5 5
    { From := 4660, Nonce := 5, Value := 0, GasLimit := 100000, GasPrice := 30 }
    { From := 4660, Nonce := 5, Value := 0, GasLimit := 100000, GasPrice := 30 }
    rfl rfl (by decide)

/-! ## Several allocations in flight -/

theorem AuthCall.step_step_start (i : EthInvoker) :
    AuthCall.step i (AuthCall.step i AuthCall.start) = AuthCall.done (makeAuth i) := by
  unfold makeAuth
  cases hn : i.PendingNonceAt i.Address with
  | error e => simp [AuthCall.step, hn]
  | ok n =>
    cases hg : i.SuggestGasPrice with
    | error e => simp [AuthCall.step, hn, hg]
    | ok g => simp [AuthCall.step, hn, hg]

theorem AuthCall.iterate_step_done (i : EthInvoker) (r : Except GoError TransactOpts) :
    ∀ m : Nat, (AuthCall.step i)^[m] (AuthCall.done r) = AuthCall.done r
  | 0 => rfl
  | m + 1 => by
    rw [Function.iterate_succ_apply]
    exact AuthCall.iterate_step_done i r m

theorem AuthCall.iterate_step_start_of_two_le (i : EthInvoker) (m : Nat) (h : 2 ≤ m) :
    (AuthCall.step i)^[m] AuthCall.start = AuthCall.done (makeAuth i) := by
  obtain ⟨m, rfl⟩ : ∃ k, m = k + 2 := ⟨m - 2, by omega⟩
  rw [Function.iterate_succ_apply, Function.iterate_succ_apply, AuthCall.step_step_start]
  exact AuthCall.iterate_step_done i _ m

theorem AuthCall.iterate_step_start_done (i : EthInvoker) (m : Nat)
    (r : Except GoError TransactOpts)
    (h : (AuthCall.step i)^[m] AuthCall.start = AuthCall.done r) : r = makeAuth i := by
  match m, h with
  | 0, h => simp at h
  | 1, h =>
    simp only [Function.iterate_succ, Function.iterate_zero, Function.comp_apply, id_eq,
      AuthCall.step] at h
    unfold makeAuth
    cases hn : i.PendingNonceAt i.Address with
    | error e =>
      simp only [hn, AuthCall.done.injEq] at h
      rw [← h]
      simp [hn]
    | ok n => simp [hn] at h
  | m + 2, h =>
    rw [AuthCall.iterate_step_start_of_two_le i (m + 2) (by omega)] at h
    exact (AuthCall.done.inj h).symm

theorem stepCaller_getElem? (i : EthInvoker) :
    ∀ (k : Nat) (cs : List AuthCall) (j : Nat),
      (stepCaller i k cs)[j]? =
        if j = k then (cs[j]?).map (AuthCall.step i) else cs[j]?
  | _, [], j => by simp [stepCaller]
  | 0, c :: cs, j => by
    cases j with
    | zero => simp [stepCaller]
    | succ j => simp [stepCaller]
  | k + 1, c :: cs, j => by
    cases j with
    | zero => simp [stepCaller]
    | succ j => simp [stepCaller, stepCaller_getElem? i k cs j]

theorem runSchedule_getElem? (i : EthInvoker) :
    ∀ (schedule : List Nat) (cs : List AuthCall) (j : Nat),
      (runSchedule i schedule cs)[j]? =
        (cs[j]?).map (AuthCall.step i)^[schedule.count j]
  | [], cs, j => by simp [runSchedule]
  | k :: schedule, cs, j => by
    rw [runSchedule, runSchedule_getElem? i schedule, stepCaller_getElem?]
    by_cases hjk : j = k
    · subst hjk
      simp only [if_true, List.count_cons_self, Option.map_map]
      rw [Function.iterate_succ]
    · have hkj : ¬ k = j := fun h => hjk h.symm
      simp [hjk, List.count_cons, hkj]

theorem returnedNonces_mem :
    ∀ (cs : List AuthCall) (x : Int), x ∈ returnedNonces cs →
      ∃ auth, AuthCall.done (.ok auth) ∈ cs ∧ auth.Nonce = x
  | [], x, h => by simp [returnedNonces] at h
  | .start :: cs, x, h => by
    obtain ⟨a, ha, hx⟩ := returnedNonces_mem cs x (by simpa [returnedNonces] using h)
    exact ⟨a, List.mem_cons_of_mem _ ha, hx⟩
  | .gotNonce _ :: cs, x, h => by
    obtain ⟨a, ha, hx⟩ := returnedNonces_mem cs x (by simpa [returnedNonces] using h)
    exact ⟨a, List.mem_cons_of_mem _ ha, hx⟩
  | .done (.error _) :: cs, x, h => by
    obtain ⟨a, ha, hx⟩ := returnedNonces_mem cs x (by simpa [returnedNonces] using h)
    exact ⟨a, List.mem_cons_of_mem _ ha, hx⟩
  | .done (.ok auth) :: cs, x, h => by
    simp only [returnedNonces, List.mem_cons] at h
    rcases h with h | h
    · exact ⟨auth, List.mem_cons_self _ _, h.symm⟩
    · obtain ⟨a, ha, hx⟩ := returnedNonces_mem cs x h
      exact ⟨a, List.mem_cons_of_mem _ ha, hx⟩

/-- C10 fails as stated: two `makeAuth` calls in flight at once against a node that
reports pending nonce 5, under the interleaved schedule 0,1,0,1 as well as under the
schedule 0,0,1,1, both return nonce 5, so the returned nonces contain a duplicate. -/
theorem concurrent_makeAuth_duplicates_nonce :
    returnedNonces (runSchedule (sampleInvoker ⟨1, 1, []⟩) [0, 1, 0, 1]
      (List.replicate 2 AuthCall.start)) = [5, 5] ∧
    returnedNonces (runSchedule (sampleInvoker ⟨1, 1, []⟩) [0, 0, 1, 1]
      (List.replicate 2 AuthCall.start)) = [5, 5] ∧
    ¬ (returnedNonces (runSchedule (sampleInvoker ⟨1, 1, []⟩) [0, 1, 0, 1]
      (List.replicate 2 AuthCall.start))).Nodup := by
  decide

/-- C10, amended: `makeAuth` holds no counter and takes no lock.  For `N` calls in
flight at once against a node whose answers do not change meanwhile, under every
schedule: a call that has returned has returned exactly what a lone `makeAuth` call
returns; a call that was scheduled at least twice has returned; and every nonce
returned is the pending nonce the node reports, the same for all callers. -/
theorem concurrent_makeAuth_calls_agree (i : EthInvoker) (N : Nat) (schedule : List Nat) :
    (∀ (k : Nat) (r : Except GoError TransactOpts),
      (runSchedule i schedule (List.replicate N AuthCall.start))[k]?
        = some (AuthCall.done r) → r = makeAuth i) ∧
    (∀ k : Nat, k < N → 2 ≤ schedule.count k →
      (runSchedule i schedule (List.replicate N AuthCall.start))[k]?
        = some (AuthCall.done (makeAuth i))) ∧
    (∀ n x, i.PendingNonceAt i.Address = .ok n →
      x ∈ returnedNonces (runSchedule i schedule (List.replicate N AuthCall.start)) →
      x = int64OfUint64 n) := by
  have hdone : ∀ (k : Nat) (r : Except GoError TransactOpts),
      (runSchedule i schedule (List.replicate N AuthCall.start))[k]?
        = some (AuthCall.done r) → r = makeAuth i := by
    intro k r h
    rw [runSchedule_getElem?] at h
    by_cases hk : k < N
    · rw [List.getElem?_replicate_of_lt hk] at h
      simp only [Option.map_some', Option.some.injEq] at h
      exact AuthCall.iterate_step_start_done i _ r h
    · rw [List.getElem?_eq_none (by simpa using Nat.le_of_not_lt hk)] at h
      simp at h
  refine ⟨hdone, ?_, ?_⟩
  · intro k hk hc
    rw [runSchedule_getElem?, List.getElem?_replicate_of_lt hk]
    simp only [Option.map_some']
    rw [AuthCall.iterate_step_start_of_two_le i _ hc]
  · intro n x hn hx
    obtain ⟨auth, hmem, hx'⟩ := returnedNonces_mem _ x hx
    obtain ⟨k, hk⟩ := List.getElem?_of_mem hmem
    have := hdone k (.ok auth) hk
    rw [← hx']
    exact makeAuth_nonce i n auth hn this.symm

/-- A witness for the amended C10: under the schedule 0,1,0,1 the second caller has
been scheduled twice and has returned what a lone `makeAuth` call returns. -/
theorem concurrent_makeAuth_calls_agree_witness :
    (runSchedule (sampleInvoker ⟨1, 1, []⟩) [0, 1, 0, 1]
        (List.replicate 2 AuthCall.start))[1]?
      = some (AuthCall.done (makeAuth (sampleInvoker ⟨1, 1, []⟩))) :=
  (concurrent_makeAuth_calls_agree (sampleInvoker ⟨1, 1, []⟩) 2 [0, 1, 0, 1]).2.1 1
    (by decide) (by decide)

/-! ## Operations stopped by a failing `makeAuth` -/

theorem makeAuth_error_of_query_failure (i : EthInvoker) (E : GoError)
    (hfail :
      (∃ e, i.PendingNonceAt i.Address = .error e ∧
        E = GoError.makeAuthNonce i.Address (GoError.rpc e)) ∨
      (∃ n e, i.PendingNonceAt i.Address = .ok n ∧ i.SuggestGasPrice = .error e ∧
        E = GoError.makeAuthGasPrice (GoError.rpc e))) :
    makeAuth i = .error E := by
  unfold makeAuth
  rcases hfail with ⟨e, he, rfl⟩ | ⟨n, e, hn, he, rfl⟩
  · simp [he]
  · simp [hn, he]

/-- C11: if the pending-nonce query fails, or it answers and the gas-price query fails,
`makeAuth` returns an error `E` and no transaction options, and every operation of the
invoker that is built on `makeAuth` returns the zero hash (the zero address for the
three deployments) with a non-nil error, having broadcast nothing and waited for
nothing; that error is `E` itself whenever the operation got as far as `makeAuth`, that
is, whenever the creation of the contract binding that precedes it did not fail. -/
theorem makeAuth_failure_stops_every_operation (i : EthInvoker) (b : ContractBindings)
    (E : GoError)
    (hfail :
      (∃ e, i.PendingNonceAt i.Address = .error e ∧
        E = GoError.makeAuthNonce i.Address (GoError.rpc e)) ∨
      (∃ n e, i.PendingNonceAt i.Address = .ok n ∧ i.SuggestGasPrice = .error e ∧
        E = GoError.makeAuthGasPrice (GoError.rpc e))) :
    makeAuth i = .error E ∧
    DeployPLTLockProxy i b = some (AddressResult.stopped E) ∧
    DeployNFTLockProxy i b = some (AddressResult.stopped E) ∧
    (∀ name symbol, DeployNFT i b name symbol = some (AddressResult.stopped E)) ∧
    (∀ proxyAddr ccmpAddr, ∃ E',
      SetPLTCCMP i b proxyAddr ccmpAddr = some (HashResult.stopped E') ∧
      (b.NewLockProxy proxyAddr = .ok () → E' = E)) ∧
    (∀ proxyAddr ccmpAddr, ∃ E',
      SetNFTCCMP i b proxyAddr ccmpAddr = some (HashResult.stopped E') ∧
      (b.NewPolyNFTLockProxy proxyAddr = .ok () → E' = E)) ∧
    (∀ localLockProxyAddr fromAssetHash toAssetHash toChainId, ∃ E',
      BindPLTAsset i b localLockProxyAddr fromAssetHash toAssetHash toChainId = some (HashResult.stopped E') ∧
      (b.NewLockProxy localLockProxyAddr = .ok () → E' = E)) ∧
    (∀ localLockProxy targetLockProxy targetSideChainID, ∃ E',
      BindPLTProxy i b localLockProxy targetLockProxy targetSideChainID = some (HashResult.stopped E') ∧
      (b.NewLockProxy localLockProxy = .ok () → E' = E)) ∧
    (∀ lockProxyAddr fromAssetHash toAssetHash targetSideChainId, ∃ E',
      BindNFTAsset i b lockProxyAddr fromAssetHash toAssetHash targetSideChainId = some (HashResult.stopped E') ∧
      (b.NewPolyNFTLockProxy lockProxyAddr = .ok () → E' = E)) ∧
    (∀ localLockProxy targetLockProxy targetSideChainID, ∃ E',
      BindNFTProxy i b localLockProxy targetLockProxy targetSideChainID = some (HashResult.stopped E') ∧
      (b.NewPolyNFTLockProxy localLockProxy = .ok () → E' = E)) ∧
    (∀ eccd eccm, ∃ E',
      TransferECCDOwnership i b eccd eccm = some (HashResult.stopped E') ∧
      (b.NewEthCrossChainData eccd = .ok () → E' = E)) ∧
    (∀ eccm ccmp, ∃ E',
      TransferECCMOwnership i b eccm ccmp = some (HashResult.stopped E') ∧
      (i.NewEthCrossChainManager eccm = .ok () → E' = E)) ∧
    (∀ ccmpAddr newOwner, ∃ E',
      TransferCCMPOwnership i b ccmpAddr newOwner = some (HashResult.stopped E') ∧
      (b.NewEthCrossChainManagerProxy ccmpAddr = .ok () → E' = E)) ∧
    (∀ proxyAddr newOwner, ∃ E',
      TransferPLTProxyOwnership i b proxyAddr newOwner = some (HashResult.stopped E') ∧
      (b.NewLockProxy proxyAddr = .ok () → E' = E)) ∧
    (∀ proxyAddr newOwner, ∃ E',
      TransferNFTProxyOwnership i b proxyAddr newOwner = some (HashResult.stopped E') ∧
      (b.NewPolyNFTLockProxy proxyAddr = .ok () → E' = E)) ∧
    (∀ eccmAddr rawHdr publickeys, ∃ E',
      InitGenesisBlock i eccmAddr rawHdr publickeys = some (HashResult.stopped E') ∧
      (i.NewEthCrossChainManager eccmAddr = .ok () → E' = E)) := by
  have hmake := makeAuth_error_of_query_failure i E hfail
  refine ⟨hmake, ?_, ?_, ?_, ?_, ?_, ?_, ?_, ?_, ?_, ?_, ?_, ?_, ?_, ?_, ?_⟩
  · simp only [DeployPLTLockProxy, hmake]
  · simp only [DeployNFTLockProxy, hmake]
  · intro name symbol
    simp only [DeployNFT, hmake]
  · intro proxyAddr ccmpAddr
    unfold SetPLTCCMP
    cases hb : b.NewLockProxy proxyAddr with
    | error e => exact ⟨_, rfl, fun h => by cases h⟩
    | ok u => exact ⟨E, by simp only [hmake], fun _ => rfl⟩
  · intro proxyAddr ccmpAddr
    unfold SetNFTCCMP
    cases hb : b.NewPolyNFTLockProxy proxyAddr with
    | error e => exact ⟨_, rfl, fun h => by cases h⟩
    | ok u => exact ⟨E, by simp only [hmake], fun _ => rfl⟩
  · intro localLockProxyAddr fromAssetHash toAssetHash toChainId
    unfold BindPLTAsset
    cases hb : b.NewLockProxy localLockProxyAddr with
    | error e => exact ⟨_, rfl, fun h => by cases h⟩
    | ok u => exact ⟨E, by simp only [hmake], fun _ => rfl⟩
  · intro localLockProxy targetLockProxy targetSideChainID
    unfold BindPLTProxy
    cases hb : b.NewLockProxy localLockProxy with
    | error e => exact ⟨_, rfl, fun h => by cases h⟩
    | ok u => exact ⟨E, by simp only [hmake], fun _ => rfl⟩
  · intro lockProxyAddr fromAssetHash toAssetHash targetSideChainId
    unfold BindNFTAsset
    cases hb : b.NewPolyNFTLockProxy lockProxyAddr with
    | error e => exact ⟨_, rfl, fun h => by cases h⟩
    | ok u => exact ⟨E, by simp only [hmake], fun _ => rfl⟩
  · intro localLockProxy targetLockProxy targetSideChainID
    unfold BindNFTProxy
    cases hb : b.NewPolyNFTLockProxy localLockProxy with
    | error e => exact ⟨_, rfl, fun h => by cases h⟩
    | ok u => exact ⟨E, by simp only [hmake], fun _ => rfl⟩
  · intro eccd eccm
    unfold TransferECCDOwnership
    cases hb : b.NewEthCrossChainData eccd with
    | error e => exact ⟨_, rfl, fun h => by cases h⟩
    | ok u => exact ⟨E, by simp only [hmake], fun _ => rfl⟩
  · intro eccm ccmp
    unfold TransferECCMOwnership
    cases hb : i.NewEthCrossChainManager eccm with
    | error e => exact ⟨_, rfl, fun h => by cases h⟩
    | ok u => exact ⟨E, by simp only [hmake], fun _ => rfl⟩
  · intro ccmpAddr newOwner
    unfold TransferCCMPOwnership
    cases hb : b.NewEthCrossChainManagerProxy ccmpAddr with
    | error e => exact ⟨_, rfl, fun h => by cases h⟩
    | ok u => exact ⟨E, by simp only [hmake], fun _ => rfl⟩
  · intro proxyAddr newOwner
    unfold TransferPLTProxyOwnership
    cases hb : b.NewLockProxy proxyAddr with
    | error e => exact ⟨_, rfl, fun h => by cases h⟩
    | ok u => exact ⟨E, by simp only [hmake], fun _ => rfl⟩
  · intro proxyAddr newOwner
    unfold TransferNFTProxyOwnership
    cases hb : b.NewPolyNFTLockProxy proxyAddr with
    | error e => exact ⟨_, rfl, fun h => by cases h⟩
    | ok u => exact ⟨E, by simp only [hmake], fun _ => rfl⟩
  · intro eccmAddr rawHdr publickeys
    unfold InitGenesisBlock
    cases hb : i.NewEthCrossChainManager eccmAddr with
    | error e => exact ⟨_, rfl, fun h => by cases h⟩
    | ok u => exact ⟨E, by simp only [hmake]; rfl, fun _ => rfl⟩

/-- A witness for C11: the node refuses the pending-nonce query; `BindPLTAsset` and
`InitGenesisBlock` return the zero hash with the error of `makeAuth` and an empty list
of effects. -/
theorem makeAuth_failure_stops_every_operation_witness :
    makeAuth invokerWithoutNonce
      = .error (GoError.makeAuthNonce 4660 (GoError.rpc "connection refused")) ∧
    BindPLTAsset invokerWithoutNonce (sampleBindings "Art") 1 2 3 4
      = some { hash := utils.EmptyHash,
               err := some (GoError.makeAuthNonce 4660 (GoError.rpc "connection refused")),
               effects := [], lines := [] } ∧
    InitGenesisBlock invokerWithoutNonce 1 [] []
      = some { hash := utils.EmptyHash,
               err := some (GoError.makeAuthNonce 4660 (GoError.rpc "connection refused")),
               effects := [], lines := [] } := by
  have h := makeAuth_failure_stops_every_operation invokerWithoutNonce (sampleBindings "Art")
    (GoError.makeAuthNonce 4660 (GoError.rpc "connection refused"))
    (Or.inl ⟨"connection refused", rfl, rfl⟩)
  refine ⟨h.1, ?_, ?_⟩
  · obtain ⟨E', h1, h2⟩ := h.2.2.2.2.2.2.1 1 2 3 4
    rw [h1, h2 rfl]; rfl
  · obtain ⟨E', h1, h2⟩ := h.2.2.2.2.2.2.2.2.2.2.2.2.2.2.2 1 [] []
    rw [h1, h2 rfl]; rfl

/-! ## The transaction options -/

/-- C12 fails as stated: for the pending nonce 2^63, a value of the node's uint64
answer, `makeAuth` succeeds with Nonce = -2^63, not 2^63. -/
theorem makeAuth_nonce_wraps_at_int64 :
    makeAuth { sampleInvoker ⟨1, 1, []⟩ with
               PendingNonceAt := fun _ => .ok 9223372036854775808 }
      = .ok { From := 4660, Nonce := -9223372036854775808, Value := 0,
              GasLimit := 100000, GasPrice := 30 } := by
  decide

/-- C12, amended: for every pending nonce `n` below 2^63 and every suggested gas price
`p` returned by the chain, `makeAuth` succeeds with Nonce = n, Value = 0, GasLimit =
DefaultGasLimit = 100000 and GasPrice = p * 1 = p; for a pending nonce from 2^63 up to
2^64 - 1 everything is the same except that Nonce = n - 2^64, the value of the
conversion `int64(nonce)`. -/
theorem makeAuth_transaction_options (i : EthInvoker) (n : Nat) (p : Int)
    (hn : i.PendingNonceAt i.Address = .ok n) (hp : i.SuggestGasPrice = .ok p) :
    DefaultGasLimit = 100000 ∧ p * 1 = p ∧
    (n < 2 ^ 63 →
      makeAuth i = .ok { From := i.Address, Nonce := (n : Int), Value := 0,
                         GasLimit := DefaultGasLimit, GasPrice := p * 1 }) ∧
    (2 ^ 63 ≤ n → n < 2 ^ 64 →
      makeAuth i = .ok { From := i.Address, Nonce := (n : Int) - 2 ^ 64, Value := 0,
                         GasLimit := DefaultGasLimit, GasPrice := p * 1 }) := by
  have hg : DefaultGasLimit % 2 ^ 64 = DefaultGasLimit := by decide
  refine ⟨rfl, Int.mul_one p, ?_, ?_⟩
  · intro h
    simp only [makeAuth, hn, hp, hg, int64OfUint64_small n h]
  · intro h1 h2
    have hm : n % 2 ^ 64 = n := Nat.mod_eq_of_lt h2
    have hi : int64OfUint64 n = (n : Int) - 2 ^ 64 := by
      unfold int64OfUint64
      rw [hm, if_neg (by omega)]
    simp only [makeAuth, hn, hp, hg, hi]

/-- A witness for the amended C12: pending nonce 5 and gas price 30. -/
theorem makeAuth_transaction_options_witness :
    makeAuth (sampleInvoker ⟨1, 1, []⟩)
      = .ok { From := 4660, Nonce := 5, Value := 0, GasLimit := DefaultGasLimit,
              GasPrice := 30 * 1 } :=
  (makeAuth_transaction_options (sampleInvoker ⟨1, 1, []⟩) 5 30 rfl rfl).2.2.1
    (by decide)

/-! ## Phase 3: the side-chain genesis header goes to the relay chain -/

/-- C13: `PLTSyncPLTGenesis` returns true exactly when the relay client is created, the
current side-chain header is fetched, its JSON serialization succeeds and
`SyncGenesisBlock` accepts it, in that order; on success `SyncGenesisBlock` was called
exactly once, with the configured side-chain id and the bytes obtained by serializing
the fetched header; and when a step fails the phase returns false and the run ends with
the error line of that step, no later step having been executed. -/
theorem PLTSyncPLTGenesis_steps {H B K : Type} (conf : Config) (env : CoreEnv H B K) :
    ((PLTSyncPLTGenesis conf env).1 = true ↔
      ∃ curr hdr enc,
        env.NewPolyClient conf.PolyRPCUrl (some conf.PolyAccountList) = .ok () ∧
        env.GetCurrentBlockHeader conf.PaletteRPCUrl = .ok (curr, hdr) ∧
        env.MarshalJSON hdr = .ok enc ∧
        env.SyncGenesisBlock conf.PaletteSideChainID enc = none) ∧
    ((PLTSyncPLTGenesis conf env).1 = true →
      ∃ curr hdr enc,
        env.GetCurrentBlockHeader conf.PaletteRPCUrl = .ok (curr, hdr) ∧
        env.MarshalJSON hdr = .ok enc ∧
        syncGenesisBlockCalls (PLTSyncPLTGenesis conf env).2
          = [(conf.PaletteSideChainID, enc)]) ∧
    (∀ e, env.NewPolyClient conf.PolyRPCUrl (some conf.PolyAccountList) = .error e →
      PLTSyncPLTGenesis conf env =
        (false, [CoreEvent.NewPolyClient conf.PolyRPCUrl (some conf.PolyAccountList),
                 CoreEvent.Errorf ("failed to generate poly client, err: " ++ e)])) ∧
    (∀ e, env.NewPolyClient conf.PolyRPCUrl (some conf.PolyAccountList) = .ok () →
      env.GetCurrentBlockHeader conf.PaletteRPCUrl = .error e →
      PLTSyncPLTGenesis conf env =
        (false, [CoreEvent.NewPolyClient conf.PolyRPCUrl (some conf.PolyAccountList),
                 CoreEvent.Infof "generate poly client success!",
                 CoreEvent.logsplit,
                 CoreEvent.NewSender conf.PaletteRPCUrl,
                 CoreEvent.GetCurrentBlockHeader,
                 CoreEvent.Errorf ("failed to get block header, err: " ++ e)])) ∧
    (∀ curr hdr e, env.NewPolyClient conf.PolyRPCUrl (some conf.PolyAccountList) = .ok () →
      env.GetCurrentBlockHeader conf.PaletteRPCUrl = .ok (curr, hdr) →
      env.MarshalJSON hdr = .error e →
      PLTSyncPLTGenesis conf env =
        (false, [CoreEvent.NewPolyClient conf.PolyRPCUrl (some conf.PolyAccountList),
                 CoreEvent.Infof "generate poly client success!",
                 CoreEvent.logsplit,
                 CoreEvent.NewSender conf.PaletteRPCUrl,
                 CoreEvent.GetCurrentBlockHeader,
                 CoreEvent.MarshalJSON,
                 CoreEvent.Errorf ("marshal header failed, err: " ++ e)])) ∧
    (∀ curr hdr enc e,
      env.NewPolyClient conf.PolyRPCUrl (some conf.PolyAccountList) = .ok () →
      env.GetCurrentBlockHeader conf.PaletteRPCUrl = .ok (curr, hdr) →
      env.MarshalJSON hdr = .ok enc →
      env.SyncGenesisBlock conf.PaletteSideChainID enc = some e →
      (PLTSyncPLTGenesis conf env).1 = false ∧
      syncGenesisBlockCalls (PLTSyncPLTGenesis conf env).2
        = [(conf.PaletteSideChainID, enc)] ∧
      errorLines (PLTSyncPLTGenesis conf env).2 = ["SyncEthGenesisHeader failed: " ++ e]) := by
  refine ⟨?_, ?_, ?_, ?_, ?_, ?_⟩
  · cases h1 : env.NewPolyClient conf.PolyRPCUrl (some conf.PolyAccountList) with
    | error e => simp [PLTSyncPLTGenesis, h1]
    | ok u =>
      cases h2 : env.GetCurrentBlockHeader conf.PaletteRPCUrl with
      | error e => simp [PLTSyncPLTGenesis, h1, h2]
      | ok ch =>
        obtain ⟨curr, hdr⟩ := ch
        cases h3 : env.MarshalJSON hdr with
        | error e => simp [PLTSyncPLTGenesis, h1, h2, h3]
        | ok enc =>
          cases h4 : env.SyncGenesisBlock conf.PaletteSideChainID enc with
          | some e => simp [PLTSyncPLTGenesis, h1, h2, h3, h4]
          | none =>
            have hres : (PLTSyncPLTGenesis conf env).1 = true := by
              simp [PLTSyncPLTGenesis, h1, h2, h3, h4]
            exact ⟨fun _ => ⟨curr, hdr, enc, rfl, rfl, h3, h4⟩, fun _ => hres⟩
  · cases h1 : env.NewPolyClient conf.PolyRPCUrl (some conf.PolyAccountList) with
    | error e => simp [PLTSyncPLTGenesis, h1]
    | ok u =>
      cases h2 : env.GetCurrentBlockHeader conf.PaletteRPCUrl with
      | error e => simp [PLTSyncPLTGenesis, h1, h2]
      | ok ch =>
        obtain ⟨curr, hdr⟩ := ch
        cases h3 : env.MarshalJSON hdr with
        | error e => simp [PLTSyncPLTGenesis, h1, h2, h3]
        | ok enc =>
          cases h4 : env.SyncGenesisBlock conf.PaletteSideChainID enc with
          | some e => simp [PLTSyncPLTGenesis, h1, h2, h3, h4]
          | none =>
            have hcalls : syncGenesisBlockCalls (PLTSyncPLTGenesis conf env).2
                = [(conf.PaletteSideChainID, enc)] := by
              simp [PLTSyncPLTGenesis, h1, h2, h3, h4, syncGenesisBlockCalls]
            exact fun _ => ⟨curr, hdr, enc, rfl, h3, hcalls⟩
  · intro e h1
    simp [PLTSyncPLTGenesis, h1]
  · intro e h1 h2
    simp [PLTSyncPLTGenesis, h1, h2]
  · intro curr hdr e h1 h2 h3
    simp [PLTSyncPLTGenesis, h1, h2, h3]
  · intro curr hdr enc e h1 h2 h3 h4
    simp [PLTSyncPLTGenesis, h1, h2, h3, h4, syncGenesisBlockCalls, errorLines]

/-- A witness for C13: in the environment where every step works the phase succeeds and
`SyncGenesisBlock` is called once, for side chain 201 with the serialized header. -/
theorem PLTSyncPLTGenesis_steps_witness :
    ∃ curr hdr enc,
      sampleEnv.GetCurrentBlockHeader sampleConfig.PaletteRPCUrl = .ok (curr, hdr) ∧
      sampleEnv.MarshalJSON hdr = .ok enc ∧
      syncGenesisBlockCalls (PLTSyncPLTGenesis sampleConfig sampleEnv).2
        = [(sampleConfig.PaletteSideChainID, enc)] :=
  (PLTSyncPLTGenesis_steps sampleConfig sampleEnv).2.1 (by decide)

/-! ## Phase 4: the relay-chain genesis goes to the side chain -/

/-- C14: `PLTSyncPolyGenesis` asks the relay chain for the block at height 0 and for no
other block.  It returns true exactly when the relay client is created, that block is
fetched, its bookkeepers are extracted, the side-chain client is created and
`InitGenesisBlock`, applied to the configured ECCM address, the `ToArray` serialization
of the header of that block and the non-compressed assembly of the bookkeepers
extracted from that same block, succeeds; on success that call was made exactly once;
and if fetching the block, extracting the bookkeepers or creating the side-chain client
fails, it returns false and `InitGenesisBlock` was not called; if `InitGenesisBlock`
itself fails it returns false as well. -/
theorem PLTSyncPolyGenesis_steps {H B K : Type} (conf : Config) (env : CoreEnv H B K) :
    (∀ h, CoreEvent.GetBlockByHeight h ∈ (PLTSyncPolyGenesis conf env).2 → h = 0) ∧
    (env.NewPolyClient conf.PolyRPCUrl none = .ok () →
      CoreEvent.GetBlockByHeight 0 ∈ (PLTSyncPolyGenesis conf env).2) ∧
    ((PLTSyncPolyGenesis conf env).1 = true →
      ∃ gB bookeepers txhash,
        env.GetBlockByHeight 0 = .ok gB ∧ env.GetBookeeper gB = .ok bookeepers ∧
        env.InitGenesisBlock conf.PaletteECCM (env.ToArray gB)
          (env.AssembleNoCompressBookeeper bookeepers) = .ok txhash ∧
        initGenesisBlockCalls (PLTSyncPolyGenesis conf env).2
          = [(conf.PaletteECCM, env.ToArray gB,
              env.AssembleNoCompressBookeeper bookeepers)]) ∧
    (∀ e, env.GetBlockByHeight 0 = .error e →
      (PLTSyncPolyGenesis conf env).1 = false ∧
      initGenesisBlockCalls (PLTSyncPolyGenesis conf env).2 = []) ∧
    (∀ gB e, env.GetBlockByHeight 0 = .ok gB → env.GetBookeeper gB = .error e →
      (PLTSyncPolyGenesis conf env).1 = false ∧
      initGenesisBlockCalls (PLTSyncPolyGenesis conf env).2 = []) ∧
    (∀ e, env.getPaletteCli = .error e →
      (PLTSyncPolyGenesis conf env).1 = false ∧
      initGenesisBlockCalls (PLTSyncPolyGenesis conf env).2 = []) ∧
    ((PLTSyncPolyGenesis conf env).1 = true ↔
      ∃ gB bookeepers txhash,
        env.NewPolyClient conf.PolyRPCUrl none = .ok () ∧
        env.GetBlockByHeight 0 = .ok gB ∧ env.GetBookeeper gB = .ok bookeepers ∧
        env.getPaletteCli = .ok () ∧
        env.InitGenesisBlock conf.PaletteECCM (env.ToArray gB)
          (env.AssembleNoCompressBookeeper bookeepers) = .ok txhash) ∧
    (∀ gB bookeepers e,
      env.GetBlockByHeight 0 = .ok gB → env.GetBookeeper gB = .ok bookeepers →
      env.InitGenesisBlock conf.PaletteECCM (env.ToArray gB)
        (env.AssembleNoCompressBookeeper bookeepers) = .error e →
      (PLTSyncPolyGenesis conf env).1 = false) := by
  cases h1 : env.NewPolyClient conf.PolyRPCUrl none with
  | error e => simp [PLTSyncPolyGenesis, h1, initGenesisBlockCalls]
  | ok u =>
    cases h2 : env.GetBlockByHeight 0 with
    | error e => simp [PLTSyncPolyGenesis, h1, h2, initGenesisBlockCalls]
    | ok gB =>
      cases h3 : env.GetBookeeper gB with
      | error e => simp [PLTSyncPolyGenesis, h1, h2, h3, initGenesisBlockCalls]
      | ok bookeepers =>
        cases h4 : env.getPaletteCli with
        | error e => simp [PLTSyncPolyGenesis, h1, h2, h3, h4, initGenesisBlockCalls]
        | ok v =>
          cases h5 : env.InitGenesisBlock conf.PaletteECCM (env.ToArray gB)
              (env.AssembleNoCompressBookeeper bookeepers) with
          | error e =>
            have hres : (PLTSyncPolyGenesis conf env).1 = false := by
              simp [PLTSyncPolyGenesis, h1, h2, h3, h4, h5]
            have htrace : ∀ h, CoreEvent.GetBlockByHeight h ∈ (PLTSyncPolyGenesis conf env).2
                → h = 0 := by
              simp [PLTSyncPolyGenesis, h1, h2, h3, h4, h5]
            have hmem : CoreEvent.GetBlockByHeight 0 ∈ (PLTSyncPolyGenesis conf env).2 := by
              simp [PLTSyncPolyGenesis, h1, h2, h3, h4, h5]
            refine ⟨htrace, fun _ => hmem, ?_, ?_, ?_, ?_, ?_, ?_⟩
            · rw [hres]; intro h; cases h
            · intro e' he; cases he
            · intro g e' hg he
              cases hg
              rw [h3] at he; cases he
            · intro e' he; cases he
            · rw [hres]
              constructor
              · intro h; cases h
              · rintro ⟨g, k, t, -, hg, hk, -, ht⟩
                cases hg
                rw [h3] at hk
                cases hk
                rw [h5] at ht
                cases ht
            · intro g k e' hg hk he
              exact hres
          | ok txhash =>
            have hres : (PLTSyncPolyGenesis conf env).1 = true := by
              simp [PLTSyncPolyGenesis, h1, h2, h3, h4, h5]
            have hcalls : initGenesisBlockCalls (PLTSyncPolyGenesis conf env).2
                = [(conf.PaletteECCM, env.ToArray gB,
                    env.AssembleNoCompressBookeeper bookeepers)] := by
              simp [PLTSyncPolyGenesis, h1, h2, h3, h4, h5, initGenesisBlockCalls]
            have htrace : ∀ h, CoreEvent.GetBlockByHeight h ∈ (PLTSyncPolyGenesis conf env).2
                → h = 0 := by
              simp [PLTSyncPolyGenesis, h1, h2, h3, h4, h5]
            have hmem : CoreEvent.GetBlockByHeight 0 ∈ (PLTSyncPolyGenesis conf env).2 := by
              simp [PLTSyncPolyGenesis, h1, h2, h3, h4, h5]
            refine ⟨htrace, fun _ => hmem, ?_, ?_, ?_, ?_, ?_, ?_⟩
            · exact fun _ => ⟨gB, bookeepers, txhash, rfl, h3, h5, hcalls⟩
            · intro e' he; cases he
            · intro g e' hg he
              cases hg
              rw [h3] at he; cases he
            · intro e' he; cases he
            · exact ⟨fun _ => ⟨gB, bookeepers, txhash, rfl, rfl, h3, rfl, h5⟩, fun _ => hres⟩
            · intro g k e' hg hk he
              cases hg
              rw [h3] at hk
              cases hk
              rw [h5] at he
              cases he

/-- A witness for C14: in the environment where every step works `InitGenesisBlock` is
applied once, to the ECCM at 48879, the header bytes `[0, 5, 0]` and the bookkeeper
bytes `[2, 8, 9]` of the block at height 0, and hands back transaction 77. -/
theorem PLTSyncPolyGenesis_steps_witness :
    ∃ gB bookeepers txhash,
      sampleEnv.GetBlockByHeight 0 = .ok gB ∧ sampleEnv.GetBookeeper gB = .ok bookeepers ∧
      sampleEnv.InitGenesisBlock sampleConfig.PaletteECCM (sampleEnv.ToArray gB)
        (sampleEnv.AssembleNoCompressBookeeper bookeepers) = .ok txhash ∧
      initGenesisBlockCalls (PLTSyncPolyGenesis sampleConfig sampleEnv).2
        = [(sampleConfig.PaletteECCM, sampleEnv.ToArray gB,
            sampleEnv.AssembleNoCompressBookeeper bookeepers)] :=
  (PLTSyncPolyGenesis_steps sampleConfig sampleEnv).2.2.1 (by decide)

/-! ## What a failed phase reports -/

/-- C15, evaluated on the code: when `getPaletteCli` fails in `PLTSyncPolyGenesis`, the
phase returns false and its only error line is the fixed text "get palette cross chain
admin client failed", whatever the text of the error; for the error "load keystore: no
such file" that line does not contain the text of the error. -/
theorem getPaletteCli_error_is_not_reported :
    (∀ e : String,
      PLTSyncPolyGenesis sampleConfig { sampleEnv with getPaletteCli := .error e } =
        (false, [CoreEvent.NewPolyClient "http://poly" none,
                 CoreEvent.Infof "generate poly client success!",
                 CoreEvent.GetBlockByHeight 0,
                 CoreEvent.GetBookeeper,
                 CoreEvent.getPaletteCli,
                 CoreEvent.Errorf "get palette cross chain admin client failed"])) ∧
    errorLines (PLTSyncPolyGenesis sampleConfig
        { sampleEnv with getPaletteCli := .error "load keystore: no such file" }).2
      = ["get palette cross chain admin client failed"] ∧
    ¬ containsText "get palette cross chain admin client failed"
        "load keystore: no such file" := by
  refine ⟨fun e => rfl, by decide, ?_⟩
  unfold containsText
  decide

/-! ## Logs without a topic -/

theorem scanLogs_eq_none_iff (id : common.Hash) :
    ∀ (logs : List Log) (event : Option Log),
      scanLogs id logs event = none ↔ ∃ e ∈ logs, e.Topics = []
  | [], event => by simp [scanLogs]
  | e :: rest, event => by
    cases ht : e.Topics with
    | nil =>
      simp only [scanLogs, ht, true_iff]
      exact ⟨e, List.mem_cons_self _ _, ht⟩
    | cons eid tl =>
      have hne : e.Topics ≠ [] := by rw [ht]; simp
      have key : (∃ x ∈ e :: rest, x.Topics = []) ↔ ∃ x ∈ rest, x.Topics = [] := by
        constructor
        · rintro ⟨x, hx, hxt⟩
          rcases List.mem_cons.1 hx with h | h
          · subst h; exact absurd hxt hne
          · exact ⟨x, h, hxt⟩
        · rintro ⟨x, hx, hxt⟩
          exact ⟨x, List.mem_cons_of_mem _ hx, hxt⟩
      simp only [scanLogs, ht, ne_eq]
      rw [key]
      split
      · exact scanLogs_eq_none_iff id rest event
      · exact scanLogs_eq_none_iff id rest (some e)

theorem scanAndDecodeLock_eq_none_iff (c : Client) (receipt : Receipt) :
    scanAndDecodeLock c receipt = none ↔
      scanLogs c.abiLockEvent.ID receipt.Logs none = none := by
  unfold scanAndDecodeLock
  cases hs : scanLogs c.abiLockEvent.ID receipt.Logs none with
  | none => simp
  | some found =>
    cases found with
    | none => simp
    | some event => cases hu : unpackLockEvent event.Data c.abiLockEvent <;> simp [hu]

theorem scanAndDecodeUnlock_eq_none_iff (c : Client) (receipt : Receipt) :
    scanAndDecodeUnlock c receipt = none ↔
      scanLogs c.abiUnLockEvent.ID receipt.Logs none = none := by
  unfold scanAndDecodeUnlock
  cases hs : scanLogs c.abiUnLockEvent.ID receipt.Logs none with
  | none => simp
  | some found =>
    cases found with
    | none => simp
    | some event => cases hu : unpackUnlockEvent event.Data c.abiUnLockEvent <;> simp [hu]

/-- C16: the scan reads `Topics[0]` of every log.  For a fetched receipt, each decoder
ends in the out-of-range failure exactly when some log of the receipt has no topic, and
returns a result exactly when every log has at least one topic; so one log without a
topic makes the decoder fail wherever it stands and whatever the other logs are. -/
theorem decoder_fails_iff_some_log_has_no_topic (c : Client) (hash : common.Hash)
    (receipt : Receipt) (hr : c.TransactionReceipt hash = .ok receipt) :
    (GetPaletteLockEvent c hash = none ↔ ∃ e ∈ receipt.Logs, e.Topics = []) ∧
    (GetPaletteUnlockEvent c hash = none ↔ ∃ e ∈ receipt.Logs, e.Topics = []) ∧
    ((∃ r, GetPaletteLockEvent c hash = some r) ↔ ∀ e ∈ receipt.Logs, e.Topics ≠ []) ∧
    ((∃ r, GetPaletteUnlockEvent c hash = some r) ↔ ∀ e ∈ receipt.Logs, e.Topics ≠ []) ∧
    (∀ pre e post, receipt.Logs = pre ++ e :: post → e.Topics = [] →
      GetPaletteLockEvent c hash = none ∧ GetPaletteUnlockEvent c hash = none) := by
  have hl : GetPaletteLockEvent c hash = none ↔ ∃ e ∈ receipt.Logs, e.Topics = [] := by
    rw [GetPaletteLockEvent_eq_scanAndDecodeLock c hash receipt hr,
      scanAndDecodeLock_eq_none_iff, scanLogs_eq_none_iff]
  have hu : GetPaletteUnlockEvent c hash = none ↔ ∃ e ∈ receipt.Logs, e.Topics = [] := by
    rw [GetPaletteUnlockEvent_eq_scanAndDecodeUnlock c hash receipt hr,
      scanAndDecodeUnlock_eq_none_iff, scanLogs_eq_none_iff]
  have hsome : ∀ {α : Type} (o : Option α), (∃ r, o = some r) ↔ ¬ o = none := by
    intro α o; cases o <;> simp
  refine ⟨hl, hu, ?_, ?_, ?_⟩
  · rw [hsome, hl]
    simp
  · rw [hsome, hu]
    simp
  · intro pre e post hlogs ht
    have hex : ∃ x ∈ receipt.Logs, x.Topics = [] :=
      ⟨e, by rw [hlogs]; simp, ht⟩
    exact ⟨hl.2 hex, hu.2 hex⟩

/-- A witness for C16: the well-formed lock log from the proxy, then a log without any
topic, then a log of another event; both decoders fail. -/
theorem decoder_fails_iff_some_log_has_no_topic_witness :
    GetPaletteLockEvent
        (sampleClient ⟨1, 10, [lockLogFromProxy, ⟨259, [], []⟩, otherLog]⟩) 1 = none ∧
    GetPaletteUnlockEvent
        (sampleClient ⟨1, 10, [lockLogFromProxy, ⟨259, [], []⟩, otherLog]⟩) 1 = none :=
  (decoder_fails_iff_some_log_has_no_topic
      (sampleClient ⟨1, 10, [lockLogFromProxy, ⟨259, [], []⟩, otherLog]⟩) 1
      ⟨1, 10, [lockLogFromProxy, ⟨259, [], []⟩, otherLog]⟩ rfl).2.2.2.2
    [lockLogFromProxy] ⟨259, [], []⟩ [otherLog] rfl rfl

/-! ## Several logs with the event signature -/

theorem scanLogs_map_address (id : common.Hash) (f : Log → common.Address) :
    ∀ (logs : List Log) (event : Option Log),
      scanLogs id (logs.map fun l => { l with Address := f l })
          (event.map fun l => { l with Address := f l })
        = (scanLogs id logs event).map (Option.map fun l => { l with Address := f l })
  | [], event => by simp [scanLogs]
  | e :: rest, event => by
    cases ht : e.Topics with
    | nil => simp [scanLogs, ht]
    | cons eid tl =>
      simp only [List.map_cons, scanLogs, ht, ne_eq]
      split
      · exact scanLogs_map_address id f rest event
      · have h := scanLogs_map_address id f rest (some e)
        simp only [Option.map_some', ht] at h
        exact h

/-- C17: for a fetched receipt whose logs all have a topic, let `e` be the last log
whose first topic is the lock event ID (resp. the unlock event ID).  Then the scan
selects `e`, and the decoder returns the decoding of the data of `e`: its fields with a
nil error when the data unpacks, the unpacking error with zero values when it does not.
In terms of the decoded input values: the unlock decoder returns the values decoded
from `e`, and the lock decoder returns the error of storing them in `LockEvent`.
The earlier logs with the same signature and the emitting addresses do not matter:
nothing is assumed about them, and rewriting the address of every log changes the
selected log only by that rewriting. -/
theorem last_log_with_signature_is_decoded (c : Client) (hash : common.Hash)
    (receipt : Receipt) (pre : List Log) (e : Log) (post : List Log)
    (hr : c.TransactionReceipt hash = .ok receipt)
    (htop : ∀ l ∈ receipt.Logs, l.Topics ≠ [])
    (hlogs : receipt.Logs = pre ++ e :: post) :
    (e.Topics.head? = some c.abiLockEvent.ID →
      (∀ l ∈ post, l.Topics.head? ≠ some c.abiLockEvent.ID) →
      scanLogs c.abiLockEvent.ID receipt.Logs none = some (some e) ∧
      (∀ ev, unpackLockEvent e.Data c.abiLockEvent = .ok ev →
        GetPaletteLockEvent c hash =
          some { fromAsset := ev.FromAssetHash, fromAddress := ev.FromAddress,
                 toAsset := ev.ToAssetHash, toAddress := ev.ToAddress,
                 chainID := ev.ToChainId, amount := ev.Amount, err := none }) ∧
      (∀ err, unpackLockEvent e.Data c.abiLockEvent = .error err →
        GetPaletteLockEvent c hash =
          some { fromAsset := 0, fromAddress := 0, toAsset := 0, toAddress := 0,
                 chainID := 0, amount := none, err := some err }) ∧
      (∀ v, c.abiLockEvent.UnpackValues e.Data = .ok v →
        GetPaletteLockEvent c hash =
          some { fromAsset := 0, fromAddress := 0, toAsset := 0, toAddress := 0,
                 chainID := 0, amount := none,
                 err := some (GoError.abi
                   "abi: cannot unmarshal []uint8 in to common.Address") }) ∧
      (∀ msg, c.abiLockEvent.UnpackValues e.Data = .error msg →
        GetPaletteLockEvent c hash =
          some { fromAsset := 0, fromAddress := 0, toAsset := 0, toAddress := 0,
                 chainID := 0, amount := none, err := some (GoError.abi msg) })) ∧
    (e.Topics.head? = some c.abiUnLockEvent.ID →
      (∀ l ∈ post, l.Topics.head? ≠ some c.abiUnLockEvent.ID) →
      scanLogs c.abiUnLockEvent.ID receipt.Logs none = some (some e) ∧
      (∀ ev, unpackUnlockEvent e.Data c.abiUnLockEvent = .ok ev →
        GetPaletteUnlockEvent c hash =
          some { toAddress := ev.ToAddress, toAsset := ev.ToAssetHash,
                 amount := ev.Amount, err := none }) ∧
      (∀ err, unpackUnlockEvent e.Data c.abiUnLockEvent = .error err →
        GetPaletteUnlockEvent c hash =
          some { toAddress := 0, toAsset := 0, amount := none, err := some err }) ∧
      (∀ v, c.abiUnLockEvent.UnpackValues e.Data = .ok v →
        GetPaletteUnlockEvent c hash =
          some { toAddress := v.toAddress, toAsset := v.toAssetHash,
                 amount := some (v.amount : Int), err := none }) ∧
      (∀ msg, c.abiUnLockEvent.UnpackValues e.Data = .error msg →
        GetPaletteUnlockEvent c hash =
          some { toAddress := 0, toAsset := 0, amount := none,
                 err := some (GoError.abi msg) })) ∧
    (∀ (id : common.Hash) (f : Log → common.Address),
      scanLogs id (receipt.Logs.map fun l => { l with Address := f l }) none
        = (scanLogs id receipt.Logs none).map
            (Option.map fun l => { l with Address := f l })) := by
  refine ⟨?_, ?_, ?_⟩
  · intro hsig hlast
    have hscan := scanLogs_last_match_in_receipt _ receipt pre e post hlogs htop hsig hlast
    have hres := scanAndDecodeLock_last_match c receipt pre e post hlogs htop hsig hlast
    rw [← GetPaletteLockEvent_eq_scanAndDecodeLock c hash receipt hr] at hres
    refine ⟨hscan, ?_, ?_, ?_, ?_⟩
    · intro ev hdec
      rw [hres, hdec]
    · intro err hdec
      rw [hres, hdec]
    · intro v hv
      rw [hres, unpackLockEvent_of_values _ _ v hv]
    · intro msg hv
      rw [hres, unpackLockEvent_of_error _ _ msg hv]
  · intro hsig hlast
    have hscan := scanLogs_last_match_in_receipt _ receipt pre e post hlogs htop hsig hlast
    have hres := scanAndDecodeUnlock_last_match c receipt pre e post hlogs htop hsig hlast
    rw [← GetPaletteUnlockEvent_eq_scanAndDecodeUnlock c hash receipt hr] at hres
    refine ⟨hscan, ?_, ?_, ?_, ?_⟩
    · intro ev hdec
      rw [hres, hdec]
    · intro err hdec
      rw [hres, hdec]
    · intro v hv
      rw [hres, unpackUnlockEvent_of_values _ _ v hv]
    · intro msg hv
      rw [hres, unpackUnlockEvent_of_error _ _ msg hv]
  · intro id f
    exact scanLogs_map_address id f receipt.Logs none

/-- A witness for C17: the unlock log from the proxy followed by the unlock log from
the stranger; the second one is selected and decoded. -/
theorem last_log_with_signature_is_decoded_witness :
    scanLogs (sampleClient ⟨1, 10, []⟩).abiUnLockEvent.ID
        [unlockLogFromProxy, unlockLogFromStranger, otherLog] none
      = some (some unlockLogFromStranger) ∧
    GetPaletteUnlockEvent
        (sampleClient ⟨1, 10, [unlockLogFromProxy, unlockLogFromStranger, otherLog]⟩) 1
      = some { toAddress := 8, toAsset := 7, amount := some 42, err := none } := by
  have h := (last_log_with_signature_is_decoded
    (sampleClient ⟨1, 10, [unlockLogFromProxy, unlockLogFromStranger, otherLog]⟩) 1
    ⟨1, 10, [unlockLogFromProxy, unlockLogFromStranger, otherLog]⟩
    [unlockLogFromProxy] unlockLogFromStranger [otherLog] rfl (by decide) rfl).2.1
    rfl (by decide)
  exact ⟨h.1, h.2.2.2.1 { toAssetHash := 7, toAddress := 8, amount := 42 } rfl⟩

/-! ## Deploying the NFT mapping contract -/

/-- C18: whenever `DeployNFT` returns with a nil error, `makeAuth` succeeded, the
deployment was broadcast, the address returned is the address of the deployed contract,
the receipt of the deployment transaction was fetched with a non-zero Status, and the
name read back from the contract equals the requested name; whenever it returns with a
non-nil error the address is the zero address; and when the deployment is confirmed
with a successful receipt but the name read back differs, it returns the zero address
and the name-mismatch error although the deployment transaction was broadcast and
confirmed. -/
theorem DeployNFT_checks_deployed_name (i : EthInvoker) (b : ContractBindings)
    (name symbol : String) :
    (∀ res, DeployNFT i b name symbol = some res →
      (res.err = none →
        ∃ auth tx r,
          makeAuth i = .ok auth ∧
          b.DeployCrossChainNFTMapping auth name symbol = .ok (res.address, tx) ∧
          i.TransactionReceipt tx = .ok r ∧ r.Status ≠ 0 ∧
          b.NFTMapping_Name res.address = .ok name ∧
          res.effects = [ChainEffect.broadcast tx, ChainEffect.waitConfirm tx]) ∧
      (res.err ≠ none → res.address = utils.EmptyAddress)) ∧
    (∀ auth address tx r nameAfterDeploy,
      makeAuth i = .ok auth →
      b.DeployCrossChainNFTMapping auth name symbol = .ok (address, tx) →
      i.WaitTransactionConfirm tx = true →
      i.TransactionReceipt tx = .ok r → r.Status ≠ 0 →
      b.NFTMapping_Name address = .ok nameAfterDeploy → nameAfterDeploy ≠ name →
      ∃ res, DeployNFT i b name symbol = some res ∧
        res.address = utils.EmptyAddress ∧
        res.err = some (GoError.mappingNameNotEqual nameAfterDeploy name) ∧
        res.effects = [ChainEffect.broadcast tx, ChainEffect.waitConfirm tx]) := by
  constructor
  · intro res hres
    unfold DeployNFT at hres
    cases ha : makeAuth i with
    | error e =>
      simp only [ha, Option.some.injEq] at hres
      subst hres
      simp [AddressResult.stopped]
    | ok auth =>
      simp only [ha] at hres
      cases hd : b.DeployCrossChainNFTMapping auth name symbol with
      | error e =>
        simp only [hd, Option.some.injEq] at hres
        subst hres
        simp [AddressResult.stopped]
      | ok at' =>
        obtain ⟨address, tx⟩ := at'
        simp only [hd] at hres
        cases hw : waitTxConfirm i tx with
        | none => simp [hw] at hres
        | some out =>
          obtain ⟨lines, oerr⟩ := out
          have hdump := waitTxConfirm_eq_DumpTx i tx _ hw
          cases oerr with
          | some e =>
            simp only [hw, Option.some.injEq] at hres
            subst hres
            simp
          | none =>
            simp only [hw] at hres
            have hrec : ∃ r, i.TransactionReceipt tx = .ok r ∧ r.Status ≠ 0 := by
              apply (DumpTx_err_eq_none_iff i tx).1
              rw [← hdump]
            cases hn : b.NFTMapping_Name address with
            | error e =>
              simp only [hn, Option.some.injEq] at hres
              subst hres
              simp
            | ok nameAfterDeploy =>
              simp only [hn] at hres
              by_cases hne : nameAfterDeploy = name
              · simp only [ne_eq, hne, not_true_eq_false, if_false, Option.some.injEq] at hres
                subst hres
                obtain ⟨r, hr1, hr2⟩ := hrec
                refine ⟨fun _ => ⟨auth, tx, r, rfl, hd, hr1, hr2, ?_, rfl⟩,
                  fun h => absurd rfl h⟩
                rw [hn, hne]
              · simp only [ne_eq, hne, not_false_eq_true, if_true, Option.some.injEq] at hres
                subst hres
                simp
  · intro auth address tx r nameAfterDeploy ha hd hw hr hs hn hne
    have hdump : DumpTx i tx
        = (LogLine.txhash tx (r.BlockNumber % 2 ^ 64) :: dumpEvents r.Logs, none) := by
      simp [DumpTx, GetReceipt, hr, hs]
    have hwt : waitTxConfirm i tx
        = some (LogLine.txhash tx (r.BlockNumber % 2 ^ 64) :: dumpEvents r.Logs, none) := by
      simp [waitTxConfirm, hw, hdump]
    refine ⟨{ address := utils.EmptyAddress,
              err := some (GoError.mappingNameNotEqual nameAfterDeploy name),
              effects := [ChainEffect.broadcast tx, ChainEffect.waitConfirm tx],
              lines := LogLine.txhash tx (r.BlockNumber % 2 ^ 64) :: dumpEvents r.Logs },
      ?_, rfl, rfl, rfl⟩
    simp [DeployNFT, ha, hd, hwt, hn, hne]

/-- A witness for C18: the deployment of "Art" is confirmed with a successful receipt
but the contract reports the name "Other"; `DeployNFT` returns the zero address and the
name-mismatch error after transaction 77 was broadcast and confirmed. -/
theorem DeployNFT_checks_deployed_name_witness :
    ∃ res, DeployNFT (sampleInvoker ⟨1, 1, []⟩) (sampleBindings "Other") "Art" "ART"
        = some res ∧
      res.address = utils.EmptyAddress ∧
      res.err = some (GoError.mappingNameNotEqual "Other" "Art") ∧
      res.effects = [ChainEffect.broadcast 77, ChainEffect.waitConfirm 77] :=
  (DeployNFT_checks_deployed_name (sampleInvoker ⟨1, 1, []⟩) (sampleBindings "Other")
      "Art" "ART").2
    { From := 4660, Nonce := 5, Value := 0, GasLimit := 100000, GasPrice := 30 }
    4096 77 ⟨1, 1, []⟩ "Other" (by decide) rfl rfl rfl (by decide) rfl (by decide)

end PltDeploy
